import Mathlib

/-!
# CHERI capability checks and capability-mutation helpers

A shallow embedding of `target/cheri-common/cheri-helper-utils.h` and
`target/cheri-common/op_helper_cheri_common.c` (non-AArch64, non-Morello
configuration, 64-bit `target_ulong`).

* Machine integers are natural numbers; wrap-around is written `% 2 ^ 64`.
* A helper that can raise a fault returns `Except Trap _`; raising never returns,
  so the first fault raised is the outcome.
* The register file is passed explicitly (`CPUArchState`).
* Statistics counters and trace/log output are side channels and are left out.
-/

namespace Cheri

/-! ## Exception causes and traps -/

/-- Capability exception causes, in the order `cheri_cause_str` enumerates them. -/
inductive CheriCapExcCause
  | CapEx_None
  | CapEx_LengthViolation
  | CapEx_TagViolation
  | CapEx_SealViolation
  | CapEx_TypeViolation
  | CapEx_CallTrap
  | CapEx_ReturnTrap
  | CapEx_TSSUnderFlow
  | CapEx_UserDefViolation
  | CapEx_TLBNoStoreCap
  | CapEx_InexactBounds
  | CapEx_UnalignedBase
  | CapEx_CapLoadGen
  | CapEx_GlobalViolation
  | CapEx_PermitExecuteViolation
  | CapEx_PermitLoadViolation
  | CapEx_PermitStoreViolation
  | CapEx_PermitLoadCapViolation
  | CapEx_PermitStoreCapViolation
  | CapEx_PermitStoreLocalCapViolation
  | CapEx_PermitSealViolation
  | CapEx_AccessSystemRegsViolation
  | CapEx_AccessCCallIDCViolation
  | CapEx_PermitCCallViolation
  | CapEx_PermitUnsealViolation
  | CapEx_PermitSetCIDViolation
  | CapEx_UninitViolation
  | CapEx_UninitLoadViolation
  deriving DecidableEq, Repr

/-- Ways a helper can leave without returning: a capability fault raised through
`raise_cheri_exception*` (cause and register number), the no-return unaligned-access
handler, the load-tag trap, or a failed `assert` / `tcg_abort`. -/
inductive Trap
  | cheri (cause : CheriCapExcCause) (reg : Nat)
  | unaligned (addr : Nat)
  | load_tag (va : Nat) (reg : Nat)
  | abort
  deriving DecidableEq, Repr

/-! ## Capability values -/

/-- Modelled from the spec: the CapabilityValue of the data model (section 3); the C
declaration of `cap_register_t` belongs to the compressed-capability library, whose
source is missing. `_cr_top` is a `cap_length_t` (one bit wider than an address),
every other numeric field is a machine word. -/
structure cap_register_t where
  cr_tag : Bool
  cr_base : Nat
  _cr_top : Nat
  _cr_cursor : Nat
  cr_perms : Nat
  cr_uperms : Nat
  cr_otype : Nat
  cr_flags : Nat
  deriving DecidableEq, Repr

/-! ### Architecture constants

Modelled from the spec: the permission bits and object-type constants are declared in
`cheri_defs.h`, whose source is missing. The values are those of the 128-bit
CHERI-RISC-V format; the development only relies on the named permissions being
distinct single bits and on the reserved object types lying above the last
non-reserved one. -/

/-- Modelled from the spec: GLOBAL permission bit (`cheri_defs.h`). -/
def CAP_PERM_GLOBAL : Nat := 2 ^ 0
/-- Modelled from the spec: EXECUTE permission bit (`cheri_defs.h`). -/
def CAP_PERM_EXECUTE : Nat := 2 ^ 1
/-- Modelled from the spec: LOAD permission bit (`cheri_defs.h`). -/
def CAP_PERM_LOAD : Nat := 2 ^ 2
/-- Modelled from the spec: STORE permission bit (`cheri_defs.h`). -/
def CAP_PERM_STORE : Nat := 2 ^ 3
/-- Modelled from the spec: LOAD_CAP permission bit (`cheri_defs.h`). -/
def CAP_PERM_LOAD_CAP : Nat := 2 ^ 4
/-- Modelled from the spec: STORE_CAP permission bit (`cheri_defs.h`). -/
def CAP_PERM_STORE_CAP : Nat := 2 ^ 5
/-- Modelled from the spec: STORE_LOCAL permission bit (`cheri_defs.h`). -/
def CAP_PERM_STORE_LOCAL : Nat := 2 ^ 6
/-- Modelled from the spec: SEAL permission bit (`cheri_defs.h`). -/
def CAP_PERM_SEAL : Nat := 2 ^ 7
/-- Modelled from the spec: CINVOKE permission bit (`cheri_defs.h`). -/
def CAP_PERM_CINVOKE : Nat := 2 ^ 8
/-- Modelled from the spec: UNSEAL permission bit (`cheri_defs.h`). -/
def CAP_PERM_UNSEAL : Nat := 2 ^ 9

/-- Modelled from the spec: largest object-type value the encoding can hold
(`cheri_defs.h`). -/
def CAP_MAX_REPRESENTABLE_OTYPE : Nat := 2 ^ 18 - 1
/-- Modelled from the spec: reserved object type of an unsealed capability. -/
def CAP_OTYPE_UNSEALED : Nat := CAP_MAX_REPRESENTABLE_OTYPE
/-- Modelled from the spec: reserved object type of a sealed-entry (sentry) capability. -/
def CAP_OTYPE_SENTRY : Nat := CAP_MAX_REPRESENTABLE_OTYPE - 1
/-- Modelled from the spec: last object type that is not architecturally reserved. -/
def CAP_LAST_NONRESERVED_OTYPE : Nat := CAP_MAX_REPRESENTABLE_OTYPE - 4
/-- Modelled from the spec: the reserved "unsealed" sentinel read as a cursor, that is
`(target_long)-1` as an address-width value. -/
def CAP_OTYPE_UNSEALED_SIGNED : Nat := 2 ^ 64 - 1

/-! ### Predicates and accessors (`cheri_utils.h`) -/

/-- Modelled from the spec: cursor accessor of `cheri_utils.h`. -/
def cap_get_cursor (c : cap_register_t) : Nat := c._cr_cursor
/-- Modelled from the spec: base accessor of `cheri_utils.h`. -/
def cap_get_base (c : cap_register_t) : Nat := c.cr_base
/-- Modelled from the spec: full-width (one-past-end) top accessor of `cheri_utils.h`. -/
def cap_get_top_full (c : cap_register_t) : Nat := c._cr_top
/-- Modelled from the spec: length `top - base` in the wide accumulator. -/
def cap_get_length_full (c : cap_register_t) : Nat := c._cr_top - c.cr_base
/-- Modelled from the spec: hardware permission bitset accessor. -/
def cap_get_perms (c : cap_register_t) : Nat := c.cr_perms
/-- Modelled from the spec: software permission bitset accessor. -/
def cap_get_uperms (c : cap_register_t) : Nat := c.cr_uperms
/-- Modelled from the spec: object type read as an unsigned value. -/
def cap_get_otype_unsigned (c : cap_register_t) : Nat := c.cr_otype

/-- Modelled from the spec: permission membership, every bit of `perms` is held. -/
def cap_has_perms (c : cap_register_t) (perms : Nat) : Bool :=
  (cap_get_perms c &&& perms) == perms

/-- Modelled from the spec: object type is Unsealed. -/
def cap_is_unsealed (c : cap_register_t) : Bool :=
  cap_get_otype_unsigned c == CAP_OTYPE_UNSEALED

/-- Modelled from the spec: object type is SealedEntry. -/
def cap_is_sealed_entry (c : cap_register_t) : Bool :=
  cap_get_otype_unsigned c == CAP_OTYPE_SENTRY

/-- Modelled from the spec: object type is SealedWithType, a non-reserved value. -/
def cap_is_sealed_with_type (c : cap_register_t) : Bool :=
  decide (cap_get_otype_unsigned c ≤ CAP_LAST_NONRESERVED_OTYPE)

/-- Modelled from the spec: an object-type value is one of the reserved ones. -/
def cap_otype_is_reserved (otype : Nat) : Bool :=
  decide (otype > CAP_LAST_NONRESERVED_OTYPE)

/-- Modelled from the spec: bounds containment of the access range `[addr, addr+len)`
in `[base, top)`, the end of the range computed without wrap-around. -/
def cap_is_in_bounds (c : cap_register_t) (addr : Nat) (num_bytes : Nat) : Bool :=
  decide (cap_get_base c ≤ addr) && decide (addr + num_bytes ≤ cap_get_top_full c)

/-- Modelled from the spec: the cursor lies within the capability's own bounds, and is
not one past the end. -/
def cap_cursor_in_bounds (c : cap_register_t) : Bool :=
  decide (cap_get_base c ≤ cap_get_cursor c) &&
    decide (cap_get_cursor c < cap_get_top_full c)

/-- Modelled from the spec: set the object type to SealedWithType `type`. -/
def cap_set_sealed (c : cap_register_t) (type : Nat) : cap_register_t :=
  { c with cr_otype := type }

/-- Modelled from the spec: set the object type to Unsealed. -/
def cap_set_unsealed (c : cap_register_t) : cap_register_t :=
  { c with cr_otype := CAP_OTYPE_UNSEALED }

/-- Modelled from the spec: replace the hardware permission bitset (`CAP_cc(update_perms)`,
a 32-bit argument). -/
def update_perms (c : cap_register_t) (perms : Nat) : cap_register_t :=
  { c with cr_perms := perms % 2 ^ 32 }

/-- Modelled from the spec: replace the object type (`CAP_cc(update_otype)`). -/
def update_otype (c : cap_register_t) (otype : Nat) : cap_register_t :=
  { c with cr_otype := otype }

/-- Modelled from the spec: seal as a sentry, object type SealedEntry. -/
def cap_make_sealed_entry (c : cap_register_t) : cap_register_t :=
  { c with cr_otype := CAP_OTYPE_SENTRY }

/-- Modelled from the spec: unseal a sentry, object type Unsealed. -/
def cap_unseal_entry (c : cap_register_t) : cap_register_t :=
  { c with cr_otype := CAP_OTYPE_UNSEALED }

/-- Modelled from the spec: the address stays within `[base, top)`
(`addr_in_cap_bounds`). -/
def addr_in_cap_bounds (c : cap_register_t) (addr : Nat) : Bool :=
  decide (cap_get_base c ≤ addr) && decide (addr < cap_get_top_full c)

/-- Modelled from the spec: mark unrepresentable, "tag cleared, cursor still updated to
the requested value" (`cap_mark_unrepresentable`). -/
def cap_mark_unrepresentable (addr : Nat) (cr : cap_register_t) : cap_register_t :=
  { cr with _cr_cursor := addr, cr_tag := false }

/-- Source: `is_cap_sealed`, the negation of `cap_is_unsealed`. -/
def is_cap_sealed (cp : cap_register_t) : Bool := !cap_is_unsealed cp

/-- Modelled from the spec: the null capability. -/
def null_capability : cap_register_t :=
  { cr_tag := false, cr_base := 0, _cr_top := 2 ^ 64, _cr_cursor := 0, cr_perms := 0,
    cr_uperms := 0, cr_otype := CAP_OTYPE_UNSEALED, cr_flags := 0 }

/-! ## Register file -/

/-- Modelled from the spec: the register collaborator of section 6, a map from
register index to capability value, together with the program-counter capability, the
default-data capability and the program-counter capability that the next instruction
runs with. -/
structure CPUArchState where
  gpcapregs : Nat → cap_register_t
  pcc : cap_register_t
  ddc : cap_register_t
  next_pcc : cap_register_t

/-- Modelled from the spec: `read(index)` of the register collaborator. -/
def get_readonly_capreg (env : CPUArchState) (regnum : Nat) : cap_register_t :=
  env.gpcapregs regnum

/-- Modelled from the spec: `write(index, value)` of the register collaborator, an
atomic whole-value replace. -/
def update_capreg (env : CPUArchState) (regnum : Nat) (newval : cap_register_t) :
    CPUArchState :=
  { env with gpcapregs := fun r => if r = regnum then newval else env.gpcapregs r }

/-- A register file in which every register holds the null capability. -/
def null_env : CPUArchState :=
  { gpcapregs := fun _ => null_capability, pcc := null_capability, ddc := null_capability,
    next_pcc := null_capability }

/-- Modelled from the spec: the program-counter capability of the running instruction
(`cheri_get_recent_pcc`). -/
def cheri_get_recent_pcc (env : CPUArchState) : cap_register_t := env.pcc

/-- Modelled from the spec: the default-data capability (`cheri_get_ddc`). -/
def cheri_get_ddc (env : CPUArchState) : cap_register_t := env.ddc

/-- Modelled from the spec: register read in which index 0 names the default-data
capability (`get_capreg_0_is_ddc`; "we use reg0 as $ddc" in `helper_cbuildcap`). -/
def get_capreg_0_is_ddc (env : CPUArchState) (regnum : Nat) : cap_register_t :=
  if regnum = 0 then cheri_get_ddc env else get_readonly_capreg env regnum

/-- Modelled from the spec: the target becomes the new program-counter capability
(`update_next_pcc_for_tcg`). -/
def update_next_pcc_for_tcg (env : CPUArchState) (target : cap_register_t)
    (_cjalr_flags : Nat) : CPUArchState :=
  { env with next_pcc := target }

/-- Modelled from the spec: index of the null capability register. -/
def NULL_CAPREG_INDEX : Nat := 0
/-- Modelled from the spec: fault register number that names the default-data
capability. -/
def CHERI_EXC_REGNUM_DDC : Nat := 33
/-- Modelled from the spec: the fixed designated register that Invoke installs the
data capability in. -/
def CINVOKE_DATA_REGNUM : Nat := 31
/-- Modelled from the spec: the "must be sentry" flag of JumpAndLink. -/
def CJALR_MUST_BE_SENTRY : Nat := 2 ^ 29
/-- Modelled from the spec: the flag by which the caller opts out of a sentry link
capability. -/
def CJALR_DONT_MAKE_SENTRY : Nat := 2 ^ 30

/-! ## Access-check protocol: the general load/store check -/

/-- Source: macro `MISSING_REQUIRED_PERM(X)` of `cap_check_common_reg`,
`(required_perms & ~cap_get_perms(cbp)) & (X)` on 32-bit values, read as a truth value. -/
def MISSING_REQUIRED_PERM (required_perms : Nat) (cbp : cap_register_t) (X : Nat) : Bool :=
  ((required_perms &&& ((cap_get_perms cbp % 2 ^ 32) ^^^ (2 ^ 32 - 1))) &&& X) != 0

/-- Modelled from the spec: the address is aligned to the power of two `align` (macro
`QEMU_IS_ALIGNED_P2` of `osdep.h`). -/
def QEMU_IS_ALIGNED_P2 (addr align : Nat) : Bool := (addr &&& (align - 1)) == 0

/-- Source: `cap_check_common_reg` (`cheri-helper-utils.h`). `unaligned_handler` tells
whether a handler was passed (it is a no-return function pointer, or NULL). -/
def cap_check_common_reg (required_perms : Nat) (cb : Nat) (offset : Nat) (size : Nat)
    (cbp : cap_register_t) (alignment_required : Nat) (unaligned_handler : Bool) :
    Except Trap Nat := do
  let cursor := cap_get_cursor cbp
  let addr := (cursor + offset) % 2 ^ 64
  let is_load := (required_perms &&& CAP_PERM_LOAD) != 0
  let in_bounds := cap_is_in_bounds cbp addr size
  if !cbp.cr_tag then
    throw (Trap.cheri .CapEx_TagViolation cb)
  else if !cap_is_unsealed cbp then
    throw (Trap.cheri .CapEx_SealViolation cb)
  else if MISSING_REQUIRED_PERM required_perms cbp CAP_PERM_LOAD then
    throw (Trap.cheri .CapEx_PermitLoadViolation cb)
  else if MISSING_REQUIRED_PERM required_perms cbp CAP_PERM_LOAD_CAP then
    throw (Trap.cheri .CapEx_PermitLoadCapViolation cb)
  else if !is_load || in_bounds then
    if MISSING_REQUIRED_PERM required_perms cbp CAP_PERM_STORE then
      throw (Trap.cheri .CapEx_PermitStoreViolation cb)
    else if MISSING_REQUIRED_PERM required_perms cbp CAP_PERM_STORE_CAP then
      throw (Trap.cheri .CapEx_PermitStoreCapViolation cb)
    else if MISSING_REQUIRED_PERM required_perms cbp CAP_PERM_STORE_LOCAL then
      throw (Trap.cheri .CapEx_PermitStoreLocalCapViolation cb)
  if !in_bounds then
    throw (Trap.cheri .CapEx_LengthViolation cb)
  else if alignment_required != 0 && !QEMU_IS_ALIGNED_P2 addr alignment_required then
    if unaligned_handler then
      throw (Trap.unaligned addr)
  return addr

/-- Modelled from the spec: the capability a load or store goes through
(`get_load_store_base_cap`, declared in a missing header); index 0 names the
default-data capability ("we use reg0 as $ddc" in `helper_store_cap_via_cap`). -/
def get_load_store_base_cap (env : CPUArchState) (cb : Nat) : cap_register_t :=
  get_capreg_0_is_ddc env cb

/-- Source: `cap_check_common` (`op_helper_cheri_common.c`): the general check on the
capability that register `cb` names, alignment requirement `size`, no unaligned
handler. -/
def cap_check_common (required_perms : Nat) (env : CPUArchState) (cb : Nat) (offset : Nat)
    (size : Nat) : Except Trap Nat :=
  cap_check_common_reg required_perms cb offset size (get_load_store_base_cap env cb) size
    false

/-- Source: `helper_cap_rmw_check`, the read-modify-write check. -/
def helper_cap_rmw_check (env : CPUArchState) (cb : Nat) (offset : Nat) (size : Nat) :
    Except Trap Nat :=
  cap_check_common (CAP_PERM_LOAD ||| CAP_PERM_STORE) env cb offset size

/-! ## Representability and compression -/

/-- The source of the compressed-bounds library (`CAP_cc(...)`, with the
representability tests that `cheri_utils.h` builds on it) is missing: the functions the
helpers call are taken as a parameter. `setbounds` returns the capability with its new
bounds together with the flag telling whether the requested bounds were kept exactly. -/
structure CAP_cc where
  setbounds : cap_register_t → Nat → Nat → cap_register_t × Bool
  cap_is_representable : cap_register_t → Bool
  is_representable_cap_with_addr : cap_register_t → Nat → Bool
  is_representable_cap_when_sealed_with_addr : cap_register_t → Nat → Bool
  get_alignment_mask : Nat → Nat

/-- Exponent of the model encoding: the least `e` for which `len` fits in `mw`
significant bits above bit `e` (at most 64). -/
def cc_exponent (mw len : Nat) : Nat :=
  ((List.range 65).find? (fun e => decide (len < 2 ^ (e + mw)))).getD 64

/-- Bounds `[base, top)` are kept exactly by a mantissa of `mw` bits. -/
def cc_bounds_exact (mw base top : Nat) : Bool :=
  base % 2 ^ cc_exponent mw (top - base) == 0 && top % 2 ^ cc_exponent mw (top - base) == 0

/-- Bounds rounding of the model encoding: base aligned down and top aligned up to the
exponent of the requested length, for a mantissa of 8 bits. -/
def cc_setbounds (c : cap_register_t) (req_base req_top : Nat) : cap_register_t × Bool :=
  let e := cc_exponent 8 (req_top - req_base)
  let new_base := req_base / 2 ^ e * 2 ^ e
  let new_top := (req_top + 2 ^ e - 1) / 2 ^ e * 2 ^ e
  ({ c with cr_base := new_base, _cr_top := new_top },
    new_base == req_base && new_top == req_top)

/-- Address `addr` keeps the bounds of `c` decodable in the model encoding with a
mantissa of `mw` bits: the bounds are exact and the address is within one
representable region of them. -/
def cc_is_representable_with_addr (mw : Nat) (c : cap_register_t) (addr : Nat) : Bool :=
  cc_bounds_exact mw c.cr_base c._cr_top &&
    decide (c.cr_base ≤ addr + 2 ^ (cc_exponent mw (c._cr_top - c.cr_base) + mw)) &&
    decide (addr < c._cr_top + 2 ^ (cc_exponent mw (c._cr_top - c.cr_base) + mw))

/-- Modelled from the spec: a compressed-bounds library to evaluate the helpers on
concrete inputs. Section 4.1 describes the encoding as an exponent+mantissa scheme; in
this one bounds keep 8 significant bits (so, as in scenarios A and B, a length of 0x500
at base 0x1000 is exact and 0x501 is not), sealed or not. -/
def cc_model : CAP_cc :=
  { setbounds := cc_setbounds
    cap_is_representable := fun c => cc_is_representable_with_addr 8 c c._cr_cursor
    is_representable_cap_with_addr := cc_is_representable_with_addr 8
    is_representable_cap_when_sealed_with_addr := cc_is_representable_with_addr 8
    get_alignment_mask := fun len => 2 ^ 64 - 2 ^ cc_exponent 8 len }

/-! ## Mutation operations -/

/-- Source: `do_setbounds` (non-AArch64: `RESULT_VALID` is `true` and
`raise_cheri_exception_or_invalidate` raises). A failed `assert` is `Trap.abort`. -/
def do_setbounds (cc : CAP_cc) (must_be_exact : Bool) (env : CPUArchState) (cd cb : Nat)
    (length : Nat) : Except Trap CPUArchState := do
  let cbp := get_readonly_capreg env cb
  let new_base := cap_get_cursor cbp
  let new_top := new_base + length
  if !cbp.cr_tag then
    throw (Trap.cheri .CapEx_TagViolation cb)
  else if is_cap_sealed cbp then
    throw (Trap.cheri .CapEx_SealViolation cb)
  else if new_base < cbp.cr_base then
    throw (Trap.cheri .CapEx_LengthViolation cb)
  else if new_top > cap_get_top_full cbp then
    throw (Trap.cheri .CapEx_LengthViolation cb)
  let result := (cc.setbounds cbp new_base new_top).1
  let exact := (cc.setbounds cbp new_base new_top).2
  if must_be_exact && !exact then
    throw (Trap.cheri .CapEx_InexactBounds cb)
  if !cc.cap_is_representable result then
    throw Trap.abort
  if !decide (result.cr_base ≥ cbp.cr_base) then
    throw Trap.abort
  if !decide (cap_get_length_full result ≤ cap_get_length_full cbp) then
    throw Trap.abort
  if !decide (cap_get_top_full result ≤ cap_get_top_full cbp) then
    throw Trap.abort
  return update_capreg env cd result

/-- Source: `helper_csetbounds`. -/
def helper_csetbounds (cc : CAP_cc) (env : CPUArchState) (cd cb rt : Nat) :
    Except Trap CPUArchState :=
  do_setbounds cc false env cd cb rt

/-- Source: `helper_csetboundsexact`. -/
def helper_csetboundsexact (cc : CAP_cc) (env : CPUArchState) (cd cb rt : Nat) :
    Except Trap CPUArchState :=
  do_setbounds cc true env cd cb rt

/-- Source: `cseal_common`. -/
def cseal_common (cc : CAP_cc) (env : CPUArchState) (cd cs ct : Nat) (conditional : Bool) :
    Except Trap CPUArchState :=
  let csp := get_readonly_capreg env cs
  let ctp := get_readonly_capreg env ct
  let ct_base_plus_offset := cap_get_cursor ctp
  if !csp.cr_tag then
    throw (Trap.cheri .CapEx_TagViolation cs)
  else if !ctp.cr_tag then
    if conditional then
      pure (update_capreg env cd csp)
    else
      throw (Trap.cheri .CapEx_TagViolation ct)
  else if conditional && !cap_is_unsealed csp then
    pure (update_capreg env cd csp)
  else if conditional && !cap_cursor_in_bounds ctp then
    pure (update_capreg env cd csp)
  else if conditional && cap_get_cursor ctp == CAP_OTYPE_UNSEALED_SIGNED then
    pure (update_capreg env cd csp)
  else if !conditional && !cap_is_unsealed csp then
    throw (Trap.cheri .CapEx_SealViolation cs)
  else if !cap_is_unsealed ctp then
    throw (Trap.cheri .CapEx_SealViolation ct)
  else if !cap_has_perms ctp CAP_PERM_SEAL then
    throw (Trap.cheri .CapEx_PermitSealViolation ct)
  else if !conditional && !cap_cursor_in_bounds ctp then
    throw (Trap.cheri .CapEx_LengthViolation ct)
  else if decide (ct_base_plus_offset > CAP_MAX_REPRESENTABLE_OTYPE) ||
      cap_otype_is_reserved ct_base_plus_offset then
    throw (Trap.cheri .CapEx_LengthViolation ct)
  else if !cc.is_representable_cap_when_sealed_with_addr csp (cap_get_cursor csp) then
    throw (Trap.cheri .CapEx_InexactBounds cs)
  else
    pure (update_capreg env cd (cap_set_sealed csp (ct_base_plus_offset % 2 ^ 32)))

/-- Source: `helper_ccseal`, conditional seal. -/
def helper_ccseal (cc : CAP_cc) (env : CPUArchState) (cd cs ct : Nat) :
    Except Trap CPUArchState :=
  cseal_common cc env cd cs ct true

/-- Source: `helper_cseal`. -/
def helper_cseal (cc : CAP_cc) (env : CPUArchState) (cd cs ct : Nat) :
    Except Trap CPUArchState :=
  cseal_common cc env cd cs ct false

/-- Source: `helper_cunseal`. `new_perms` is a `target_ulong`, so `~CAP_PERM_GLOBAL`
is the 64-bit complement. -/
def helper_cunseal (env : CPUArchState) (cd cs ct : Nat) : Except Trap CPUArchState :=
  let csp := get_readonly_capreg env cs
  let ctp := get_readonly_capreg env ct
  let ct_cursor := cap_get_cursor ctp
  if !csp.cr_tag then
    throw (Trap.cheri .CapEx_TagViolation cs)
  else if !ctp.cr_tag then
    throw (Trap.cheri .CapEx_TagViolation ct)
  else if cap_is_unsealed csp then
    throw (Trap.cheri .CapEx_SealViolation cs)
  else if !cap_is_unsealed ctp then
    throw (Trap.cheri .CapEx_SealViolation ct)
  else if !cap_is_sealed_with_type csp then
    throw (Trap.cheri .CapEx_TypeViolation cs)
  else if ct_cursor != cap_get_otype_unsigned csp then
    throw (Trap.cheri .CapEx_TypeViolation ct)
  else if !cap_has_perms ctp CAP_PERM_UNSEAL then
    throw (Trap.cheri .CapEx_PermitUnsealViolation ct)
  else if !cap_cursor_in_bounds ctp then
    throw (Trap.cheri .CapEx_LengthViolation ct)
  else if decide (ct_cursor > CAP_MAX_REPRESENTABLE_OTYPE) ||
      cap_otype_is_reserved ct_cursor then
    throw (Trap.cheri .CapEx_LengthViolation ct)
  else
    let result := csp
    let new_perms := cap_get_perms result
    let new_perms :=
      if cap_has_perms csp CAP_PERM_GLOBAL && cap_has_perms ctp CAP_PERM_GLOBAL then
        new_perms ||| CAP_PERM_GLOBAL
      else
        new_perms &&& ((2 ^ 64 - 1) ^^^ CAP_PERM_GLOBAL)
    let result := update_perms result new_perms
    let result := cap_set_unsealed result
    pure (update_capreg env cd result)

/-- Modelled from the spec: write to `regnum_dst` the source capability with a new
cursor, the tag cleared when `clear_tag` is set (`update_capreg_cursor_from`). -/
def update_capreg_cursor_from (env : CPUArchState) (regnum_dst : Nat)
    (source : cap_register_t) (_regnum_src : Nat) (new_cursor : Nat) (clear_tag : Bool) :
    CPUArchState :=
  update_capreg env regnum_dst
    { source with _cr_cursor := new_cursor, cr_tag := if clear_tag then false else source.cr_tag }

/-- Source: `try_set_cap_cursor` (non-AArch64, non-Morello: `RESULT_VALID` is `true` and
the seal test raises). The statistics hooks `became_unrepresentable` and
`check_out_of_bounds_stat` are side channels. -/
def try_set_cap_cursor (cc : CAP_cc) (env : CPUArchState) (cptr : cap_register_t)
    (regnum_src regnum_dst : Nat) (new_addr : Nat) : Except Trap CPUArchState :=
  if cptr.cr_tag && is_cap_sealed cptr then
    throw (Trap.cheri .CapEx_SealViolation regnum_src)
  else if addr_in_cap_bounds cptr new_addr then
    pure (update_capreg_cursor_from env regnum_dst cptr regnum_src new_addr false)
  else if !cc.is_representable_cap_with_addr cptr new_addr then
    let result := cptr
    let result := cap_mark_unrepresentable new_addr result
    pure (update_capreg env regnum_dst result)
  else
    pure (update_capreg_cursor_from env regnum_dst cptr regnum_src new_addr false)

/-- Source: `derive_cap_from_pcc` (`cheri-helper-utils.h`). It contains no raising
path; it is written in `Except` like the helpers that call it. -/
def derive_cap_from_pcc (cc : CAP_cc) (env : CPUArchState) (cd : Nat) (new_addr : Nat) :
    Except Trap CPUArchState :=
  let pccp := cheri_get_recent_pcc env
  let result := pccp
  let result :=
    if !cc.is_representable_cap_with_addr pccp new_addr then
      cap_mark_unrepresentable new_addr result
    else
      { result with _cr_cursor := new_addr }
  pure (update_capreg env cd result)

/-- Source: `helper_cgetpccsetoffset`. -/
def helper_cgetpccsetoffset (cc : CAP_cc) (env : CPUArchState) (cd : Nat) (rs : Nat) :
    Except Trap CPUArchState :=
  let new_addr := (rs + cap_get_base (cheri_get_recent_pcc env)) % 2 ^ 64
  derive_cap_from_pcc cc env cd new_addr

/-- Source: `helper_cgetpccincoffset`; `pc_addr` is the value of `PC_ADDR(env)`. -/
def helper_cgetpccincoffset (cc : CAP_cc) (env : CPUArchState) (pc_addr : Nat) (cd : Nat)
    (rs : Nat) : Except Trap CPUArchState :=
  let new_addr := (rs + pc_addr) % 2 ^ 64
  derive_cap_from_pcc cc env cd new_addr

/-- Source: `helper_cgetpccsetaddr`. -/
def helper_cgetpccsetaddr (cc : CAP_cc) (env : CPUArchState) (cd : Nat) (rs : Nat) :
    Except Trap CPUArchState :=
  let new_addr := rs
  derive_cap_from_pcc cc env cd new_addr

/-- Source: `cheri_jump_and_link` (non-AArch64). `cheri_debug_assert` is read as in a
correctness-checked build: a failed assertion, like a failed `assert`, is `Trap.abort`. -/
def cheri_jump_and_link (cc : CAP_cc) (env : CPUArchState) (target : cap_register_t)
    (addr : Nat) (link_reg : Nat) (link_pc : Nat) (cjalr_flags : Nat) :
    Except Trap CPUArchState := do
  let next_pcc := target
  if !(cap_is_unsealed target || cap_is_sealed_entry target) then
    throw Trap.abort
  let next_pcc ←
    if next_pcc.cr_tag && cap_is_sealed_entry next_pcc then
      let next_pcc := cap_unseal_entry next_pcc
      if !(cap_get_cursor next_pcc == addr) then
        throw Trap.abort
      else
        pure next_pcc
    else if (cjalr_flags &&& CJALR_MUST_BE_SENTRY) != 0 then
      pure { next_pcc with cr_tag := false }
    else
      if !cc.is_representable_cap_with_addr next_pcc addr then
        throw Trap.abort
      else
        pure { next_pcc with _cr_cursor := addr }
  let env ←
    if link_reg != NULL_CAPREG_INDEX then
      let result := cheri_get_recent_pcc env
      let result := { result with _cr_cursor := link_pc }
      if !cc.is_representable_cap_with_addr result link_pc then
        throw Trap.abort
      else
        let result :=
          if (cjalr_flags &&& CJALR_DONT_MAKE_SENTRY) == 0 then cap_make_sealed_entry result
          else result
        pure (update_capreg env link_reg result)
    else
      pure env
  return update_next_pcc_for_tcg env next_pcc cjalr_flags

/-- Source: `helper_cinvoke`. `validate_jump_target` is declared in a missing header: it
is a parameter, which may itself raise or return whether the target is valid. -/
def helper_cinvoke
    (validate_jump_target : CPUArchState → cap_register_t → Nat → Nat → Except Trap Bool)
    (env : CPUArchState) (code_regnum data_regnum : Nat) : Except Trap CPUArchState :=
  let code_cap := get_readonly_capreg env code_regnum
  let data_cap := get_readonly_capreg env data_regnum
  if !code_cap.cr_tag then
    throw (Trap.cheri .CapEx_TagViolation code_regnum)
  else if !data_cap.cr_tag then
    throw (Trap.cheri .CapEx_TagViolation data_regnum)
  else if !cap_is_sealed_with_type code_cap then
    throw (Trap.cheri .CapEx_SealViolation code_regnum)
  else if !cap_is_sealed_with_type data_cap then
    throw (Trap.cheri .CapEx_SealViolation data_regnum)
  else if cap_get_otype_unsigned code_cap != cap_get_otype_unsigned data_cap ||
      !cap_is_sealed_with_type code_cap then
    throw (Trap.cheri .CapEx_TypeViolation code_regnum)
  else if !cap_has_perms code_cap CAP_PERM_CINVOKE then
    throw (Trap.cheri .CapEx_PermitCCallViolation code_regnum)
  else if !cap_has_perms data_cap CAP_PERM_CINVOKE then
    throw (Trap.cheri .CapEx_PermitCCallViolation data_regnum)
  else if !cap_has_perms code_cap CAP_PERM_EXECUTE then
    throw (Trap.cheri .CapEx_PermitExecuteViolation code_regnum)
  else if cap_has_perms data_cap CAP_PERM_EXECUTE then
    throw (Trap.cheri .CapEx_PermitExecuteViolation data_regnum)
  else
    match validate_jump_target env code_cap (cap_get_cursor code_cap) code_regnum with
    | .error t => throw t
    | .ok false => throw (Trap.cheri .CapEx_LengthViolation code_regnum)
    | .ok true =>
      let idc := data_cap
      let idc := cap_set_unsealed idc
      let target := code_cap
      let target := cap_set_unsealed target
      let env := update_next_pcc_for_tcg env target 0
      pure (update_capreg env CINVOKE_DATA_REGNUM idc)

/-- Source: `helper_cbuildcap` (RISC-V: a fault on register 0 names the default-data
capability). `cap_has_reserved_bits_set` reads bits of the encoding that the data model
does not hold: it is a parameter. -/
def helper_cbuildcap (cap_has_reserved_bits_set : cap_register_t → Bool)
    (env : CPUArchState) (cd cb ct : Nat) : Except Trap CPUArchState :=
  let cbp := get_capreg_0_is_ddc env cb
  let cb_exc := if cb = 0 then CHERI_EXC_REGNUM_DDC else cb
  let ctp := get_readonly_capreg env ct
  if !cbp.cr_tag then
    throw (Trap.cheri .CapEx_TagViolation cb_exc)
  else if is_cap_sealed cbp then
    throw (Trap.cheri .CapEx_SealViolation cb_exc)
  else if cap_get_base ctp < cap_get_base cbp then
    throw (Trap.cheri .CapEx_LengthViolation cb_exc)
  else if cap_get_top_full ctp > cap_get_top_full cbp then
    throw (Trap.cheri .CapEx_LengthViolation cb_exc)
  else if cap_get_base ctp > cap_get_top_full ctp then
    throw (Trap.cheri .CapEx_LengthViolation ct)
  else if (cap_get_perms ctp &&& cap_get_perms cbp) != cap_get_perms ctp then
    throw (Trap.cheri .CapEx_UserDefViolation cb_exc)
  else if (cap_get_uperms ctp &&& cap_get_uperms cbp) != cap_get_uperms ctp then
    throw (Trap.cheri .CapEx_UserDefViolation cb_exc)
  else if cap_has_reserved_bits_set ctp then
    throw (Trap.cheri .CapEx_LengthViolation ct)
  else
    let result := ctp
    let result := update_otype result CAP_OTYPE_UNSEALED
    let result := { result with cr_tag := true }
    let result :=
      if cap_is_sealed_entry ctp && cap_has_perms ctp CAP_PERM_EXECUTE then
        cap_make_sealed_entry result
      else result
    pure (update_capreg env cd result)

/-! ## Further constants and accessors -/

/-- Modelled from the spec: UNINIT permission bit, the permission of an uninitialized
capability (its declaration is in the missing `cheri_defs.h`; the development only
relies on it being a non-zero bit pattern). -/
def CAP_PERM_UNINIT : Nat := 2 ^ 12
/-- Modelled from the spec: mask of all hardware permission bits (`cheri_defs.h`). -/
def CAP_PERMS_ALL : Nat := 2 ^ 13 - 1
/-- Modelled from the spec: position of the user permissions in a permission operand
(`cheri_defs.h`). -/
def CAP_UPERMS_SHFT : Nat := 15
/-- Modelled from the spec: mask of all user permission bits (`cheri_defs.h`). -/
def CAP_UPERMS_ALL : Nat := 2 ^ 4 - 1
/-- Modelled from the spec: size in bytes of a capability in memory, one tag granule. -/
def CHERI_CAP_SIZE : Nat := 16
/-- Modelled from the spec: offset of the metadata word in a stored capability. -/
def CHERI_MEM_OFFSET_METADATA : Nat := 8
/-- Modelled from the spec: offset of the cursor word in a stored capability. -/
def CHERI_MEM_OFFSET_CURSOR : Nat := 0
/-- Modelled from the spec: page policy "clear the tag of a loaded capability". -/
def PAGE_LC_CLEAR : Nat := 2 ^ 8
/-- Modelled from the spec: page policy "trap on the load of a tagged capability". -/
def PAGE_LC_TRAP : Nat := 2 ^ 9
/-- Modelled from the spec: page policy "trap on any capability load". -/
def PAGE_LC_TRAP_ANY : Nat := 2 ^ 10
/-- Modelled from the spec: top as an address-width value (`cap_get_top`), the
one-past-end top saturated at the largest address. -/
def cap_get_top (c : cap_register_t) : Nat := min (cap_get_top_full c) (2 ^ 64 - 1)

/-- Modelled from the spec: the object type as a sign-extended address-width value
(`cap_get_otype_signext`): a reserved object type, which lies at the top of the
object-type range, reads as a negative number (`helper_cgettype`: "all negative return
values are used for reserved otypes"), the unsealed one as -1. -/
def cap_get_otype_signext (c : cap_register_t) : Nat :=
  if cap_get_otype_unsigned c > CAP_LAST_NONRESERVED_OTYPE then
    (cap_get_otype_unsigned c + 2 ^ 64 - (CAP_MAX_REPRESENTABLE_OTYPE + 1)) % 2 ^ 64
  else
    cap_get_otype_unsigned c

/-- Modelled from the spec: the integer-valued capability, a null-derived untagged
value whose cursor is the integer (`int_to_cap`). -/
def int_to_cap (x : Nat) : cap_register_t :=
  { null_capability with _cr_cursor := x }

/-- Modelled from the spec: a tagged, unsealed capability over the whole address space
with every permission (`set_max_perms_capability`). -/
def set_max_perms_capability (cursor : Nat) : cap_register_t :=
  { cr_tag := true, cr_base := 0, _cr_top := 2 ^ 64, _cr_cursor := cursor,
    cr_perms := CAP_PERMS_ALL, cr_uperms := CAP_UPERMS_ALL, cr_otype := CAP_OTYPE_UNSEALED,
    cr_flags := 0 }

/-- Modelled from the spec: replace the user permission bitset (`CAP_cc(update_uperms)`,
a 32-bit argument). -/
def update_uperms (c : cap_register_t) (uperms : Nat) : cap_register_t :=
  { c with cr_uperms := uperms % 2 ^ 32 }

/-- Modelled from the spec: tag of the capability in a register (`get_capreg_tag`). -/
def get_capreg_tag (env : CPUArchState) (regnum : Nat) : Bool :=
  (get_readonly_capreg env regnum).cr_tag

/-- Modelled from the spec: tag of the capability in a register as a store sees it
(`get_capreg_tag_filtered`). -/
def get_capreg_tag_filtered (env : CPUArchState) (regnum : Nat) : Bool :=
  (get_readonly_capreg env regnum).cr_tag

/-- Modelled from the spec: hardware permissions of the capability in a register
(`get_capreg_hwperms`). -/
def get_capreg_hwperms (env : CPUArchState) (regnum : Nat) : Nat :=
  cap_get_perms (get_readonly_capreg env regnum)

/-- Modelled from the spec: cursor of the capability in a register
(`get_capreg_cursor`). -/
def get_capreg_cursor (env : CPUArchState) (regnum : Nat) : Nat :=
  cap_get_cursor (get_readonly_capreg env regnum)

/-- Modelled from the spec: the address is a multiple of `align` (macro
`QEMU_IS_ALIGNED` of `osdep.h`). -/
def QEMU_IS_ALIGNED (addr align : Nat) : Bool := addr % align == 0

/-! ## Access-check protocol: the simple check -/

/-- Source: `check_cap` (`cheri-helper-utils.h`). `tcg_abort` is `Trap.abort`. -/
def check_cap (cr : cap_register_t) (perm : Nat) (addr : Nat) (regnum : Nat) (len : Nat) :
    Except Trap Unit :=
  if !cr.cr_tag then
    throw (Trap.cheri .CapEx_TagViolation regnum)
  else if !cap_is_unsealed cr then
    throw (Trap.cheri .CapEx_SealViolation regnum)
  else if (cap_get_perms cr &&& perm) != perm then
    if (perm &&& CAP_PERM_EXECUTE) != 0 then
      throw (Trap.cheri .CapEx_PermitExecuteViolation regnum)
    else if (perm &&& CAP_PERM_STORE) != 0 then
      throw (Trap.cheri .CapEx_PermitStoreViolation regnum)
    else if (perm &&& CAP_PERM_LOAD) != 0 then
      throw (Trap.cheri .CapEx_PermitLoadViolation regnum)
    else
      throw Trap.abort
  else if !cap_is_in_bounds cr addr len then
    throw (Trap.cheri .CapEx_LengthViolation regnum)
  else
    pure ()

/-! ## Binding of tags to memory granules -/

/-- Source: `cheri_tag_prot_clear_or_trap`. `tag` is a `target_ulong` read as a truth
value; `raise_load_tag_exception` does not return. -/
def cheri_tag_prot_clear_or_trap (va : Nat) (cb : Nat) (cbp : cap_register_t) (prot : Nat)
    (tag : Nat) : Except Trap Bool :=
  if tag != 0 && (prot &&& PAGE_LC_CLEAR) != 0 then
    pure false
  else if tag != 0 && !cap_has_perms cbp CAP_PERM_LOAD_CAP then
    pure false
  else if (tag != 0 && (prot &&& PAGE_LC_TRAP) != 0) || (prot &&& PAGE_LC_TRAP_ANY) != 0 then
    throw (Trap.load_tag va cb)
  else
    pure (tag != 0)

/-- Modelled from the spec: the memory collaborator of section 6, data memory as a
map from the address of a capability word to the word, tag memory as a map from the
address of a granule to its tag, and the page-policy flags that `tag_get` reports for
an address. Translation faults are outside the model. -/
structure GuestMemory where
  words : Nat → Nat
  tags : Nat → Bool
  prot : Nat → Nat

/-- Modelled from the spec: `write(address, size)` of one capability word
(`st_cap_word_p`). -/
def st_cap_word (mem : GuestMemory) (addr : Nat) (val : Nat) : GuestMemory :=
  { mem with words := fun a => if a = addr then val else mem.words a }

/-- Modelled from the spec: `read(address, size)` of one capability word
(`ld_cap_word_p`). -/
def ld_cap_word (mem : GuestMemory) (addr : Nat) : Nat := mem.words addr

/-- Modelled from the spec: `tag_set(address, true)` (`cheri_tag_set`). -/
def cheri_tag_set (mem : GuestMemory) (vaddr : Nat) : GuestMemory :=
  { mem with tags := fun a => if a = vaddr then true else mem.tags a }

/-- Modelled from the spec: `tag_invalidate(address, size)` of one aligned granule
(`cheri_tag_invalidate_aligned`). -/
def cheri_tag_invalidate_aligned (mem : GuestMemory) (vaddr : Nat) : GuestMemory :=
  { mem with tags := fun a => if a = vaddr then false else mem.tags a }

/-- Modelled from the spec: `tag_get(address) -> (bool, page_policy_flags)`
(`cheri_tag_get`). -/
def cheri_tag_get (mem : GuestMemory) (vaddr : Nat) : Bool × Nat :=
  (mem.tags vaddr, mem.prot vaddr)

/-- Source: `load_cap_from_memory_raw_tag_mmu_idx` (non-AArch64:
`squash_mutable_permissions` does nothing). It returns the metadata word, the cursor
and the tag; `CAP_NULL_XOR_MASK` is a constant of the missing library, a parameter here.
`cheri_debug_assert` is read as in a correctness-checked build. -/
def load_cap_from_memory_raw_tag_mmu_idx (CAP_NULL_XOR_MASK : Nat) (mem : GuestMemory)
    (cb : Nat) (source : cap_register_t) (vaddr : Nat) : Except Trap (Nat × Nat × Bool) := do
  if !QEMU_IS_ALIGNED vaddr CHERI_CAP_SIZE then
    throw Trap.abort
  let pesbt := ld_cap_word mem (vaddr + CHERI_MEM_OFFSET_METADATA) ^^^ CAP_NULL_XOR_MASK
  let cursor := ld_cap_word mem (vaddr + CHERI_MEM_OFFSET_CURSOR)
  let prot := (cheri_tag_get mem vaddr).2
  let tag := (cheri_tag_get mem vaddr).1
  let tag ← cheri_tag_prot_clear_or_trap vaddr cb source prot (if tag then 1 else 0)
  return (pesbt, cursor, tag)

/-- Source: `load_cap_from_memory_raw`, through `load_cap_from_memory_raw_tag`. -/
def load_cap_from_memory_raw (CAP_NULL_XOR_MASK : Nat) (mem : GuestMemory) (cb : Nat)
    (source : cap_register_t) (vaddr : Nat) : Except Trap (Nat × Nat × Bool) :=
  load_cap_from_memory_raw_tag_mmu_idx CAP_NULL_XOR_MASK mem cb source vaddr

/-- Source: `store_cap_to_memory_mmu_index`. `get_capreg_pesbt` (the metadata word of
the capability in a register) and `CAP_NULL_XOR_MASK` belong to the missing library and
are parameters. The `tcg_debug_assert`s on the null register are read as checked. -/
def store_cap_to_memory_mmu_index (get_capreg_pesbt : CPUArchState → Nat → Nat)
    (CAP_NULL_XOR_MASK : Nat) (env : CPUArchState) (mem : GuestMemory) (cs : Nat)
    (vaddr : Nat) : Except Trap GuestMemory := do
  let cursor := get_capreg_cursor env cs
  let pesbt_for_mem := get_capreg_pesbt env cs ^^^ CAP_NULL_XOR_MASK
  let tag := get_capreg_tag_filtered env cs
  if cs == NULL_CAPREG_INDEX then
    if !(pesbt_for_mem == 0) then
      throw Trap.abort
    if !(cursor == 0) then
      throw Trap.abort
    if tag then
      throw Trap.abort
  let mem := if tag then cheri_tag_set mem vaddr else cheri_tag_invalidate_aligned mem vaddr
  let mem := st_cap_word mem (vaddr + CHERI_MEM_OFFSET_METADATA) pesbt_for_mem
  let mem := st_cap_word mem (vaddr + CHERI_MEM_OFFSET_CURSOR) cursor
  return mem

/-- Source: `store_cap_to_memory`. -/
def store_cap_to_memory (get_capreg_pesbt : CPUArchState → Nat → Nat)
    (CAP_NULL_XOR_MASK : Nat) (env : CPUArchState) (mem : GuestMemory) (cs : Nat)
    (vaddr : Nat) : Except Trap GuestMemory :=
  store_cap_to_memory_mmu_index get_capreg_pesbt CAP_NULL_XOR_MASK env mem cs vaddr

/-- Source: `cap_is_local` (`cheri-helper-utils.h`). -/
def cap_is_local (env : CPUArchState) (cs : Nat) : Bool :=
  get_capreg_tag env cs && !((get_capreg_hwperms env cs &&& CAP_PERM_GLOBAL) != 0)

/-- Source: `perms_for_store` (`cheri-helper-utils.h`). -/
def perms_for_store (env : CPUArchState) (cs : Nat) : Nat :=
  let perms := CAP_PERM_STORE
  let perms := if get_capreg_tag env cs then perms ||| CAP_PERM_STORE_CAP else perms
  let perms := if cap_is_local env cs then perms ||| CAP_PERM_STORE_LOCAL else perms
  perms

/-- Source: `helper_store_cap_via_cap`; the unaligned-store handler is passed. -/
def helper_store_cap_via_cap (get_capreg_pesbt : CPUArchState → Nat → Nat)
    (CAP_NULL_XOR_MASK : Nat) (env : CPUArchState) (mem : GuestMemory) (cs cb : Nat)
    (offset : Nat) : Except Trap GuestMemory := do
  let cbp := get_load_store_base_cap env cb
  let addr ← cap_check_common_reg (perms_for_store env cs) cb offset CHERI_CAP_SIZE cbp
    CHERI_CAP_SIZE true
  store_cap_to_memory get_capreg_pesbt CAP_NULL_XOR_MASK env mem cs addr

/-! ## Representable lengths -/

/-- Source: `crap_impl`: the length of the bounds that `CAP_cc(setbounds)` gives a
maximum-permissions capability at base 0, cast to `target_ulong`. -/
def crap_impl (cc : CAP_cc) (len : Nat) : Nat :=
  let tmpcap := set_max_perms_capability 0
  let tmpcap := (cc.setbounds tmpcap 0 len).1
  cap_get_length_full tmpcap % 2 ^ 64

/-- Source: `helper_crap`. -/
def helper_crap (cc : CAP_cc) (len : Nat) : Nat := crap_impl cc len

/-- Source: `helper_cram`. The second component tells whether the warning "CRAM and
CRRL disagree" is reported. -/
def helper_cram (cc : CAP_cc) (len : Nat) : Nat × Bool :=
  let result := cc.get_alignment_mask len
  let rounded_with_crap := crap_impl cc len
  let rounded_with_cram := ((len + (result ^^^ (2 ^ 64 - 1))) % 2 ^ 64) &&& result
  (result, rounded_with_cram != rounded_with_crap)

/-! ## Further mutation operations -/

/-- Source: `helper_ccopytype`. `cheri_debug_assert` is read as in a
correctness-checked build. -/
def helper_ccopytype (cc : CAP_cc) (env : CPUArchState) (cd cb ct : Nat) :
    Except Trap CPUArchState :=
  let cbp := get_readonly_capreg env cb
  let ctp := get_readonly_capreg env ct
  if !cbp.cr_tag then
    throw (Trap.cheri .CapEx_TagViolation cb)
  else if is_cap_sealed cbp then
    throw (Trap.cheri .CapEx_SealViolation cb)
  else if !cap_is_sealed_with_type ctp then
    pure (update_capreg env cd (int_to_cap (cap_get_otype_signext ctp)))
  else if cap_get_otype_unsigned ctp < cap_get_base cbp then
    throw (Trap.cheri .CapEx_LengthViolation cb)
  else if cap_get_otype_unsigned ctp ≥ cap_get_top cbp then
    throw (Trap.cheri .CapEx_LengthViolation cb)
  else
    let result := { cbp with _cr_cursor := cap_get_otype_unsigned ctp }
    if !cc.cap_is_representable result then
      throw Trap.abort
    else
      pure (update_capreg env cd result)

/-- Source: `cap_is_uninit`. -/
def cap_is_uninit (env : CPUArchState) (cs : Nat) : Bool :=
  get_capreg_tag env cs && (get_capreg_hwperms env cs &&& CAP_PERM_UNINIT) != 0

/-- Source: `check_uninit`. -/
def check_uninit (env : CPUArchState) (cs : Nat) (rt : Nat) : Bool :=
  let csp := get_readonly_capreg env cs
  let cursor := cap_get_cursor csp
  cap_is_uninit env cs && decide (rt < cursor)

/-- Source: `handle_shrink_cap`. -/
def handle_shrink_cap (cc : CAP_cc) (env : CPUArchState) (cd cb : Nat) (new_base : Nat) :
    Except Trap CPUArchState :=
  let cbp := get_readonly_capreg env cb
  let cdp := get_readonly_capreg env cd
  let result := cdp
  let old_top := cap_get_top cbp
  let old_base := cap_get_base cbp
  let new_top := cap_get_cursor cbp
  if !cbp.cr_tag then
    throw (Trap.cheri .CapEx_TagViolation cb)
  else if !cap_is_unsealed cbp then
    throw (Trap.cheri .CapEx_SealViolation cb)
  else if new_base < old_base then
    throw (Trap.cheri .CapEx_LengthViolation cb)
  else if new_top > old_top then
    throw (Trap.cheri .CapEx_LengthViolation cb)
  else
    let result := (cc.setbounds result new_base new_top).1
    pure (update_capreg env cd result)

/-- Source: `helper_cshrink`. -/
def helper_cshrink (cc : CAP_cc) (env : CPUArchState) (cd cb : Nat) (rt : Nat) :
    Except Trap CPUArchState :=
  let new_base := rt
  handle_shrink_cap cc env cd cb new_base

/-- Source: `helper_cshrinkimm`. -/
def helper_cshrinkimm (cc : CAP_cc) (env : CPUArchState) (cd cb : Nat) (imm : Nat) :
    Except Trap CPUArchState :=
  let cbp := get_readonly_capreg env cb
  let cursor := cap_get_cursor cbp
  let new_base := (cursor + imm) % 2 ^ 64
  handle_shrink_cap cc env cd cb new_base

/-- Source: `cincoffset_impl`. -/
def cincoffset_impl (cc : CAP_cc) (env : CPUArchState) (cd cb : Nat) (rt : Nat) :
    Except Trap CPUArchState :=
  let cbp := get_readonly_capreg env cb
  let new_addr := (cap_get_cursor cbp + rt) % 2 ^ 64
  if check_uninit env cd new_addr then
    throw (Trap.cheri .CapEx_UninitViolation cd)
  else
    try_set_cap_cursor cc env cbp cb cd new_addr

/-- Source: `helper_candperm`. -/
def helper_candperm (env : CPUArchState) (cd cb : Nat) (rt : Nat) :
    Except Trap CPUArchState :=
  let cbp := get_readonly_capreg env cb
  if !cbp.cr_tag then
    throw (Trap.cheri .CapEx_TagViolation cb)
  else if !cap_is_unsealed cbp then
    throw (Trap.cheri .CapEx_SealViolation cb)
  else
    let rt_perms := (rt % 2 ^ 32) &&& CAP_PERMS_ALL
    let rt_uperms := ((rt % 2 ^ 32) >>> CAP_UPERMS_SHFT) &&& CAP_UPERMS_ALL
    let result := cbp
    let result := update_perms result (cap_get_perms cbp &&& rt_perms)
    let result := update_uperms result (cap_get_uperms cbp &&& rt_uperms)
    pure (update_capreg env cd result)

/-- Source: `helper_cincoffset`. -/
def helper_cincoffset (cc : CAP_cc) (env : CPUArchState) (cd cb : Nat) (rt : Nat) :
    Except Trap CPUArchState :=
  cincoffset_impl cc env cd cb rt

/-- Source: `helper_cap_load_check`. `offset` is a `target_ulong`: the comparison
`offset < 0` is one of unsigned values. -/
def helper_cap_load_check (env : CPUArchState) (cb : Nat) (offset : Nat) (size : Nat) :
    Except Trap Nat :=
  if cap_is_uninit env cb && decide (offset < 0) then
    throw (Trap.cheri .CapEx_UninitLoadViolation cb)
  else
    cap_check_common CAP_PERM_LOAD env cb offset size

/-- Source: `helper_cap_store_check`. -/
def helper_cap_store_check (env : CPUArchState) (cb : Nat) (offset : Nat) (size : Nat) :
    Except Trap Nat :=
  cap_check_common CAP_PERM_STORE env cb offset size

/-- Source: `helper_cap_ustore_check`. The register file after the call is returned
with the outcome, also when the outcome is a fault: `try_set_cap_cursor` writes `cd`
before the store check runs. -/
def helper_cap_ustore_check (cc : CAP_cc) (env : CPUArchState) (cb : Nat) (new_addr : Nat)
    (cd : Nat) (size : Nat) : CPUArchState × Except Trap Nat :=
  if check_uninit env cb new_addr then
    (env, throw (Trap.cheri .CapEx_UninitViolation cd))
  else
    let cbp := get_readonly_capreg env cb
    let cursor := cap_get_cursor cbp
    let cursor := (cursor + 2 ^ 64 - size % 2 ^ 64) % 2 ^ 64
    match try_set_cap_cursor cc env cbp cb cd cursor with
    | .error t => (env, .error t)
    | .ok env1 => (env1, cap_check_common CAP_PERM_STORE env1 cb 0 size)

/-! ## Jump and link through a register -/

/-- The capability of scenario A: bounds `[0x1000, 0x2000)`, cursor at the base,
LOAD and STORE permission, tagged, unsealed. -/
def scenario_cap : cap_register_t :=
  { cr_tag := true, cr_base := 0x1000, _cr_top := 0x2000, _cr_cursor := 0x1000,
    cr_perms := CAP_PERM_LOAD ||| CAP_PERM_STORE, cr_uperms := 0,
    cr_otype := CAP_OTYPE_UNSEALED, cr_flags := 0 }

/-- The scenario capability with the GLOBAL permission added. -/
def scenario_cap_global : cap_register_t :=
  { scenario_cap with cr_perms := CAP_PERM_LOAD ||| CAP_PERM_STORE ||| CAP_PERM_GLOBAL }

/-- A sealing key: tagged, unsealed, SEAL and UNSEAL permission (no GLOBAL), bounds
`[0, 0x100)`, cursor 5. -/
def sealing_key : cap_register_t :=
  { cr_tag := true, cr_base := 0, _cr_top := 0x100, _cr_cursor := 5,
    cr_perms := CAP_PERM_SEAL ||| CAP_PERM_UNSEAL, cr_uperms := 0,
    cr_otype := CAP_OTYPE_UNSEALED, cr_flags := 0 }

/-- Register file for the sealing examples: register 1 holds `c`, register 2 the
sealing key. -/
def seal_env (c : cap_register_t) : CPUArchState :=
  update_capreg (update_capreg null_env 1 c) 2 sealing_key

/-- A capability that could seal but for its permissions: tagged, unsealed, only UNSEAL,
cursor far outside its bounds `[0, 0x100)`. -/
def key_without_seal : cap_register_t :=
  { sealing_key with cr_perms := CAP_PERM_UNSEAL, _cr_cursor := 0x5000 }

/-- A sealing key whose cursor lies outside its bounds, at a valid object-type value. -/
def key_cursor_out_of_bounds : cap_register_t :=
  { sealing_key with _cr_cursor := 0x200 }

/-- A sealing key over the whole address space whose cursor is the unsealed sentinel. -/
def key_cursor_sentinel : cap_register_t :=
  { sealing_key with _cr_top := 2 ^ 64, _cr_cursor := CAP_OTYPE_UNSEALED_SIGNED }

/-- Register file with `c` in register 1 and `k` in register 2. -/
def two_reg_env (c k : cap_register_t) : CPUArchState :=
  update_capreg (update_capreg null_env 1 c) 2 k

/-- The scenario capability sealed with object type 5, carrying GLOBAL. -/
def sealed_cap_global : cap_register_t :=
  { scenario_cap_global with cr_otype := 5 }

/-- An authority for BuildCapability: the whole address space, every permission bit of
the low twelve, user permissions 0xf, tagged, unsealed. -/
def authority_cap : cap_register_t :=
  { null_capability with cr_tag := true, cr_perms := 0xfff, cr_uperms := 0xf }

/-- Code capability for the Invoke examples: sealed with type 5, EXECUTE and CINVOKE. -/
def invoke_code_cap : cap_register_t :=
  { scenario_cap with cr_perms := CAP_PERM_EXECUTE ||| CAP_PERM_CINVOKE, cr_otype := 5 }

/-- Data capability for the Invoke examples: sealed with type 5, LOAD and CINVOKE. -/
def invoke_data_cap : cap_register_t :=
  { scenario_cap with cr_perms := CAP_PERM_LOAD ||| CAP_PERM_CINVOKE, cr_otype := 5 }

/-- Jump-target validation that accepts a target exactly when one byte at the address
is in bounds and never raises itself, to evaluate `helper_cinvoke` on examples. -/
def validate_in_bounds (_env : CPUArchState) (target : cap_register_t) (addr : Nat)
    (_regnum : Nat) : Except Trap Bool :=
  .ok (cap_is_in_bounds target addr 1)

/-- The link step of `cheri_jump_and_link` followed by the hand-over of the next
program-counter capability `np` (the code after the target has been handled). -/
def jump_link_step (cc : CAP_cc) (env : CPUArchState) (np : cap_register_t)
    (link_reg link_pc cjalr_flags : Nat) : Except Trap CPUArchState :=
  if link_reg = NULL_CAPREG_INDEX then
    .ok (update_next_pcc_for_tcg env np cjalr_flags)
  else if cc.is_representable_cap_with_addr
      { cheri_get_recent_pcc env with _cr_cursor := link_pc } link_pc = false then
    .error Trap.abort
  else
    .ok (update_next_pcc_for_tcg
      (update_capreg env link_reg
        { cheri_get_recent_pcc env with
          _cr_cursor := link_pc
          cr_otype :=
            if cjalr_flags &&& CJALR_DONT_MAKE_SENTRY = 0 then CAP_OTYPE_SENTRY
            else (cheri_get_recent_pcc env).cr_otype })
      np cjalr_flags)

/-- A sentry: the scenario capability with EXECUTE, sealed as an entry. -/
def sentry_cap : cap_register_t :=
  { scenario_cap with cr_perms := CAP_PERM_EXECUTE ||| CAP_PERM_GLOBAL, cr_otype := CAP_OTYPE_SENTRY }

/-- Register file whose program-counter capability is the scenario capability. -/
def pcc_env : CPUArchState :=
  { null_env with pcc := scenario_cap }

/-- Decidable equality of outcomes, so that closed facts about outcomes can be evaluated. -/
instance instDecidableEqExcept {ε α : Type} [DecidableEq ε] [DecidableEq α] :
    DecidableEq (Except ε α)
  | .error a, .error b =>
    if h : a = b then isTrue (by rw [h]) else isFalse (fun h2 => h (Except.error.inj h2))
  | .ok a, .ok b =>
    if h : a = b then isTrue (by rw [h]) else isFalse (fun h2 => h (Except.ok.inj h2))
  | .error _, .ok _ => isFalse (fun h => by cases h)
  | .ok _, .error _ => isFalse (fun h => by cases h)

/-- A required-permission set asks for permission `X`: `(required_perms & X) != 0`, the
test `cap_check_common_reg` uses for `is_load`. -/
def perm_required (required_perms X : Nat) : Bool := (required_perms &&& X) != 0

/-- The capability holds every permission that the required set asks for among LOAD,
LOAD_CAP, STORE, STORE_CAP and STORE_LOCAL. -/
def holds_required_perms (required_perms : Nat) (cbp : cap_register_t) : Bool :=
  [CAP_PERM_LOAD, CAP_PERM_LOAD_CAP, CAP_PERM_STORE, CAP_PERM_STORE_CAP,
    CAP_PERM_STORE_LOCAL].all (fun X => !perm_required required_perms X || cap_has_perms cbp X)

/-- The capability `helper_cunseal` writes once its checks passed (its final branch):
`cs` with GLOBAL kept only if both capabilities carry it, then unsealed. -/
def cunseal_result (csp ctp : cap_register_t) : cap_register_t :=
  cap_set_unsealed (update_perms csp
    (if cap_has_perms csp CAP_PERM_GLOBAL && cap_has_perms ctp CAP_PERM_GLOBAL then
      cap_get_perms csp ||| CAP_PERM_GLOBAL
    else
      cap_get_perms csp &&& ((2 ^ 64 - 1) ^^^ CAP_PERM_GLOBAL)))

/-- The scenario capability with LOAD_CAP added, to load capabilities through. -/
def load_cap_source : cap_register_t :=
  { scenario_cap with cr_perms := CAP_PERM_LOAD ||| CAP_PERM_LOAD_CAP }

/-- A memory whose words are zero, whose granules are untagged and whose pages carry no
capability-load policy. -/
def empty_memory : GuestMemory :=
  { words := fun _ => 0, tags := fun _ => false, prot := fun _ => 0 }

/-- A metadata word for the examples: the permissions and the object type of the
capability in the register, packed into one word. -/
def example_pesbt (env : CPUArchState) (regnum : Nat) : Nat :=
  (get_readonly_capreg env regnum).cr_perms * 2 ^ 18 + (get_readonly_capreg env regnum).cr_otype

/-- The library represents every in-bounds cursor: moving the cursor of a representable
capability to an address within its bounds keeps it representable ("can never create an
unrepresentable capability since we bounds-checked", `cheri_jump_and_link`; the
in-bounds fast path of `try_set_cap_cursor`). -/
def in_bounds_representable (cc : CAP_cc) : Prop :=
  ∀ c a, cc.cap_is_representable c = true → addr_in_cap_bounds c a = true →
    cc.cap_is_representable { c with _cr_cursor := a } = true

/-- The requested bounds `[b, t)` are exactly representable for `c`: the library keeps
them as requested, reports them exact, and the capability with these bounds is
representable. -/
def bounds_exactly_representable (cc : CAP_cc) (c : cap_register_t) (b t : Nat) : Prop :=
  cc.setbounds c b t = ({ c with cr_base := b, _cr_top := t }, true) ∧
    cc.cap_is_representable { c with cr_base := b, _cr_top := t } = true

/-- The scenario capability sealed with the object type 0x1200, a value within the
bounds of the scenario capability. -/
def typed_cap : cap_register_t :=
  { scenario_cap with cr_otype := 0x1200 }

/-- The scenario capability with its cursor in the middle of its bounds, at 0x1800. -/
def scenario_cap_mid : cap_register_t :=
  { scenario_cap with _cr_cursor := 0x1800 }

/-- An uninitialized capability: the scenario capability with cursor 0x1800 and the
UNINIT permission. -/
def uninit_cap : cap_register_t :=
  { scenario_cap_mid with cr_perms := CAP_PERM_LOAD ||| CAP_PERM_STORE ||| CAP_PERM_UNINIT }

/-- A capability with cursor 0x1800 that holds LOAD only. -/
def load_only_mid : cap_register_t :=
  { scenario_cap_mid with cr_perms := CAP_PERM_LOAD }

/-- A tagged capability with EXECUTE over the sixteen bytes from 0x5000. -/
def exec_narrow_cap : cap_register_t :=
  { cr_tag := true, cr_base := 0x5000, _cr_top := 0x5010, _cr_cursor := 0x5000,
    cr_perms := CAP_PERM_EXECUTE, cr_uperms := 0, cr_otype := CAP_OTYPE_UNSEALED,
    cr_flags := 0 }

/-- The capability `helper_candperm` writes once its checks passed: `cb` with the
hardware and the user permissions narrowed by the operand `rt`. -/
def candperm_result (cbp : cap_register_t) (rt : Nat) : cap_register_t :=
  update_uperms
    (update_perms cbp (cap_get_perms cbp &&& ((rt % 2 ^ 32) &&& CAP_PERMS_ALL)))
    (cap_get_uperms cbp &&& (((rt % 2 ^ 32) >>> CAP_UPERMS_SHFT) &&& CAP_UPERMS_ALL))

/-- A capability that only STORE can be done through: the scenario bounds, cursor at
the base. -/
def store_only_cap : cap_register_t :=
  { scenario_cap with cr_perms := CAP_PERM_STORE }

/-- The length that `crap_impl` reads before its cast: the length of the bounds that
`CAP_cc(setbounds)` gives a maximum-permissions capability at base 0 for the request. -/
def crrl_rounded (cc : CAP_cc) (len : Nat) : Nat :=
  cap_get_length_full (cc.setbounds (set_max_perms_capability 0) 0 len).1

/-- Some base/top pair can represent the length `L` exactly: for some base the library
keeps the bounds `[b, b + L)` as requested and reports them exact. -/
def length_exactly_representable (cc : CAP_cc) (L : Nat) : Prop :=
  ∃ b, cc.setbounds (set_max_perms_capability 0) b (b + L) =
    ({ set_max_perms_capability 0 with cr_base := b, _cr_top := b + L }, true)

/-- The rounding of section 4.1 as a property of the library: the empty length is
exactly representable, and bounds set at base 0 for an address-width length have the
smallest exactly representable length at or above the request, which is at most
2^64. -/
def rounds_to_smallest_representable (cc : CAP_cc) : Prop :=
  length_exactly_representable cc 0 ∧
    ∀ len, len < 2 ^ 64 →
      crrl_rounded cc len ≤ 2 ^ 64 ∧ len ≤ crrl_rounded cc len ∧
        length_exactly_representable cc (crrl_rounded cc len) ∧
        ∀ L, length_exactly_representable cc L → len ≤ L → crrl_rounded cc len ≤ L

/-! # Theorems -/

/-! ## Lemmas on permission bits -/

theorem cap_has_perms_two_pow (c : cap_register_t) (i : Nat) :
    cap_has_perms c (2 ^ i) = (cap_get_perms c).testBit i := by
  unfold cap_has_perms
  rw [Nat.and_two_pow]
  have : 2 ^ i ≠ 0 := by positivity
  cases h : (cap_get_perms c).testBit i
  · simp; omega
  · simp

theorem perm_required_two_pow (req i : Nat) :
    perm_required req (2 ^ i) = req.testBit i := by
  unfold perm_required
  rw [Nat.and_two_pow]
  cases h : req.testBit i <;> simp

/-- For a single permission bit below 32, the macro says: the bit is required and the
capability does not hold it. -/
theorem MISSING_REQUIRED_PERM_two_pow (req : Nat) (c : cap_register_t) (i : Nat)
    (hi : i < 32) :
    MISSING_REQUIRED_PERM req c (2 ^ i) =
      (perm_required req (2 ^ i) && !cap_has_perms c (2 ^ i)) := by
  rw [perm_required_two_pow, cap_has_perms_two_pow]
  unfold MISSING_REQUIRED_PERM
  rw [Nat.and_two_pow]
  simp only [Nat.testBit_and, Nat.testBit_xor, Nat.testBit_mod_two_pow,
    Nat.testBit_two_pow_sub_one, hi]
  cases h1 : req.testBit i <;> cases h2 : (cap_get_perms c).testBit i <;> simp

theorem missing_LOAD (req : Nat) (c : cap_register_t) :
    MISSING_REQUIRED_PERM req c CAP_PERM_LOAD =
      (perm_required req CAP_PERM_LOAD && !cap_has_perms c CAP_PERM_LOAD) :=
  MISSING_REQUIRED_PERM_two_pow req c 2 (by decide)

theorem missing_LOAD_CAP (req : Nat) (c : cap_register_t) :
    MISSING_REQUIRED_PERM req c CAP_PERM_LOAD_CAP =
      (perm_required req CAP_PERM_LOAD_CAP && !cap_has_perms c CAP_PERM_LOAD_CAP) :=
  MISSING_REQUIRED_PERM_two_pow req c 4 (by decide)

theorem missing_STORE (req : Nat) (c : cap_register_t) :
    MISSING_REQUIRED_PERM req c CAP_PERM_STORE =
      (perm_required req CAP_PERM_STORE && !cap_has_perms c CAP_PERM_STORE) :=
  MISSING_REQUIRED_PERM_two_pow req c 3 (by decide)

theorem missing_STORE_CAP (req : Nat) (c : cap_register_t) :
    MISSING_REQUIRED_PERM req c CAP_PERM_STORE_CAP =
      (perm_required req CAP_PERM_STORE_CAP && !cap_has_perms c CAP_PERM_STORE_CAP) :=
  MISSING_REQUIRED_PERM_two_pow req c 5 (by decide)

theorem missing_STORE_LOCAL (req : Nat) (c : cap_register_t) :
    MISSING_REQUIRED_PERM req c CAP_PERM_STORE_LOCAL =
      (perm_required req CAP_PERM_STORE_LOCAL && !cap_has_perms c CAP_PERM_STORE_LOCAL) :=
  MISSING_REQUIRED_PERM_two_pow req c 6 (by decide)

/-! ## The general load/store check -/

/-- The check as one decision list: each test is reached only when every earlier one
passed, and the store-permission tests are skipped for an out-of-bounds load. -/
theorem cap_check_common_reg_eq (required_perms cb offset size : Nat) (cbp : cap_register_t)
    (alignment_required : Nat) (unaligned_handler : Bool) :
    cap_check_common_reg required_perms cb offset size cbp alignment_required
        unaligned_handler =
      (let addr := (cap_get_cursor cbp + offset) % 2 ^ 64
       let skip := perm_required required_perms CAP_PERM_LOAD && !cap_is_in_bounds cbp addr size
       if cbp.cr_tag = false then .error (Trap.cheri .CapEx_TagViolation cb)
       else if cap_is_unsealed cbp = false then .error (Trap.cheri .CapEx_SealViolation cb)
       else if MISSING_REQUIRED_PERM required_perms cbp CAP_PERM_LOAD = true then
         .error (Trap.cheri .CapEx_PermitLoadViolation cb)
       else if MISSING_REQUIRED_PERM required_perms cbp CAP_PERM_LOAD_CAP = true then
         .error (Trap.cheri .CapEx_PermitLoadCapViolation cb)
       else if skip = false ∧ MISSING_REQUIRED_PERM required_perms cbp CAP_PERM_STORE = true then
         .error (Trap.cheri .CapEx_PermitStoreViolation cb)
       else if skip = false ∧
           MISSING_REQUIRED_PERM required_perms cbp CAP_PERM_STORE_CAP = true then
         .error (Trap.cheri .CapEx_PermitStoreCapViolation cb)
       else if skip = false ∧
           MISSING_REQUIRED_PERM required_perms cbp CAP_PERM_STORE_LOCAL = true then
         .error (Trap.cheri .CapEx_PermitStoreLocalCapViolation cb)
       else if cap_is_in_bounds cbp addr size = false then
         .error (Trap.cheri .CapEx_LengthViolation cb)
       else if alignment_required ≠ 0 ∧ QEMU_IS_ALIGNED_P2 addr alignment_required = false ∧
           unaligned_handler = true then
         .error (Trap.unaligned addr)
       else .ok addr) := by
  simp only [cap_check_common_reg, perm_required, bind, Except.bind, throw, throwThe,
    MonadExceptOf.throw, pure, Except.pure]
  generalize cbp.cr_tag = t
  generalize cap_is_unsealed cbp = u
  generalize MISSING_REQUIRED_PERM required_perms cbp CAP_PERM_LOAD = m1
  generalize MISSING_REQUIRED_PERM required_perms cbp CAP_PERM_LOAD_CAP = m2
  generalize MISSING_REQUIRED_PERM required_perms cbp CAP_PERM_STORE = m3
  generalize MISSING_REQUIRED_PERM required_perms cbp CAP_PERM_STORE_CAP = m4
  generalize MISSING_REQUIRED_PERM required_perms cbp CAP_PERM_STORE_LOCAL = m5
  generalize cap_is_in_bounds cbp ((cap_get_cursor cbp + offset) % 2 ^ 64) size = b
  by_cases hl : required_perms &&& CAP_PERM_LOAD = 0 <;>
    cases t <;> cases u <;> cases m1 <;> cases m2 <;> cases m3 <;> cases m4 <;>
    cases m5 <;> cases b <;> cases unaligned_handler <;> simp [hl]

/-- C1: the general load/store check on an untagged capability raises TagViolation on
register `cb`, whatever the required permissions, offset, size, alignment requirement,
seal state, permissions and bounds are (so no other cause is ever the outcome). -/
theorem cap_check_common_reg_untagged (required_perms cb offset size : Nat)
    (cbp : cap_register_t) (alignment_required : Nat) (unaligned_handler : Bool)
    (htag : cbp.cr_tag = false) :
    cap_check_common_reg required_perms cb offset size cbp alignment_required
        unaligned_handler = .error (Trap.cheri .CapEx_TagViolation cb) := by
  rw [cap_check_common_reg_eq]
  simp [htag]

/-- Scenario D: a load through an untagged capability carrying only LOAD, here sealed and
with an out-of-bounds access, still reports TagViolation. -/
theorem cap_check_common_reg_untagged_witness :
    ({ scenario_cap with cr_tag := false, cr_perms := CAP_PERM_LOAD, cr_otype := 5 } :
        cap_register_t).cr_tag = false ∧
      cap_check_common_reg (CAP_PERM_LOAD ||| CAP_PERM_STORE) 3 0x5000 8
        { scenario_cap with cr_tag := false, cr_perms := CAP_PERM_LOAD, cr_otype := 5 } 8 true
        = .error (Trap.cheri .CapEx_TagViolation 3) :=
  ⟨rfl, cap_check_common_reg_untagged _ 3 0x5000 8 _ 8 true rfl⟩

/-- C2: for a tagged, unsealed capability holding every required load permission, a
check that requires LOAD on an out-of-bounds range raises LengthViolation, whatever
store permissions are required or missing (read-modify-write included). -/
theorem cap_check_common_reg_oob_load (required_perms cb offset size : Nat)
    (cbp : cap_register_t) (alignment_required : Nat) (unaligned_handler : Bool)
    (htag : cbp.cr_tag = true) (hunsealed : cap_is_unsealed cbp = true)
    (hload : perm_required required_perms CAP_PERM_LOAD = true)
    (hLOAD : cap_has_perms cbp CAP_PERM_LOAD = true)
    (hLOADCAP : perm_required required_perms CAP_PERM_LOAD_CAP = true →
      cap_has_perms cbp CAP_PERM_LOAD_CAP = true)
    (hoob : cap_is_in_bounds cbp ((cap_get_cursor cbp + offset) % 2 ^ 64) size = false) :
    cap_check_common_reg required_perms cb offset size cbp alignment_required
        unaligned_handler = .error (Trap.cheri .CapEx_LengthViolation cb) := by
  rw [cap_check_common_reg_eq]
  have h2 : MISSING_REQUIRED_PERM required_perms cbp CAP_PERM_LOAD_CAP = false := by
    rw [missing_LOAD_CAP]
    cases hr : perm_required required_perms CAP_PERM_LOAD_CAP
    · simp
    · simp [hLOADCAP hr]
  simp only [Nat.reducePow] at hoob
  simp [htag, hunsealed, hload, hoob, h2, missing_LOAD, hLOAD]

/-- The read-modify-write check of `helper_cap_rmw_check` through a capability that
holds LOAD but not STORE, on an out-of-bounds range: LengthViolation. -/
theorem cap_check_common_reg_oob_load_witness :
    helper_cap_rmw_check
        (update_capreg null_env 3 { scenario_cap with cr_perms := CAP_PERM_LOAD })
        3 0x2000 8 = .error (Trap.cheri .CapEx_LengthViolation 3) :=
  cap_check_common_reg_oob_load (CAP_PERM_LOAD ||| CAP_PERM_STORE) 3 0x2000 8
    { scenario_cap with cr_perms := CAP_PERM_LOAD } 8 false rfl rfl rfl rfl
    (fun h => by revert h; decide) rfl

/-- C3: for a tagged, unsealed capability and a required set without LOAD (whose
LOAD_CAP bit, if required, is held), the check raises the violation of the first
missing store permission in the order STORE, STORE_CAP, STORE_LOCAL, whether or not
the access is in bounds. -/
theorem cap_check_common_reg_store_perm_first (required_perms cb offset size : Nat)
    (cbp : cap_register_t) (alignment_required : Nat) (unaligned_handler : Bool)
    (htag : cbp.cr_tag = true) (hunsealed : cap_is_unsealed cbp = true)
    (hnoload : perm_required required_perms CAP_PERM_LOAD = false)
    (hLOADCAP : perm_required required_perms CAP_PERM_LOAD_CAP = true →
      cap_has_perms cbp CAP_PERM_LOAD_CAP = true) :
    let missing := fun X => perm_required required_perms X && !cap_has_perms cbp X
    let r := cap_check_common_reg required_perms cb offset size cbp alignment_required
      unaligned_handler
    (missing CAP_PERM_STORE = true →
        r = .error (Trap.cheri .CapEx_PermitStoreViolation cb)) ∧
    (missing CAP_PERM_STORE = false → missing CAP_PERM_STORE_CAP = true →
        r = .error (Trap.cheri .CapEx_PermitStoreCapViolation cb)) ∧
    (missing CAP_PERM_STORE = false → missing CAP_PERM_STORE_CAP = false →
      missing CAP_PERM_STORE_LOCAL = true →
        r = .error (Trap.cheri .CapEx_PermitStoreLocalCapViolation cb)) := by
  intro missing r
  have h2 : MISSING_REQUIRED_PERM required_perms cbp CAP_PERM_LOAD_CAP = false := by
    rw [missing_LOAD_CAP]
    cases hr : perm_required required_perms CAP_PERM_LOAD_CAP
    · simp
    · simp [hLOADCAP hr]
  have h1 : MISSING_REQUIRED_PERM required_perms cbp CAP_PERM_LOAD = false := by
    rw [missing_LOAD, hnoload]; rfl
  have hr : r = cap_check_common_reg required_perms cb offset size cbp alignment_required
      unaligned_handler := rfl
  rw [cap_check_common_reg_eq, missing_STORE, missing_STORE_CAP, missing_STORE_LOCAL] at hr
  simp only [h1, h2, htag, hunsealed, hnoload] at hr
  refine ⟨?_, ?_, ?_⟩
  · intro m1
    have m1' : (perm_required required_perms CAP_PERM_STORE &&
      !cap_has_perms cbp CAP_PERM_STORE) = true := m1
    rw [hr]; simp [m1']
  · intro m1 m2
    have m1' : (perm_required required_perms CAP_PERM_STORE &&
      !cap_has_perms cbp CAP_PERM_STORE) = false := m1
    have m2' : (perm_required required_perms CAP_PERM_STORE_CAP &&
      !cap_has_perms cbp CAP_PERM_STORE_CAP) = true := m2
    rw [hr]; simp [m1', m2']
  · intro m1 m2 m3
    have m1' : (perm_required required_perms CAP_PERM_STORE &&
      !cap_has_perms cbp CAP_PERM_STORE) = false := m1
    have m2' : (perm_required required_perms CAP_PERM_STORE_CAP &&
      !cap_has_perms cbp CAP_PERM_STORE_CAP) = false := m2
    have m3' : (perm_required required_perms CAP_PERM_STORE_LOCAL &&
      !cap_has_perms cbp CAP_PERM_STORE_LOCAL) = true := m3
    rw [hr]; simp [m1', m2', m3']

/-- A capability store (STORE and STORE_CAP required) far out of bounds through a
capability that holds STORE but not STORE_CAP: the permission fault is reported, and
it is the one for STORE_CAP. -/
theorem cap_check_common_reg_store_perm_first_witness :
    cap_is_in_bounds scenario_cap ((cap_get_cursor scenario_cap + 0x9000) % 2 ^ 64) 16 = false ∧
    cap_check_common_reg (CAP_PERM_STORE ||| CAP_PERM_STORE_CAP) 3 0x9000 16 scenario_cap 16
      true = .error (Trap.cheri .CapEx_PermitStoreCapViolation 3) :=
  ⟨by decide,
   (cap_check_common_reg_store_perm_first (CAP_PERM_STORE ||| CAP_PERM_STORE_CAP) 3 0x9000 16
      scenario_cap 16 true rfl rfl rfl (fun h => by revert h; decide)).2.1 rfl rfl⟩

/-- C4: with no unaligned-access handler, or an aligned address, the general check
returns without a fault exactly when the capability is tagged, unsealed, holds every
required permission among LOAD, LOAD_CAP, STORE, STORE_CAP, STORE_LOCAL and the access
range is in bounds; the value returned is `cursor + offset` modulo `2 ^ 64`; and a
tagged, unsealed capability with all required permissions and an out-of-bounds range
gets LengthViolation. -/
theorem cap_check_common_reg_ok_iff (required_perms cb offset size : Nat)
    (cbp : cap_register_t) (alignment_required : Nat) (unaligned_handler : Bool)
    (halign : unaligned_handler = false ∨
      QEMU_IS_ALIGNED_P2 ((cap_get_cursor cbp + offset) % 2 ^ 64) alignment_required = true) :
    let addr := (cap_get_cursor cbp + offset) % 2 ^ 64
    let r := cap_check_common_reg required_perms cb offset size cbp alignment_required
      unaligned_handler
    ((∃ a, r = .ok a) ↔
      (cbp.cr_tag = true ∧ cap_is_unsealed cbp = true ∧
        holds_required_perms required_perms cbp = true ∧
        cap_is_in_bounds cbp addr size = true)) ∧
    (∀ a, r = .ok a → a = addr) ∧
    (cbp.cr_tag = true → cap_is_unsealed cbp = true →
      holds_required_perms required_perms cbp = true →
      cap_is_in_bounds cbp addr size = false →
        r = .error (Trap.cheri .CapEx_LengthViolation cb)) := by
  intro addr r
  have hr : r = cap_check_common_reg required_perms cb offset size cbp alignment_required
      unaligned_handler := rfl
  rw [cap_check_common_reg_eq, missing_LOAD, missing_LOAD_CAP, missing_STORE,
    missing_STORE_CAP, missing_STORE_LOCAL] at hr
  have hal : ¬ (alignment_required ≠ 0 ∧
      QEMU_IS_ALIGNED_P2 addr alignment_required = false ∧ unaligned_handler = true) := by
    rintro ⟨_, h1, h2⟩
    rcases halign with h | h
    · rw [h] at h2; cases h2
    · have h' : QEMU_IS_ALIGNED_P2 addr alignment_required = true := h
      rw [h'] at h1; cases h1
  simp only [holds_required_perms, List.all_cons, List.all_nil, Bool.and_true]
  have hr2 : r =
      (if cbp.cr_tag = false then .error (Trap.cheri .CapEx_TagViolation cb)
       else if cap_is_unsealed cbp = false then .error (Trap.cheri .CapEx_SealViolation cb)
       else if (perm_required required_perms CAP_PERM_LOAD &&
           !cap_has_perms cbp CAP_PERM_LOAD) = true then
         .error (Trap.cheri .CapEx_PermitLoadViolation cb)
       else if (perm_required required_perms CAP_PERM_LOAD_CAP &&
           !cap_has_perms cbp CAP_PERM_LOAD_CAP) = true then
         .error (Trap.cheri .CapEx_PermitLoadCapViolation cb)
       else if (perm_required required_perms CAP_PERM_LOAD &&
             !cap_is_in_bounds cbp addr size) = false ∧
           (perm_required required_perms CAP_PERM_STORE &&
             !cap_has_perms cbp CAP_PERM_STORE) = true then
         .error (Trap.cheri .CapEx_PermitStoreViolation cb)
       else if (perm_required required_perms CAP_PERM_LOAD &&
             !cap_is_in_bounds cbp addr size) = false ∧
           (perm_required required_perms CAP_PERM_STORE_CAP &&
             !cap_has_perms cbp CAP_PERM_STORE_CAP) = true then
         .error (Trap.cheri .CapEx_PermitStoreCapViolation cb)
       else if (perm_required required_perms CAP_PERM_LOAD &&
             !cap_is_in_bounds cbp addr size) = false ∧
           (perm_required required_perms CAP_PERM_STORE_LOCAL &&
             !cap_has_perms cbp CAP_PERM_STORE_LOCAL) = true then
         .error (Trap.cheri .CapEx_PermitStoreLocalCapViolation cb)
       else if cap_is_in_bounds cbp addr size = false then
         .error (Trap.cheri .CapEx_LengthViolation cb)
       else .ok addr) := by
    rw [hr]
    simp only [hal, if_false]
  clear hr
  generalize r = r0 at hr2
  rw [hr2]
  generalize cbp.cr_tag = t
  generalize cap_is_unsealed cbp = u
  generalize cap_is_in_bounds cbp addr size = b
  have e : ∀ p q : Bool, (!p || q) = !(p && !q) := by decide
  simp only [e]
  generalize (perm_required required_perms CAP_PERM_LOAD &&
    !cap_has_perms cbp CAP_PERM_LOAD) = m1
  generalize (perm_required required_perms CAP_PERM_LOAD_CAP &&
    !cap_has_perms cbp CAP_PERM_LOAD_CAP) = m2
  generalize (perm_required required_perms CAP_PERM_STORE &&
    !cap_has_perms cbp CAP_PERM_STORE) = m3
  generalize (perm_required required_perms CAP_PERM_STORE_CAP &&
    !cap_has_perms cbp CAP_PERM_STORE_CAP) = m4
  generalize (perm_required required_perms CAP_PERM_STORE_LOCAL &&
    !cap_has_perms cbp CAP_PERM_STORE_LOCAL) = m5
  generalize perm_required required_perms CAP_PERM_LOAD = p1
  cases t <;> cases u <;> cases b <;> cases p1 <;> cases m1 <;> cases m2 <;> cases m3 <;>
    cases m4 <;> cases m5 <;> simp

/-- A load of 8 bytes at offset 0x10 through the scenario capability returns address
0x1010 even with an unaligned handler installed (the address is aligned); the same load
at offset 0x2000 is out of bounds and raises LengthViolation. -/
theorem cap_check_common_reg_ok_iff_witness :
    (∃ a, cap_check_common_reg CAP_PERM_LOAD 3 0x10 8 scenario_cap 8 true = .ok a) ∧
    cap_check_common_reg CAP_PERM_LOAD 3 0x2000 8 scenario_cap 8 true =
      .error (Trap.cheri .CapEx_LengthViolation 3) :=
  ⟨(cap_check_common_reg_ok_iff CAP_PERM_LOAD 3 0x10 8 scenario_cap 8 true
      (Or.inr (by decide))).1.2 ⟨rfl, rfl, by decide, by decide⟩,
   (cap_check_common_reg_ok_iff CAP_PERM_LOAD 3 0x2000 8 scenario_cap 8 true
      (Or.inr (by decide))).2.2 rfl rfl (by decide) (by decide)⟩

/-! ## SetBounds -/

/-- The steps of `do_setbounds` as one decision list. -/
theorem do_setbounds_eq (cc : CAP_cc) (must_be_exact : Bool) (env : CPUArchState)
    (cd cb length : Nat) :
    do_setbounds cc must_be_exact env cd cb length =
      (let cbp := get_readonly_capreg env cb
       let new_base := cap_get_cursor cbp
       let new_top := new_base + length
       let result := (cc.setbounds cbp new_base new_top).1
       let exact := (cc.setbounds cbp new_base new_top).2
       if cbp.cr_tag = false then .error (Trap.cheri .CapEx_TagViolation cb)
       else if is_cap_sealed cbp = true then .error (Trap.cheri .CapEx_SealViolation cb)
       else if new_base < cbp.cr_base then .error (Trap.cheri .CapEx_LengthViolation cb)
       else if new_top > cap_get_top_full cbp then
         .error (Trap.cheri .CapEx_LengthViolation cb)
       else if must_be_exact = true ∧ exact = false then
         .error (Trap.cheri .CapEx_InexactBounds cb)
       else if cc.cap_is_representable result = true ∧ cbp.cr_base ≤ result.cr_base ∧
           cap_get_length_full result ≤ cap_get_length_full cbp ∧
           cap_get_top_full result ≤ cap_get_top_full cbp then
         .ok (update_capreg env cd result)
       else .error Trap.abort) := by
  simp only [do_setbounds, bind, Except.bind, throw, throwThe, MonadExceptOf.throw, pure,
    Except.pure]
  generalize get_readonly_capreg env cb = cbp
  generalize cc.setbounds cbp (cap_get_cursor cbp + length) (cap_get_cursor cbp + length) = x
  generalize (cc.setbounds cbp (cap_get_cursor cbp) (cap_get_cursor cbp + length)) = sb
  generalize cc.cap_is_representable sb.1 = rp
  by_cases h1 : cap_get_cursor cbp < cbp.cr_base <;>
    by_cases h2 : cap_get_cursor cbp + length > cap_get_top_full cbp <;>
    by_cases h3 : cbp.cr_base ≤ sb.1.cr_base <;>
    by_cases h4 : cap_get_length_full sb.1 ≤ cap_get_length_full cbp <;>
    by_cases h5 : cap_get_top_full sb.1 ≤ cap_get_top_full cbp <;>
    cases cbp.cr_tag <;> cases is_cap_sealed cbp <;> cases must_be_exact <;>
    cases sb.2 <;> cases rp <;> simp [h1, h2, h3, h4, h5]

/-- C6: `do_setbounds` writes register `cd` only if the source capability is tagged,
unsealed, its cursor is at or above its base and `cursor + len`, the exact sum, is at
most its top; otherwise it raises TagViolation, SealViolation or LengthViolation, in
this order of priority, and returns no register state. -/
theorem do_setbounds_checks (cc : CAP_cc) (must_be_exact : Bool) (env : CPUArchState)
    (cd cb length : Nat) :
    let c := get_readonly_capreg env cb
    let r := do_setbounds cc must_be_exact env cd cb length
    (∀ env2, r = .ok env2 →
      c.cr_tag = true ∧ cap_is_unsealed c = true ∧ cap_get_base c ≤ cap_get_cursor c ∧
        cap_get_cursor c + length ≤ cap_get_top_full c) ∧
    (c.cr_tag = false → r = .error (Trap.cheri .CapEx_TagViolation cb)) ∧
    (c.cr_tag = true → cap_is_unsealed c = false →
      r = .error (Trap.cheri .CapEx_SealViolation cb)) ∧
    (c.cr_tag = true → cap_is_unsealed c = true →
      (cap_get_cursor c < cap_get_base c ∨ cap_get_cursor c + length > cap_get_top_full c) →
      r = .error (Trap.cheri .CapEx_LengthViolation cb)) := by
  intro c r
  have hr : r = do_setbounds cc must_be_exact env cd cb length := rfl
  rw [do_setbounds_eq] at hr
  simp only [is_cap_sealed] at hr
  have hc : get_readonly_capreg env cb = c := rfl
  rw [hc] at hr
  clear_value r c
  subst hr
  simp only [cap_get_base]
  by_cases h1 : cap_get_cursor c < c.cr_base <;>
    by_cases h2 : cap_get_cursor c + length > cap_get_top_full c <;>
    by_cases ht : c.cr_tag = true <;> by_cases hu : cap_is_unsealed c = true <;>
    simp [h1, h2, ht, hu]
  intro _ _
  exact ⟨by omega, by omega⟩

/-- A length that makes `cursor + len` pass `2 ^ 64` is rejected with LengthViolation,
although the sum wrapped to the address width would lie below the top. -/
theorem do_setbounds_checks_witness :
    (0xFFFFFFFFFFFFFFF0 + 0x20) % 2 ^ 64 ≤
        cap_get_top_full { scenario_cap with _cr_top := 2 ^ 64, _cr_cursor := 0xFFFFFFFFFFFFFFF0 } ∧
    do_setbounds cc_model false
        (update_capreg null_env 1
          { scenario_cap with _cr_top := 2 ^ 64, _cr_cursor := 0xFFFFFFFFFFFFFFF0 })
        2 1 0x20 = .error (Trap.cheri .CapEx_LengthViolation 1) :=
  ⟨by decide,
   (do_setbounds_checks cc_model false
      (update_capreg null_env 1
        { scenario_cap with _cr_top := 2 ^ 64, _cr_cursor := 0xFFFFFFFFFFFFFFF0 })
      2 1 0x20).2.2.2 rfl rfl (Or.inr (by decide))⟩

/-- Whatever the compression does, a result is written only after the four assertions
of `do_setbounds` passed: a written result is representable and within the bounds of
the source capability. -/
theorem do_setbounds_written_result (cc : CAP_cc) (must_be_exact : Bool) (env : CPUArchState)
    (cd cb length : Nat) (env2 : CPUArchState)
    (h : do_setbounds cc must_be_exact env cd cb length = .ok env2) :
    let c := get_readonly_capreg env cb
    let result := (cc.setbounds c (cap_get_cursor c) (cap_get_cursor c + length)).1
    env2 = update_capreg env cd result ∧ cc.cap_is_representable result = true ∧
      c.cr_base ≤ result.cr_base ∧ cap_get_top_full result ≤ cap_get_top_full c ∧
      cap_get_length_full result ≤ cap_get_length_full c := by
  intro c result
  rw [do_setbounds_eq] at h
  simp only [] at h
  split_ifs at h with h1 h2 h3 h4 h5 h6
  obtain ⟨a1, a2, a3, a4⟩ := h6
  injection h with h
  exact ⟨h.symm, a1, a2, a4, a3⟩

/-- C7: whenever SetBounds succeeds, SetBoundsExact on the same operands succeeds if and
only if the compression reports the requested bounds as exact; when it fails it raises
InexactBounds, and when it succeeds it writes the same result as SetBounds. -/
theorem csetboundsexact_iff_exact (cc : CAP_cc) (env : CPUArchState) (cd cb rt : Nat)
    (env1 : CPUArchState) (hs : helper_csetbounds cc env cd cb rt = .ok env1) :
    let c := get_readonly_capreg env cb
    let exact := (cc.setbounds c (cap_get_cursor c) (cap_get_cursor c + rt)).2
    ((∃ env2, helper_csetboundsexact cc env cd cb rt = .ok env2) ↔ exact = true) ∧
    (exact = false →
      helper_csetboundsexact cc env cd cb rt = .error (Trap.cheri .CapEx_InexactBounds cb)) ∧
    (exact = true → helper_csetboundsexact cc env cd cb rt = .ok env1) := by
  intro c exact
  have hc : get_readonly_capreg env cb = c := rfl
  have he : (cc.setbounds c (cap_get_cursor c) (cap_get_cursor c + rt)).2 = exact := rfl
  unfold helper_csetbounds at hs
  unfold helper_csetboundsexact
  rw [do_setbounds_eq] at hs ⊢
  simp only [hc, he] at hs ⊢
  clear_value exact c
  split_ifs at hs ⊢ <;> simp_all


/-- Scenario B: on the scenario capability a length of 0x501 is rounded up by SetBounds
(top 0x1508, tag retained) and rejected by SetBoundsExact with InexactBounds. -/
theorem csetboundsexact_iff_exact_witness :
    helper_csetbounds cc_model (update_capreg null_env 1 scenario_cap) 2 1 0x501 =
      .ok (update_capreg (update_capreg null_env 1 scenario_cap) 2
        { scenario_cap with _cr_top := 0x1508 }) ∧
    helper_csetboundsexact cc_model (update_capreg null_env 1 scenario_cap) 2 1 0x501 =
      .error (Trap.cheri .CapEx_InexactBounds 1) :=
  ⟨rfl, (csetboundsexact_iff_exact cc_model (update_capreg null_env 1 scenario_cap) 2 1 0x501
    (update_capreg (update_capreg null_env 1 scenario_cap) 2
      { scenario_cap with _cr_top := 0x1508 }) rfl).2.1 rfl⟩

/-! ## Register file -/

theorem get_update_capreg_same (env : CPUArchState) (r : Nat) (v : cap_register_t) :
    get_readonly_capreg (update_capreg env r v) r = v := by
  simp [get_readonly_capreg, update_capreg]

theorem get_update_capreg_other (env : CPUArchState) (r r2 : Nat) (v : cap_register_t)
    (h : r2 ≠ r) :
    get_readonly_capreg (update_capreg env r v) r2 = get_readonly_capreg env r2 := by
  simp [get_readonly_capreg, update_capreg, h]

/-! ## Seal and Unseal -/

/-- An object-type value in range fits 32 bits and is not the unsealed sentinel; a
non-reserved one is at most the last non-reserved object type. -/
theorem otype_cursor_facts (t : Nat) (h1 : t ≤ CAP_MAX_REPRESENTABLE_OTYPE)
    (h2 : cap_otype_is_reserved t = false) :
    t ≤ CAP_LAST_NONRESERVED_OTYPE ∧ t % 2 ^ 32 = t ∧ t ≠ CAP_OTYPE_UNSEALED_SIGNED ∧
      t ≠ CAP_OTYPE_UNSEALED := by
  simp only [cap_otype_is_reserved, CAP_LAST_NONRESERVED_OTYPE, CAP_MAX_REPRESENTABLE_OTYPE,
    CAP_OTYPE_UNSEALED_SIGNED, CAP_OTYPE_UNSEALED, decide_eq_false_iff_not] at *
  omega

/-- Seal, when every check passes: the source capability with its object type set to
the cursor of the sealing capability. -/
theorem cseal_common_ok (cc : CAP_cc) (env : CPUArchState) (cd cs ct : Nat)
    (conditional : Bool)
    (hcs_tag : (get_readonly_capreg env cs).cr_tag = true)
    (hcs_unsealed : cap_is_unsealed (get_readonly_capreg env cs) = true)
    (hct_tag : (get_readonly_capreg env ct).cr_tag = true)
    (hct_unsealed : cap_is_unsealed (get_readonly_capreg env ct) = true)
    (hseal : cap_has_perms (get_readonly_capreg env ct) CAP_PERM_SEAL = true)
    (hinb : cap_cursor_in_bounds (get_readonly_capreg env ct) = true)
    (hrange : cap_get_cursor (get_readonly_capreg env ct) ≤ CAP_MAX_REPRESENTABLE_OTYPE)
    (hnr : cap_otype_is_reserved (cap_get_cursor (get_readonly_capreg env ct)) = false)
    (hrep : cc.is_representable_cap_when_sealed_with_addr (get_readonly_capreg env cs)
      (cap_get_cursor (get_readonly_capreg env cs)) = true) :
    cseal_common cc env cd cs ct conditional =
      .ok (update_capreg env cd { get_readonly_capreg env cs with
        cr_otype := cap_get_cursor (get_readonly_capreg env ct) }) := by
  obtain ⟨_, f2, f3, _⟩ := otype_cursor_facts _ hrange hnr
  have f5 : ¬ (cap_get_cursor (get_readonly_capreg env ct) > CAP_MAX_REPRESENTABLE_OTYPE) := by
    omega
  simp only [cseal_common, hcs_tag, hcs_unsealed, hct_tag, hct_unsealed, hseal, hinb, hnr,
    hrep, f2, f5, cap_set_sealed, pure, Except.pure]
  cases conditional <;> simp [f3]

/-- Seal stopped by the representability test: InexactBounds on the source register. -/
theorem cseal_common_inexact (cc : CAP_cc) (env : CPUArchState) (cd cs ct : Nat)
    (conditional : Bool)
    (hcs_tag : (get_readonly_capreg env cs).cr_tag = true)
    (hcs_unsealed : cap_is_unsealed (get_readonly_capreg env cs) = true)
    (hct_tag : (get_readonly_capreg env ct).cr_tag = true)
    (hct_unsealed : cap_is_unsealed (get_readonly_capreg env ct) = true)
    (hseal : cap_has_perms (get_readonly_capreg env ct) CAP_PERM_SEAL = true)
    (hinb : cap_cursor_in_bounds (get_readonly_capreg env ct) = true)
    (hrange : cap_get_cursor (get_readonly_capreg env ct) ≤ CAP_MAX_REPRESENTABLE_OTYPE)
    (hnr : cap_otype_is_reserved (cap_get_cursor (get_readonly_capreg env ct)) = false)
    (hrep : cc.is_representable_cap_when_sealed_with_addr (get_readonly_capreg env cs)
      (cap_get_cursor (get_readonly_capreg env cs)) = false) :
    cseal_common cc env cd cs ct conditional =
      .error (Trap.cheri .CapEx_InexactBounds cs) := by
  obtain ⟨_, _, f3, _⟩ := otype_cursor_facts _ hrange hnr
  have f5 : ¬ (cap_get_cursor (get_readonly_capreg env ct) > CAP_MAX_REPRESENTABLE_OTYPE) := by
    omega
  simp only [cseal_common, hcs_tag, hcs_unsealed, hct_tag, hct_unsealed, hseal, hinb, hnr,
    hrep, f5, throw, throwThe, MonadExceptOf.throw]
  cases conditional <;> simp [f3]

/-- C10 (amended): for every tagged `cs` and every `ct`, whenever `ct` is untagged, or
`cs` is already sealed, or the cursor of `ct` is outside its bounds, or that cursor is
the reserved unsealed sentinel, ConditionalSeal raises no fault and writes `cs`
unchanged to `cd`; an untagged `cs` raises TagViolation on `cs` in every case. -/
theorem ccseal_fallback (cc : CAP_cc) (env : CPUArchState) (cd cs ct : Nat) :
    let csp := get_readonly_capreg env cs
    let ctp := get_readonly_capreg env ct
    (csp.cr_tag = true →
      (ctp.cr_tag = false ∨ cap_is_unsealed csp = false ∨ cap_cursor_in_bounds ctp = false ∨
        cap_get_cursor ctp = CAP_OTYPE_UNSEALED_SIGNED) →
      helper_ccseal cc env cd cs ct = .ok (update_capreg env cd csp)) ∧
    (csp.cr_tag = false →
      helper_ccseal cc env cd cs ct = .error (Trap.cheri .CapEx_TagViolation cs)) := by
  intro csp ctp
  have hc : get_readonly_capreg env cs = csp := rfl
  have ht : get_readonly_capreg env ct = ctp := rfl
  simp only [helper_ccseal, cseal_common, hc, ht, throw, throwThe, MonadExceptOf.throw, pure,
    Except.pure]
  refine ⟨fun htag h => ?_, fun htag => ?_⟩
  · by_cases h1 : ctp.cr_tag = true <;> by_cases h2 : cap_is_unsealed csp = true <;>
      by_cases h3 : cap_cursor_in_bounds ctp = true <;>
      by_cases h4 : cap_get_cursor ctp = CAP_OTYPE_UNSEALED_SIGNED <;>
      simp [htag, h1, h2, h3, h4] at h ⊢
  · simp [htag]

/-- Conditional seal of a capability that is already sealed (a sentry here), with a
valid sealing key: the capability is written unchanged. -/
theorem ccseal_fallback_witness :
    helper_ccseal cc_model (seal_env { scenario_cap with cr_otype := CAP_OTYPE_SENTRY }) 3 1 2 =
      .ok (update_capreg (seal_env { scenario_cap with cr_otype := CAP_OTYPE_SENTRY }) 3
        { scenario_cap with cr_otype := CAP_OTYPE_SENTRY }) :=
  (ccseal_fallback cc_model (seal_env { scenario_cap with cr_otype := CAP_OTYPE_SENTRY })
    3 1 2).1 rfl (Or.inr (Or.inl (by decide)))

/-- C10 as stated fails: with `cs` untagged and `ct` untagged (a listed fallback
condition), ConditionalSeal raises TagViolation on `cs` instead of writing `cs`. -/
theorem ccseal_fallback_counterexample :
    (get_readonly_capreg null_env 2).cr_tag = false ∧
    helper_ccseal cc_model null_env 3 1 2 = .error (Trap.cheri .CapEx_TagViolation 1) ∧
    helper_ccseal cc_model null_env 3 1 2 ≠
      .ok (update_capreg null_env 3 (get_readonly_capreg null_env 1)) := by
  refine ⟨rfl, rfl, ?_⟩
  intro h
  have h2 : helper_ccseal cc_model null_env 3 1 2 =
    .error (Trap.cheri .CapEx_TagViolation 1) := rfl
  rw [h2] at h
  cases h

/-- Bits of the permission word that Unseal writes: GLOBAL is kept only if both
capabilities carry it, every other bit is that of the sealed capability. -/
theorem unseal_perms_testBit (p : Nat) (both : Bool) (hp : p < 2 ^ 32) (i : Nat) :
    (((if both = true then p ||| CAP_PERM_GLOBAL
        else p &&& ((2 ^ 64 - 1) ^^^ CAP_PERM_GLOBAL)) % 2 ^ 32).testBit i) =
      if i = 0 then (p.testBit 0 && both) || both else p.testBit i := by
  have hhigh : 32 ≤ i → p.testBit i = false := fun h =>
    Nat.testBit_lt_two_pow (lt_of_lt_of_le hp (Nat.pow_le_pow_right (by decide) h))
  unfold CAP_PERM_GLOBAL
  cases both
  · simp only [Bool.false_eq_true, if_false, Nat.testBit_mod_two_pow, Nat.testBit_and,
      Nat.testBit_xor, Nat.testBit_two_pow_sub_one, Nat.testBit_two_pow]
    by_cases h0 : i = 0
    · subst h0; simp
    · by_cases h32 : i < 32
      · have h64 : i < 64 := by omega
        have h0' : ¬ (0 = i) := fun h => h0 h.symm
        simp [h0, h0', h32, h64]
      · have := hhigh (by omega)
        simp [h0, h32, this]
  · simp only [if_true, Nat.testBit_mod_two_pow, Nat.testBit_or, Nat.testBit_two_pow]
    by_cases h0 : i = 0
    · subst h0; simp
    · by_cases h32 : i < 32
      · have h0' : ¬ (0 = i) := fun h => h0 h.symm
        simp [h0, h0', h32]
      · have := hhigh (by omega)
        simp [h0, h32, this]

/-- Unseal, when every check passes, writes `cunseal_result`. -/
theorem helper_cunseal_ok (env : CPUArchState) (cd cs ct : Nat)
    (hcs_tag : (get_readonly_capreg env cs).cr_tag = true)
    (hct_tag : (get_readonly_capreg env ct).cr_tag = true)
    (hcs_sealed : cap_is_unsealed (get_readonly_capreg env cs) = false)
    (hct_unsealed : cap_is_unsealed (get_readonly_capreg env ct) = true)
    (hcs_type : cap_is_sealed_with_type (get_readonly_capreg env cs) = true)
    (heq : cap_get_cursor (get_readonly_capreg env ct) =
      cap_get_otype_unsigned (get_readonly_capreg env cs))
    (hunseal : cap_has_perms (get_readonly_capreg env ct) CAP_PERM_UNSEAL = true)
    (hinb : cap_cursor_in_bounds (get_readonly_capreg env ct) = true)
    (hrange : cap_get_cursor (get_readonly_capreg env ct) ≤ CAP_MAX_REPRESENTABLE_OTYPE)
    (hnr : cap_otype_is_reserved (cap_get_cursor (get_readonly_capreg env ct)) = false) :
    helper_cunseal env cd cs ct =
      .ok (update_capreg env cd
        (cunseal_result (get_readonly_capreg env cs) (get_readonly_capreg env ct))) := by
  have f5 : ¬ (cap_get_cursor (get_readonly_capreg env ct) > CAP_MAX_REPRESENTABLE_OTYPE) := by
    omega
  simp only [helper_cunseal, cunseal_result, hcs_tag, hct_tag, hcs_sealed, hct_unsealed,
    hcs_type, hunseal, hinb, hnr, f5, pure, Except.pure]
  simp [heq]

/-- C8 (amended): for an unsealed tagged `c` (permission word within 32 bits) that is
representable when sealed, and a tagged unsealed `sk` with SEAL and UNSEAL whose cursor
lies in its bounds and is a non-reserved object type in range, Unseal(Seal(c, sk), sk)
succeeds and returns `c` with the GLOBAL permission kept only if `sk` carries GLOBAL:
every field other than the hardware permissions, and every permission bit other than
GLOBAL, is that of `c`; the result equals `c` when `sk` carries GLOBAL or `c` lacks it. -/
theorem cunseal_after_cseal (cc : CAP_cc) (env : CPUArchState) (cd cd2 cs ct : Nat)
    (hcs_tag : (get_readonly_capreg env cs).cr_tag = true)
    (hcs_unsealed : cap_is_unsealed (get_readonly_capreg env cs) = true)
    (hcs_perms : (get_readonly_capreg env cs).cr_perms < 2 ^ 32)
    (hct_tag : (get_readonly_capreg env ct).cr_tag = true)
    (hct_unsealed : cap_is_unsealed (get_readonly_capreg env ct) = true)
    (hseal : cap_has_perms (get_readonly_capreg env ct) CAP_PERM_SEAL = true)
    (hunseal : cap_has_perms (get_readonly_capreg env ct) CAP_PERM_UNSEAL = true)
    (hinb : cap_cursor_in_bounds (get_readonly_capreg env ct) = true)
    (hrange : cap_get_cursor (get_readonly_capreg env ct) ≤ CAP_MAX_REPRESENTABLE_OTYPE)
    (hnr : cap_otype_is_reserved (cap_get_cursor (get_readonly_capreg env ct)) = false)
    (hrep : cc.is_representable_cap_when_sealed_with_addr (get_readonly_capreg env cs)
      (cap_get_cursor (get_readonly_capreg env cs)) = true)
    (hcd : cd ≠ ct) :
    ∃ env1 env2, helper_cseal cc env cd cs ct = .ok env1 ∧
      helper_cunseal env1 cd2 cd ct = .ok env2 ∧
      (let c := get_readonly_capreg env cs
       let sk := get_readonly_capreg env ct
       let r := get_readonly_capreg env2 cd2
       r.cr_tag = c.cr_tag ∧ r.cr_base = c.cr_base ∧ r._cr_top = c._cr_top ∧
       r._cr_cursor = c._cr_cursor ∧ r.cr_uperms = c.cr_uperms ∧ r.cr_otype = c.cr_otype ∧
       r.cr_flags = c.cr_flags ∧
       cap_has_perms r CAP_PERM_GLOBAL =
         (cap_has_perms c CAP_PERM_GLOBAL && cap_has_perms sk CAP_PERM_GLOBAL) ∧
       (∀ i, 2 ^ i ≠ CAP_PERM_GLOBAL → r.cr_perms.testBit i = c.cr_perms.testBit i) ∧
       ((cap_has_perms sk CAP_PERM_GLOBAL = true ∨ cap_has_perms c CAP_PERM_GLOBAL = false) →
         r = c)) := by
  obtain ⟨f1, _, _, f4⟩ := otype_cursor_facts _ hrange hnr
  have hct : ct ≠ cd := fun h => hcd h.symm
  have hseal_ok := cseal_common_ok cc env cd cs ct false hcs_tag hcs_unsealed hct_tag
    hct_unsealed hseal hinb hrange hnr hrep
  generalize hsealed : ({ get_readonly_capreg env cs with
    cr_otype := cap_get_cursor (get_readonly_capreg env ct) } : cap_register_t) = sealed
    at hseal_ok
  have hg1 : get_readonly_capreg (update_capreg env cd sealed) cd = sealed :=
    get_update_capreg_same _ _ _
  have hg2 : get_readonly_capreg (update_capreg env cd sealed) ct = get_readonly_capreg env ct :=
    get_update_capreg_other _ _ _ _ hct
  have hu : cap_is_unsealed sealed = false := by
    rw [← hsealed]
    simp only [cap_is_unsealed, cap_get_otype_unsigned, beq_eq_false_iff_ne]
    exact f4
  have hs : cap_is_sealed_with_type sealed = true := by
    rw [← hsealed]
    simp only [cap_is_sealed_with_type, cap_get_otype_unsigned, decide_eq_true_eq]
    exact f1
  have hunseal_ok := helper_cunseal_ok (update_capreg env cd sealed) cd2 cd ct
    (by rw [hg1, ← hsealed]; exact hcs_tag) (by rw [hg2]; exact hct_tag)
    (by rw [hg1]; exact hu) (by rw [hg2]; exact hct_unsealed) (by rw [hg1]; exact hs)
    (by rw [hg1, hg2, ← hsealed]; rfl) (by rw [hg2]; exact hunseal) (by rw [hg2]; exact hinb)
    (by rw [hg2]; exact hrange) (by rw [hg2]; exact hnr)
  rw [hg1, hg2] at hunseal_ok
  refine ⟨_, _, hseal_ok, hunseal_ok, ?_⟩
  intro c sk r
  have hotype : c.cr_otype = CAP_OTYPE_UNSEALED := by
    have := hcs_unsealed
    simpa [cap_is_unsealed, cap_get_otype_unsigned] using this
  have hr : r = { c with
      cr_perms := (if (cap_has_perms c CAP_PERM_GLOBAL && cap_has_perms sk CAP_PERM_GLOBAL) = true
          then c.cr_perms ||| CAP_PERM_GLOBAL
          else c.cr_perms &&& ((2 ^ 64 - 1) ^^^ CAP_PERM_GLOBAL)) % 2 ^ 32,
      cr_otype := CAP_OTYPE_UNSEALED } := by
    simp only [r, get_update_capreg_same, cunseal_result, cap_set_unsealed, update_perms,
      cap_get_perms, ← hsealed]
    rfl
  have hbits := unseal_perms_testBit c.cr_perms
    (cap_has_perms c CAP_PERM_GLOBAL && cap_has_perms sk CAP_PERM_GLOBAL) hcs_perms
  have hc0 : cap_has_perms c CAP_PERM_GLOBAL = c.cr_perms.testBit 0 :=
    cap_has_perms_two_pow c 0
  have hr0 : cap_has_perms r CAP_PERM_GLOBAL = r.cr_perms.testBit 0 :=
    cap_has_perms_two_pow r 0
  have hperm0 : cap_has_perms r CAP_PERM_GLOBAL =
      (cap_has_perms c CAP_PERM_GLOBAL && cap_has_perms sk CAP_PERM_GLOBAL) := by
    rw [hr0, hr]
    simp only []
    rw [hbits 0, ← hc0]
    cases cap_has_perms c CAP_PERM_GLOBAL <;> cases cap_has_perms sk CAP_PERM_GLOBAL <;> rfl
  have hrest : ∀ i, 2 ^ i ≠ CAP_PERM_GLOBAL → r.cr_perms.testBit i = c.cr_perms.testBit i := by
    intro i hi
    have hi0 : i ≠ 0 := by
      rintro rfl
      exact hi rfl
    rw [hr]
    simp only []
    rw [hbits i]
    simp [hi0]
  refine ⟨by rw [hr], by rw [hr], by rw [hr], by rw [hr], by rw [hr], ?_, by rw [hr],
    hperm0, hrest, ?_⟩
  · rw [hr, hotype]
  · intro hor
    have hp : r.cr_perms = c.cr_perms := by
      apply Nat.eq_of_testBit_eq
      intro i
      by_cases hi0 : i = 0
      · subst hi0
        rw [← hr0, hperm0, ← hc0]
        rcases hor with h | h <;> simp [h]
      · exact hrest i (by
          intro h
          have : (2 : Nat) ^ i = 2 ^ 0 := h
          exact hi0 (Nat.pow_right_injective (le_refl 2) this))
    rw [hr] at hp ⊢
    simp only [] at hp
    rw [hp, ← hotype]

/-- Sealing the scenario capability (which lacks GLOBAL) with the sealing key and
unsealing it again gives the scenario capability back. -/
theorem cunseal_after_cseal_witness :
    ∃ env1 env2, helper_cseal cc_model (seal_env scenario_cap) 3 1 2 = .ok env1 ∧
      helper_cunseal env1 4 3 2 = .ok env2 ∧ get_readonly_capreg env2 4 = scenario_cap := by
  obtain ⟨e1, e2, h1, h2, h3⟩ := cunseal_after_cseal cc_model (seal_env scenario_cap) 3 4 1 2
    rfl rfl (by decide) rfl rfl (by decide) (by decide) (by decide) (by decide) (by decide)
    (by decide) (by decide)
  exact ⟨e1, e2, h1, h2, h3.2.2.2.2.2.2.2.2.2 (Or.inr (by decide))⟩

/-- C8 as stated fails: `c` carries GLOBAL and the sealing key, which meets every listed
condition, does not; Seal then Unseal succeeds, but the capability returned has lost
GLOBAL and so differs from `c`. -/
theorem cunseal_after_cseal_counterexample :
    (scenario_cap_global.cr_tag = true ∧ cap_is_unsealed scenario_cap_global = true ∧
      sealing_key.cr_tag = true ∧ cap_is_unsealed sealing_key = true ∧
      cap_has_perms sealing_key CAP_PERM_SEAL = true ∧
      cap_has_perms sealing_key CAP_PERM_UNSEAL = true ∧
      cap_cursor_in_bounds sealing_key = true ∧
      cap_get_cursor sealing_key ≤ CAP_MAX_REPRESENTABLE_OTYPE ∧
      cap_otype_is_reserved (cap_get_cursor sealing_key) = false) ∧
    ∃ env1 env2, helper_cseal cc_model (seal_env scenario_cap_global) 3 1 2 = .ok env1 ∧
      helper_cunseal env1 4 3 2 = .ok env2 ∧
      get_readonly_capreg env2 4 = scenario_cap ∧
      get_readonly_capreg env2 4 ≠ scenario_cap_global :=
  ⟨by decide, update_capreg (seal_env scenario_cap_global) 3
      { scenario_cap_global with cr_otype := 5 },
    update_capreg (update_capreg (seal_env scenario_cap_global) 3
      { scenario_cap_global with cr_otype := 5 }) 4 scenario_cap, rfl, rfl, by decide, by decide⟩

/-- C11: for a tagged, unsealed `cs` and a tagged, unsealed `ct` without SEAL
permission, non-conditional Seal raises PermitSealViolation on `ct` (no register state
is returned), whatever the cursor and bounds of `ct` are. -/
theorem cseal_without_seal_perm (cc : CAP_cc) (env : CPUArchState) (cd cs ct : Nat)
    (hcs_tag : (get_readonly_capreg env cs).cr_tag = true)
    (hcs_unsealed : cap_is_unsealed (get_readonly_capreg env cs) = true)
    (hct_tag : (get_readonly_capreg env ct).cr_tag = true)
    (hct_unsealed : cap_is_unsealed (get_readonly_capreg env ct) = true)
    (hseal : cap_has_perms (get_readonly_capreg env ct) CAP_PERM_SEAL = false) :
    helper_cseal cc env cd cs ct = .error (Trap.cheri .CapEx_PermitSealViolation ct) := by
  simp [helper_cseal, cseal_common, hcs_tag, hcs_unsealed, hct_tag, hct_unsealed, hseal,
    throw, throwThe, MonadExceptOf.throw]

/-- Scenario C, with the cursor of `ct` far outside its bounds: the permission fault is
the one reported. -/
theorem cseal_without_seal_perm_witness :
    cap_cursor_in_bounds key_without_seal = false ∧
    helper_cseal cc_model (two_reg_env scenario_cap key_without_seal) 3 1 2 =
      .error (Trap.cheri .CapEx_PermitSealViolation 2) :=
  ⟨by decide, cseal_without_seal_perm cc_model (two_reg_env scenario_cap key_without_seal)
    3 1 2 rfl rfl rfl rfl (by decide)⟩

/-- C12 (amended): non-conditional Seal faults on each of the four ConditionalSeal
fallback conditions taken alone: an untagged `ct` gives TagViolation on `ct`, a sealed
`cs` gives SealViolation on `cs`, a cursor of `ct` outside its bounds gives
LengthViolation on `ct`, and a cursor of `ct` equal to the unsealed sentinel gives
LengthViolation on `ct` as well; so the first three causes are pairwise different and
the last two are the same. -/
theorem cseal_fallback_conditions_fault (cc : CAP_cc) (env : CPUArchState) (cd cs ct : Nat)
    (hcs_tag : (get_readonly_capreg env cs).cr_tag = true) :
    let csp := get_readonly_capreg env cs
    let ctp := get_readonly_capreg env ct
    let r := helper_cseal cc env cd cs ct
    (ctp.cr_tag = false → r = .error (Trap.cheri .CapEx_TagViolation ct)) ∧
    (ctp.cr_tag = true → cap_is_unsealed csp = false →
      r = .error (Trap.cheri .CapEx_SealViolation cs)) ∧
    (ctp.cr_tag = true → cap_is_unsealed csp = true → cap_is_unsealed ctp = true →
      cap_has_perms ctp CAP_PERM_SEAL = true → cap_cursor_in_bounds ctp = false →
      r = .error (Trap.cheri .CapEx_LengthViolation ct)) ∧
    (ctp.cr_tag = true → cap_is_unsealed csp = true → cap_is_unsealed ctp = true →
      cap_has_perms ctp CAP_PERM_SEAL = true → cap_cursor_in_bounds ctp = true →
      cap_get_cursor ctp = CAP_OTYPE_UNSEALED_SIGNED →
      r = .error (Trap.cheri .CapEx_LengthViolation ct)) ∧
    CheriCapExcCause.CapEx_TagViolation ≠ CheriCapExcCause.CapEx_SealViolation ∧
    CheriCapExcCause.CapEx_TagViolation ≠ CheriCapExcCause.CapEx_LengthViolation ∧
    CheriCapExcCause.CapEx_SealViolation ≠ CheriCapExcCause.CapEx_LengthViolation := by
  intro csp ctp r
  have hc : get_readonly_capreg env cs = csp := rfl
  have ht : get_readonly_capreg env ct = ctp := rfl
  have hr : r = helper_cseal cc env cd cs ct := rfl
  simp only [helper_cseal, cseal_common, hc, ht, throw, throwThe, MonadExceptOf.throw] at hr
  have hcs : csp.cr_tag = true := hcs_tag
  refine ⟨fun h1 => ?_, fun h1 h2 => ?_, fun h1 h2 h3 h4 h5 => ?_,
    fun h1 h2 h3 h4 h5 h6 => ?_, by decide, by decide, by decide⟩
  · rw [hr]; simp [hcs, h1]
  · rw [hr]; simp [hcs, h1, h2]
  · rw [hr]; simp [hcs, h1, h2, h3, h4, h5]
  · rw [hr]
    have h7 : cap_get_cursor ctp > CAP_MAX_REPRESENTABLE_OTYPE := by
      rw [h6]; decide
    simp [hcs, h1, h2, h3, h4, h5, h7]

/-- The two fallback conditions on the cursor of `ct`, each alone, on concrete keys. -/
theorem cseal_fallback_conditions_fault_witness :
    helper_cseal cc_model (two_reg_env scenario_cap key_cursor_out_of_bounds) 3 1 2 =
      .error (Trap.cheri .CapEx_LengthViolation 2) ∧
    helper_cseal cc_model (two_reg_env scenario_cap key_cursor_sentinel) 3 1 2 =
      .error (Trap.cheri .CapEx_LengthViolation 2) :=
  ⟨(cseal_fallback_conditions_fault cc_model
      (two_reg_env scenario_cap key_cursor_out_of_bounds) 3 1 2 rfl).2.2.1
      rfl rfl rfl (by decide) (by decide),
   (cseal_fallback_conditions_fault cc_model
      (two_reg_env scenario_cap key_cursor_sentinel) 3 1 2 rfl).2.2.2.1
      rfl rfl rfl (by decide) (by decide) rfl⟩

/-- C12 as stated fails: with every other Seal precondition satisfied, a key whose
cursor is outside its bounds (and is not the sentinel) and a key whose cursor is the
unsealed sentinel (and is within its bounds) make non-conditional Seal raise the same
cause, LengthViolation, so the four causes are not pairwise different. -/
theorem cseal_fallback_conditions_fault_counterexample :
    (cap_cursor_in_bounds key_cursor_out_of_bounds = false ∧
      cap_get_cursor key_cursor_out_of_bounds ≠ CAP_OTYPE_UNSEALED_SIGNED ∧
      cap_otype_is_reserved (cap_get_cursor key_cursor_out_of_bounds) = false ∧
      cap_has_perms key_cursor_out_of_bounds CAP_PERM_SEAL = true) ∧
    (cap_cursor_in_bounds key_cursor_sentinel = true ∧
      cap_get_cursor key_cursor_sentinel = CAP_OTYPE_UNSEALED_SIGNED ∧
      cap_has_perms key_cursor_sentinel CAP_PERM_SEAL = true) ∧
    ∃ cause, helper_cseal cc_model (two_reg_env scenario_cap key_cursor_out_of_bounds) 3 1 2 =
        .error (Trap.cheri cause 2) ∧
      helper_cseal cc_model (two_reg_env scenario_cap key_cursor_sentinel) 3 1 2 =
        .error (Trap.cheri cause 2) :=
  ⟨by decide, by decide, CheriCapExcCause.CapEx_LengthViolation, rfl, rfl⟩

/-- A capability sealed with a type is not unsealed, and its object type is in range
and not reserved. -/
theorem sealed_with_type_facts (c : cap_register_t) (h : cap_is_sealed_with_type c = true) :
    cap_is_unsealed c = false ∧ cap_get_otype_unsigned c ≤ CAP_MAX_REPRESENTABLE_OTYPE ∧
      cap_otype_is_reserved (cap_get_otype_unsigned c) = false := by
  simp only [cap_is_sealed_with_type, cap_is_unsealed, cap_otype_is_reserved,
    CAP_LAST_NONRESERVED_OTYPE, CAP_MAX_REPRESENTABLE_OTYPE, CAP_OTYPE_UNSEALED,
    decide_eq_true_eq, decide_eq_false_iff_not, beq_eq_false_iff_ne] at *
  omega

/-- Unseal returns a register state only through its final branch: every check passed
and the state is the old one with `cunseal_result` written to `cd`. -/
theorem helper_cunseal_ok_inv (env : CPUArchState) (cd cs ct : Nat) (env2 : CPUArchState)
    (h : helper_cunseal env cd cs ct = .ok env2) :
    let csp := get_readonly_capreg env cs
    let ctp := get_readonly_capreg env ct
    (csp.cr_tag = true ∧ cap_is_sealed_with_type csp = true ∧ ctp.cr_tag = true ∧
      cap_is_unsealed ctp = true ∧ cap_has_perms ctp CAP_PERM_UNSEAL = true ∧
      cap_cursor_in_bounds ctp = true ∧ cap_get_cursor ctp = cap_get_otype_unsigned csp) ∧
    env2 = update_capreg env cd (cunseal_result csp ctp) := by
  intro csp ctp
  have hc : get_readonly_capreg env cs = csp := rfl
  have ht : get_readonly_capreg env ct = ctp := rfl
  simp only [helper_cunseal, hc, ht, throw, throwThe, MonadExceptOf.throw, pure,
    Except.pure] at h
  by_cases h1 : csp.cr_tag = true
  swap
  · simp [h1] at h
  by_cases h2 : ctp.cr_tag = true
  swap
  · simp [h1, h2] at h
  by_cases h3 : cap_is_unsealed csp = true
  · simp [h1, h2, h3] at h
  by_cases h4 : cap_is_unsealed ctp = true
  swap
  · simp [h1, h2, h3, h4] at h
  by_cases h5 : cap_is_sealed_with_type csp = true
  swap
  · simp [h1, h2, h3, h4, h5] at h
  by_cases h6 : cap_get_cursor ctp = cap_get_otype_unsigned csp
  swap
  · simp [h1, h2, h3, h4, h5, h6] at h
  by_cases h7 : cap_has_perms ctp CAP_PERM_UNSEAL = true
  swap
  · simp [h1, h2, h3, h4, h5, h6, h7] at h
  by_cases h8 : cap_cursor_in_bounds ctp = true
  swap
  · simp [h1, h2, h3, h4, h5, h6, h7, h8] at h
  obtain ⟨_, f2, f3⟩ := sealed_with_type_facts csp h5
  have f4 : ¬ (cap_get_otype_unsigned csp > CAP_MAX_REPRESENTABLE_OTYPE) := by omega
  simp only [h1, h2, h3, h4, h5, h6, h7, h8, f3, f4, Bool.not_true, Bool.false_eq_true,
    if_false, bne_self_eq_false, decide_False, Bool.or_self] at h
  injection h with h
  refine ⟨⟨h1, h5, h2, h4, h7, h8, h6⟩, ?_⟩
  rw [← h]
  rfl

/-- Bits below 32 of the permission word that Unseal writes, with no assumption on the
width of the source word. -/
theorem unseal_perms_testBit_low (p : Nat) (both : Bool) (i : Nat) (hi : i < 32) :
    (((if both = true then p ||| CAP_PERM_GLOBAL
        else p &&& ((2 ^ 64 - 1) ^^^ CAP_PERM_GLOBAL)) % 2 ^ 32).testBit i) =
      if i = 0 then both else p.testBit i := by
  have h64 : i < 64 := by omega
  unfold CAP_PERM_GLOBAL
  cases both
  · simp only [Bool.false_eq_true, if_false, Nat.testBit_mod_two_pow, Nat.testBit_and,
      Nat.testBit_xor, Nat.testBit_two_pow_sub_one, Nat.testBit_two_pow]
    by_cases h0 : i = 0
    · subst h0; simp
    · have h0' : ¬ (0 = i) := fun h => h0 h.symm
      simp [h0, h0', hi, h64]
  · simp only [if_true, Nat.testBit_mod_two_pow, Nat.testBit_or, Nat.testBit_two_pow]
    by_cases h0 : i = 0
    · subst h0; simp
    · have h0' : ¬ (0 = i) := fun h => h0 h.symm
      simp [h0, h0', hi]

/-- C13: whenever Unseal succeeds, the capability written to `cd` is `cs` with object
type Unsealed, with GLOBAL set if and only if both `cs` and `ct` carry it, and with
every other bit of the 32-bit permission word, the user permissions, the bounds, the
cursor, the flags and the tag equal to those of `cs`. -/
theorem cunseal_result_fields (env : CPUArchState) (cd cs ct : Nat) (env2 : CPUArchState)
    (h : helper_cunseal env cd cs ct = .ok env2) :
    let csp := get_readonly_capreg env cs
    let ctp := get_readonly_capreg env ct
    let r := get_readonly_capreg env2 cd
    cap_is_unsealed r = true ∧
    cap_has_perms r CAP_PERM_GLOBAL =
      (cap_has_perms csp CAP_PERM_GLOBAL && cap_has_perms ctp CAP_PERM_GLOBAL) ∧
    (∀ i, i < 32 → 2 ^ i ≠ CAP_PERM_GLOBAL → r.cr_perms.testBit i = csp.cr_perms.testBit i) ∧
    r.cr_uperms = csp.cr_uperms ∧ r.cr_base = csp.cr_base ∧ r._cr_top = csp._cr_top ∧
    r._cr_cursor = csp._cr_cursor ∧ r.cr_flags = csp.cr_flags ∧ r.cr_tag = csp.cr_tag := by
  intro csp ctp r
  obtain ⟨_, h2⟩ := helper_cunseal_ok_inv env cd cs ct env2 h
  have hr : r = cunseal_result csp ctp := by
    simp only [r, h2, get_update_capreg_same]
  have hr0 : cap_has_perms r CAP_PERM_GLOBAL = r.cr_perms.testBit 0 :=
    cap_has_perms_two_pow r 0
  have hperms : r.cr_perms =
      (if (cap_has_perms csp CAP_PERM_GLOBAL && cap_has_perms ctp CAP_PERM_GLOBAL) = true
        then csp.cr_perms ||| CAP_PERM_GLOBAL
        else csp.cr_perms &&& ((2 ^ 64 - 1) ^^^ CAP_PERM_GLOBAL)) % 2 ^ 32 := by
    rw [hr]; rfl
  refine ⟨by rw [hr]; rfl, ?_, ?_, by rw [hr]; rfl, by rw [hr]; rfl, by rw [hr]; rfl,
    by rw [hr]; rfl, by rw [hr]; rfl, by rw [hr]; rfl⟩
  · rw [hr0, hperms, unseal_perms_testBit_low _ _ 0 (by decide)]
    rfl
  · intro i hi hne
    have hi0 : i ≠ 0 := by
      rintro rfl
      exact hne rfl
    rw [hperms, unseal_perms_testBit_low _ _ i hi]
    simp [hi0]

/-- Unsealing a sealed capability that carries GLOBAL with a key that does not: the
result is unsealed and has lost GLOBAL. -/
theorem cunseal_result_fields_witness :
    cap_has_perms sealed_cap_global CAP_PERM_GLOBAL = true ∧
    cap_has_perms sealing_key CAP_PERM_GLOBAL = false ∧
    cap_is_unsealed (get_readonly_capreg
      (update_capreg (two_reg_env sealed_cap_global sealing_key) 3 scenario_cap) 3) = true ∧
    cap_has_perms (get_readonly_capreg
      (update_capreg (two_reg_env sealed_cap_global sealing_key) 3 scenario_cap) 3)
      CAP_PERM_GLOBAL = (true && false) :=
  ⟨by decide, by decide,
    (cunseal_result_fields (two_reg_env sealed_cap_global sealing_key) 3 1 2
      (update_capreg (two_reg_env sealed_cap_global sealing_key) 3 scenario_cap) rfl).1,
    (cunseal_result_fields (two_reg_env sealed_cap_global sealing_key) 3 1 2
      (update_capreg (two_reg_env sealed_cap_global sealing_key) 3 scenario_cap) rfl).2.1⟩

/-- C14: Unseal writes `cd` and raises no fault if and only if `cs` is tagged and sealed
with a type and `ct` is tagged, unsealed, carries UNSEAL, has its cursor within its own
bounds and that cursor equals the object type of `cs`; in every other case it raises a
capability fault and returns no register state; an object-type mismatch is reported as
TypeViolation on `ct` whatever the UNSEAL permission and the bounds of `ct` are; and the
test of the final range/reserved-otype branch is false whenever it is reached. -/
theorem cunseal_succeeds_iff (env : CPUArchState) (cd cs ct : Nat) :
    let csp := get_readonly_capreg env cs
    let ctp := get_readonly_capreg env ct
    let r := helper_cunseal env cd cs ct
    let conds := csp.cr_tag = true ∧ cap_is_sealed_with_type csp = true ∧ ctp.cr_tag = true ∧
      cap_is_unsealed ctp = true ∧ cap_has_perms ctp CAP_PERM_UNSEAL = true ∧
      cap_cursor_in_bounds ctp = true ∧ cap_get_cursor ctp = cap_get_otype_unsigned csp
    ((∃ env2, r = .ok env2) ↔ conds) ∧
    (conds → r = .ok (update_capreg env cd (cunseal_result csp ctp))) ∧
    (¬ conds → ∃ cause reg, r = .error (Trap.cheri cause reg)) ∧
    (csp.cr_tag = true → ctp.cr_tag = true → cap_is_sealed_with_type csp = true →
      cap_is_unsealed ctp = true → cap_get_cursor ctp ≠ cap_get_otype_unsigned csp →
      r = .error (Trap.cheri .CapEx_TypeViolation ct)) ∧
    (cap_is_sealed_with_type csp = true → cap_get_cursor ctp = cap_get_otype_unsigned csp →
      (decide (cap_get_cursor ctp > CAP_MAX_REPRESENTABLE_OTYPE) ||
        cap_otype_is_reserved (cap_get_cursor ctp)) = false) := by
  intro csp ctp r conds
  have hok : conds → r = .ok (update_capreg env cd (cunseal_result csp ctp)) := by
    rintro ⟨h1, h2, h3, h4, h5, h6, h7⟩
    obtain ⟨f1, f2, f3⟩ := sealed_with_type_facts csp h2
    exact helper_cunseal_ok env cd cs ct h1 h3 f1 h4 h2 h7 h5 h6 (by rw [h7]; exact f2)
      (by rw [h7]; exact f3)
  refine ⟨⟨?_, fun h => ⟨_, hok h⟩⟩, hok, ?_, ?_, ?_⟩
  · rintro ⟨env2, h⟩
    exact (helper_cunseal_ok_inv env cd cs ct env2 h).1
  · intro hn
    have hc : get_readonly_capreg env cs = csp := rfl
    have ht : get_readonly_capreg env ct = ctp := rfl
    have hr : r = helper_cunseal env cd cs ct := rfl
    simp only [helper_cunseal, hc, ht, throw, throwThe, MonadExceptOf.throw, pure,
      Except.pure] at hr
    by_cases h1 : csp.cr_tag = true
    swap
    · exact ⟨.CapEx_TagViolation, cs, by rw [hr]; simp [h1]⟩
    by_cases h2 : ctp.cr_tag = true
    swap
    · exact ⟨.CapEx_TagViolation, ct, by rw [hr]; simp [h1, h2]⟩
    by_cases h3 : cap_is_unsealed csp = true
    · exact ⟨.CapEx_SealViolation, cs, by rw [hr]; simp [h1, h2, h3]⟩
    by_cases h4 : cap_is_unsealed ctp = true
    swap
    · exact ⟨.CapEx_SealViolation, ct, by rw [hr]; simp [h1, h2, h3, h4]⟩
    by_cases h5 : cap_is_sealed_with_type csp = true
    swap
    · exact ⟨.CapEx_TypeViolation, cs, by rw [hr]; simp [h1, h2, h3, h4, h5]⟩
    by_cases h6 : cap_get_cursor ctp = cap_get_otype_unsigned csp
    swap
    · exact ⟨.CapEx_TypeViolation, ct, by rw [hr]; simp [h1, h2, h3, h4, h5, h6]⟩
    by_cases h7 : cap_has_perms ctp CAP_PERM_UNSEAL = true
    swap
    · exact ⟨.CapEx_PermitUnsealViolation, ct, by rw [hr]; simp [h1, h2, h3, h4, h5, h6, h7]⟩
    by_cases h8 : cap_cursor_in_bounds ctp = true
    swap
    · exact ⟨.CapEx_LengthViolation, ct, by
        rw [hr]; simp [h1, h2, h3, h4, h5, h6, h7, h8]⟩
    exact absurd ⟨h1, h5, h2, h4, h7, h8, h6⟩ hn
  · intro h1 h2 h5 h4 h6
    have hc : get_readonly_capreg env cs = csp := rfl
    have ht : get_readonly_capreg env ct = ctp := rfl
    have hr : r = helper_cunseal env cd cs ct := rfl
    simp only [helper_cunseal, hc, ht, throw, throwThe, MonadExceptOf.throw, pure,
      Except.pure] at hr
    obtain ⟨f1, _, _⟩ := sealed_with_type_facts csp h5
    rw [hr]
    simp [h1, h2, f1, h4, h5, h6]
  · intro h5 h6
    obtain ⟨_, f2, f3⟩ := sealed_with_type_facts csp h5
    rw [h6, f3]
    simp only [Bool.or_false, decide_eq_false_iff_not]
    omega

/-- Unsealing with a key whose cursor (5) is not the object type (7) of the sealed
capability, and which in addition lacks UNSEAL: TypeViolation on the key register. -/
theorem cunseal_succeeds_iff_witness :
    cap_has_perms { sealing_key with cr_perms := CAP_PERM_SEAL } CAP_PERM_UNSEAL = false ∧
    helper_cunseal
      (two_reg_env { sealed_cap_global with cr_otype := 7 }
        { sealing_key with cr_perms := CAP_PERM_SEAL }) 3 1 2 =
      .error (Trap.cheri .CapEx_TypeViolation 2) :=
  ⟨by decide,
   (cunseal_succeeds_iff
      (two_reg_env { sealed_cap_global with cr_otype := 7 }
        { sealing_key with cr_perms := CAP_PERM_SEAL }) 3 1 2).2.2.2.1
      rfl rfl (by decide) (by decide) (by decide)⟩

/-! ## BuildCapability -/

/-- C15: BuildCapability succeeds exactly when the authority is tagged and unsealed, the
bounds of the template lie within those of the authority, base(template) is at most
top(template), the permissions and user permissions of the template are subsets of those
of the authority and the template has no reserved bits set; it then writes the template
with the tag set and object type Unsealed, or SealedEntry when the template is a sentry
with EXECUTE, every other field being the template's; in every other case a capability
fault is raised. A template sealed with a type yields an unsealed result, and the bounds
and permissions of the result do not exceed the authority's. -/
theorem cbuildcap_succeeds_iff (cap_has_reserved_bits_set : cap_register_t → Bool)
    (env : CPUArchState) (cd cb ct : Nat) :
    let cbp := get_capreg_0_is_ddc env cb
    let ctp := get_readonly_capreg env ct
    let r := helper_cbuildcap cap_has_reserved_bits_set env cd cb ct
    let result : cap_register_t :=
      { ctp with
        cr_tag := true
        cr_otype :=
          if cap_is_sealed_entry ctp && cap_has_perms ctp CAP_PERM_EXECUTE then
            CAP_OTYPE_SENTRY
          else CAP_OTYPE_UNSEALED }
    let conds := cbp.cr_tag = true ∧ cap_is_unsealed cbp = true ∧
      cap_get_base cbp ≤ cap_get_base ctp ∧ cap_get_top_full ctp ≤ cap_get_top_full cbp ∧
      cap_get_base ctp ≤ cap_get_top_full ctp ∧
      cap_get_perms ctp &&& cap_get_perms cbp = cap_get_perms ctp ∧
      cap_get_uperms ctp &&& cap_get_uperms cbp = cap_get_uperms ctp ∧
      cap_has_reserved_bits_set ctp = false
    ((∃ env2, r = .ok env2) ↔ conds) ∧
    (conds → r = .ok (update_capreg env cd result)) ∧
    (¬ conds → ∃ cause reg, r = .error (Trap.cheri cause reg)) ∧
    (cap_is_sealed_with_type ctp = true → cap_is_unsealed result = true) ∧
    (conds → cap_get_base cbp ≤ cap_get_base result ∧
      cap_get_top_full result ≤ cap_get_top_full cbp ∧
      cap_get_perms result &&& cap_get_perms cbp = cap_get_perms result ∧
      cap_get_uperms result &&& cap_get_uperms cbp = cap_get_uperms result) := by
  intro cbp ctp r result conds
  have hc : get_capreg_0_is_ddc env cb = cbp := rfl
  have ht : get_readonly_capreg env ct = ctp := rfl
  have hr : r = helper_cbuildcap cap_has_reserved_bits_set env cd cb ct := rfl
  simp only [helper_cbuildcap, hc, ht, throw, throwThe, MonadExceptOf.throw, pure,
    Except.pure, is_cap_sealed] at hr
  have hres : (if (cap_is_sealed_entry ctp && cap_has_perms ctp CAP_PERM_EXECUTE) = true then
      cap_make_sealed_entry { update_otype ctp CAP_OTYPE_UNSEALED with cr_tag := true }
      else { update_otype ctp CAP_OTYPE_UNSEALED with cr_tag := true }) = result := by
    simp only [result, cap_make_sealed_entry, update_otype]
    split_ifs <;> rfl
  rw [hres] at hr
  have hok : conds → r = .ok (update_capreg env cd result) := by
    rintro ⟨h1, h2, h3, h4, h5, h6, h7, h8⟩
    rw [hr]
    simp [h1, h2, h6, h7, h8, Nat.not_lt.mpr h3, Nat.not_lt.mpr h4, Nat.not_lt.mpr h5]
  have hfail : ¬ conds → ∃ cause reg, r = .error (Trap.cheri cause reg) := by
    intro hn
    by_cases h1 : cbp.cr_tag = true
    swap
    · exact ⟨.CapEx_TagViolation, (if cb = 0 then CHERI_EXC_REGNUM_DDC else cb), by
        rw [hr]; simp [h1]⟩
    by_cases h2 : cap_is_unsealed cbp = true
    swap
    · exact ⟨.CapEx_SealViolation, (if cb = 0 then CHERI_EXC_REGNUM_DDC else cb), by
        rw [hr]; simp [h1, h2]⟩
    by_cases h3 : cap_get_base ctp < cap_get_base cbp
    · exact ⟨.CapEx_LengthViolation, (if cb = 0 then CHERI_EXC_REGNUM_DDC else cb), by
        rw [hr]; simp [h1, h2, h3]⟩
    by_cases h4 : cap_get_top_full ctp > cap_get_top_full cbp
    · exact ⟨.CapEx_LengthViolation, (if cb = 0 then CHERI_EXC_REGNUM_DDC else cb), by
        rw [hr]; simp [h1, h2, h3, h4]⟩
    by_cases h5 : cap_get_base ctp > cap_get_top_full ctp
    · exact ⟨.CapEx_LengthViolation, ct, by rw [hr]; simp [h1, h2, h3, h4, h5]⟩
    by_cases h6 : cap_get_perms ctp &&& cap_get_perms cbp = cap_get_perms ctp
    swap
    · exact ⟨.CapEx_UserDefViolation, (if cb = 0 then CHERI_EXC_REGNUM_DDC else cb), by
        rw [hr]; simp [h1, h2, h3, h4, h5, h6]⟩
    by_cases h7 : cap_get_uperms ctp &&& cap_get_uperms cbp = cap_get_uperms ctp
    swap
    · exact ⟨.CapEx_UserDefViolation, (if cb = 0 then CHERI_EXC_REGNUM_DDC else cb), by
        rw [hr]; simp [h1, h2, h3, h4, h5, h6, h7]⟩
    by_cases h8 : cap_has_reserved_bits_set ctp = true
    · exact ⟨.CapEx_LengthViolation, ct, by
        rw [hr]; simp [h1, h2, h3, h4, h5, h6, h7, h8]⟩
    exact absurd ⟨h1, h2, Nat.not_lt.mp h3, Nat.not_lt.mp h4, Nat.not_lt.mp h5, h6, h7,
      by simpa using h8⟩ hn
  refine ⟨⟨?_, fun h => ⟨_, hok h⟩⟩, hok, hfail, ?_, ?_⟩
  · rintro ⟨env2, h⟩
    by_contra hn
    obtain ⟨cause, reg, he⟩ := hfail hn
    rw [he] at h
    cases h
  · intro hs
    have hs2 : cap_is_sealed_entry ctp = false := by
      simp only [cap_is_sealed_with_type, cap_is_sealed_entry, CAP_LAST_NONRESERVED_OTYPE,
        CAP_OTYPE_SENTRY, CAP_MAX_REPRESENTABLE_OTYPE, decide_eq_true_eq,
        beq_eq_false_iff_ne] at *
      omega
    simp [result, hs2, cap_is_unsealed, cap_get_otype_unsigned]
  · rintro ⟨_, _, h3, h4, _, h6, h7, _⟩
    exact ⟨h3, h4, h6, h7⟩

/-- A template sealed with type 5 (untagged, within the authority in register 1) is built
into a tagged, unsealed capability; with an untagged authority TagViolation is raised. -/
theorem cbuildcap_succeeds_iff_witness :
    helper_cbuildcap (fun _ => false)
        (two_reg_env authority_cap { scenario_cap with cr_tag := false, cr_otype := 5 }) 3 1 2 =
      .ok (update_capreg
        (two_reg_env authority_cap { scenario_cap with cr_tag := false, cr_otype := 5 }) 3
        scenario_cap) ∧
    ∃ cause reg, helper_cbuildcap (fun _ => false)
        (two_reg_env null_capability scenario_cap) 3 1 2 = .error (Trap.cheri cause reg) :=
  ⟨(cbuildcap_succeeds_iff (fun _ => false)
      (two_reg_env authority_cap { scenario_cap with cr_tag := false, cr_otype := 5 })
      3 1 2).2.1 (by decide),
   (cbuildcap_succeeds_iff (fun _ => false)
      (two_reg_env null_capability scenario_cap) 3 1 2).2.2.1 (by decide)⟩

/-! ## Invoke -/

/-- C16: Invoke succeeds exactly when both capabilities are tagged and sealed with a
type, with equal object types, `code` carries CINVOKE and EXECUTE, `data` carries
CINVOKE and not EXECUTE, and the jump-target validation accepts the cursor of `code`; it
then makes `code`, unsealed, the next program-counter capability and installs `data`,
unsealed, in the designated data register, all other fields unchanged; on every failure
a fault is raised and no state is returned; a `data` carrying EXECUTE, when all earlier
checks pass, is rejected with PermitExecuteViolation on the data register. -/
theorem cinvoke_succeeds_iff
    (validate_jump_target : CPUArchState → cap_register_t → Nat → Nat → Except Trap Bool)
    (env : CPUArchState) (code_regnum data_regnum : Nat) :
    let code := get_readonly_capreg env code_regnum
    let data := get_readonly_capreg env data_regnum
    let r := helper_cinvoke validate_jump_target env code_regnum data_regnum
    let checks := code.cr_tag = true ∧ data.cr_tag = true ∧
      cap_is_sealed_with_type code = true ∧ cap_is_sealed_with_type data = true ∧
      cap_get_otype_unsigned code = cap_get_otype_unsigned data ∧
      cap_has_perms code CAP_PERM_CINVOKE = true ∧ cap_has_perms data CAP_PERM_CINVOKE = true ∧
      cap_has_perms code CAP_PERM_EXECUTE = true
    let conds := checks ∧ cap_has_perms data CAP_PERM_EXECUTE = false ∧
      validate_jump_target env code (cap_get_cursor code) code_regnum = .ok true
    let env_ok := update_capreg
      (update_next_pcc_for_tcg env { code with cr_otype := CAP_OTYPE_UNSEALED } 0)
      CINVOKE_DATA_REGNUM { data with cr_otype := CAP_OTYPE_UNSEALED }
    ((∃ env2, r = .ok env2) ↔ conds) ∧
    (conds → r = .ok env_ok) ∧
    (env_ok.next_pcc = { code with cr_otype := CAP_OTYPE_UNSEALED } ∧
      get_readonly_capreg env_ok CINVOKE_DATA_REGNUM =
        { data with cr_otype := CAP_OTYPE_UNSEALED }) ∧
    (¬ conds → ∃ t, r = .error t) ∧
    (checks → cap_has_perms data CAP_PERM_EXECUTE = true →
      r = .error (Trap.cheri .CapEx_PermitExecuteViolation data_regnum)) := by
  intro code data r checks conds env_ok
  have hc : get_readonly_capreg env code_regnum = code := rfl
  have hd : get_readonly_capreg env data_regnum = data := rfl
  have hr : r = helper_cinvoke validate_jump_target env code_regnum data_regnum := rfl
  simp only [helper_cinvoke, hc, hd, throw, throwThe, MonadExceptOf.throw, pure,
    Except.pure, cap_set_unsealed] at hr
  have hchecks : checks → r =
      if cap_has_perms data CAP_PERM_EXECUTE = true then
        .error (Trap.cheri .CapEx_PermitExecuteViolation data_regnum)
      else
        match validate_jump_target env code (cap_get_cursor code) code_regnum with
        | .error t => .error t
        | .ok false => .error (Trap.cheri .CapEx_LengthViolation code_regnum)
        | .ok true => .ok env_ok := by
    rintro ⟨h1, h2, h3, h4, h5, h6, h7, h8⟩
    rw [hr]
    simp only [env_ok, h1, h2, h3, h4, h5, h6, h7, h8, Bool.not_true, Bool.false_eq_true,
      if_false, bne_self_eq_false, Bool.or_self]
  have hok : conds → r = .ok env_ok := by
    rintro ⟨hch, he, hv⟩
    rw [hchecks hch, hv]
    simp [he]
  have hfail : ¬ conds → ∃ t, r = .error t := by
    intro hn
    by_cases h1 : code.cr_tag = true
    swap
    · exact ⟨_, by rw [hr]; simp [h1]; rfl⟩
    by_cases h2 : data.cr_tag = true
    swap
    · exact ⟨_, by rw [hr]; simp [h1, h2]; rfl⟩
    by_cases h3 : cap_is_sealed_with_type code = true
    swap
    · exact ⟨_, by rw [hr]; simp [h1, h2, h3]; rfl⟩
    by_cases h4 : cap_is_sealed_with_type data = true
    swap
    · exact ⟨_, by rw [hr]; simp [h1, h2, h3, h4]; rfl⟩
    by_cases h5 : cap_get_otype_unsigned code = cap_get_otype_unsigned data
    swap
    · exact ⟨_, by rw [hr]; simp [h1, h2, h3, h4, h5]; rfl⟩
    by_cases h6 : cap_has_perms code CAP_PERM_CINVOKE = true
    swap
    · exact ⟨_, by rw [hr]; simp [h1, h2, h3, h4, h5, h6]; rfl⟩
    by_cases h7 : cap_has_perms data CAP_PERM_CINVOKE = true
    swap
    · exact ⟨_, by rw [hr]; simp [h1, h2, h3, h4, h5, h6, h7]; rfl⟩
    by_cases h8 : cap_has_perms code CAP_PERM_EXECUTE = true
    swap
    · exact ⟨_, by rw [hr]; simp [h1, h2, h3, h4, h5, h6, h7, h8]; rfl⟩
    have hch : checks := ⟨h1, h2, h3, h4, h5, h6, h7, h8⟩
    rw [hchecks hch]
    by_cases h9 : cap_has_perms data CAP_PERM_EXECUTE = true
    · exact ⟨_, by simp [h9]; rfl⟩
    have h9' : cap_has_perms data CAP_PERM_EXECUTE = false := by simpa using h9
    simp only [h9', Bool.false_eq_true, if_false]
    cases hv : validate_jump_target env code (cap_get_cursor code) code_regnum with
    | error t => exact ⟨t, rfl⟩
    | ok b =>
      cases b with
      | false => exact ⟨_, rfl⟩
      | true => exact absurd ⟨hch, h9', hv⟩ hn
  refine ⟨⟨?_, fun h => ⟨_, hok h⟩⟩, hok, ⟨rfl, ?_⟩, hfail, ?_⟩
  · rintro ⟨env2, h⟩
    by_contra hn
    obtain ⟨t, he⟩ := hfail hn
    rw [he] at h
    cases h
  · exact get_update_capreg_same _ _ _
  · intro hch he
    rw [hchecks hch]
    simp [he]

/-- Invoke on a matching code/data pair installs the unsealed code capability as next
program-counter capability and the unsealed data capability in register 31; a data
capability that also carries EXECUTE is rejected. -/
theorem cinvoke_succeeds_iff_witness :
    (∃ env2, helper_cinvoke validate_in_bounds (two_reg_env invoke_code_cap invoke_data_cap)
        1 2 = .ok env2 ∧
      env2.next_pcc = { invoke_code_cap with cr_otype := CAP_OTYPE_UNSEALED } ∧
      get_readonly_capreg env2 CINVOKE_DATA_REGNUM =
        { invoke_data_cap with cr_otype := CAP_OTYPE_UNSEALED }) ∧
    helper_cinvoke validate_in_bounds (two_reg_env invoke_code_cap invoke_code_cap) 1 2 =
      .error (Trap.cheri .CapEx_PermitExecuteViolation 2) :=
  ⟨⟨_, (cinvoke_succeeds_iff validate_in_bounds
        (two_reg_env invoke_code_cap invoke_data_cap) 1 2).2.1 (by decide),
      (cinvoke_succeeds_iff validate_in_bounds
        (two_reg_env invoke_code_cap invoke_data_cap) 1 2).2.2.1.1,
      (cinvoke_succeeds_iff validate_in_bounds
        (two_reg_env invoke_code_cap invoke_data_cap) 1 2).2.2.1.2⟩,
   (cinvoke_succeeds_iff validate_in_bounds
      (two_reg_env invoke_code_cap invoke_code_cap) 1 2).2.2.2.2 (by decide) (by decide)⟩

/-! ## JumpAndLink -/

/-- The steps of `cheri_jump_and_link` as one decision list. -/
theorem cheri_jump_and_link_eq (cc : CAP_cc) (env : CPUArchState) (target : cap_register_t)
    (addr link_reg link_pc cjalr_flags : Nat) :
    cheri_jump_and_link cc env target addr link_reg link_pc cjalr_flags =
      (if (cap_is_unsealed target || cap_is_sealed_entry target) = false then
        .error Trap.abort
      else if target.cr_tag = true ∧ cap_is_sealed_entry target = true then
        if cap_get_cursor target = addr then
          jump_link_step cc env (cap_unseal_entry target) link_reg link_pc cjalr_flags
        else .error Trap.abort
      else if cjalr_flags &&& CJALR_MUST_BE_SENTRY ≠ 0 then
        jump_link_step cc env { target with cr_tag := false } link_reg link_pc cjalr_flags
      else if cc.is_representable_cap_with_addr target addr = true then
        jump_link_step cc env { target with _cr_cursor := addr } link_reg link_pc cjalr_flags
      else .error Trap.abort) := by
  simp only [cheri_jump_and_link, jump_link_step, bind, Except.bind, throw, throwThe,
    MonadExceptOf.throw, pure, Except.pure]
  generalize cc.is_representable_cap_with_addr target addr = rp
  generalize cc.is_representable_cap_with_addr
    { cheri_get_recent_pcc env with _cr_cursor := link_pc } link_pc = rl
  by_cases h1 : (cap_is_unsealed target || cap_is_sealed_entry target) = true <;>
    by_cases h2 : target.cr_tag = true <;>
    by_cases h3 : cap_is_sealed_entry target = true <;>
    by_cases h4 : cap_get_cursor target = addr <;>
    by_cases h5 : cjalr_flags &&& CJALR_MUST_BE_SENTRY = 0 <;>
    by_cases h6 : link_reg = NULL_CAPREG_INDEX <;>
    by_cases h7 : cjalr_flags &&& CJALR_DONT_MAKE_SENTRY = 0 <;>
    cases rp <;> cases rl <;>
    simp [h1, h2, h3, h4, h5, h6, h7, cap_unseal_entry, cap_get_cursor, cap_make_sealed_entry]

/-- The link step never fails when no link is requested or the link address is
representable for the program-counter capability, and it sets the next
program-counter capability to `np`. -/
theorem jump_link_step_ok (cc : CAP_cc) (env : CPUArchState) (np : cap_register_t)
    (link_reg link_pc cjalr_flags : Nat)
    (hL : link_reg = NULL_CAPREG_INDEX ∨ cc.is_representable_cap_with_addr
      { cheri_get_recent_pcc env with _cr_cursor := link_pc } link_pc = true) :
    ∃ env2, jump_link_step cc env np link_reg link_pc cjalr_flags = .ok env2 ∧
      env2.next_pcc = np := by
  unfold jump_link_step
  by_cases h : link_reg = NULL_CAPREG_INDEX
  · rw [if_pos h]
    exact ⟨_, rfl, rfl⟩
  · rcases hL with hL | hL
    · exact absurd hL h
    · rw [if_neg h, if_neg (by rw [hL]; exact Bool.noConfusion)]
      exact ⟨_, rfl, rfl⟩

/-- Whatever the link step returns has `np` as next program-counter capability. -/
theorem jump_link_step_next_pcc (cc : CAP_cc) (env : CPUArchState) (np : cap_register_t)
    (link_reg link_pc cjalr_flags : Nat) (env2 : CPUArchState)
    (h : jump_link_step cc env np link_reg link_pc cjalr_flags = .ok env2) :
    env2.next_pcc = np := by
  unfold jump_link_step at h
  split_ifs at h <;> injection h with h <;> rw [← h] <;> rfl

/-- C17: JumpAndLink target handling, for a call that meets the assertions of
`cheri_jump_and_link` (the target is unsealed or a sentry, a tagged sentry has its
cursor at `addr`, `addr` is representable for a target whose cursor is set, the link
address is representable for the program-counter capability). The call returns, and the
next program-counter capability is the target with object type Unsealed and unchanged
cursor when the target is a tagged sentry; otherwise, when the must-be-sentry flag is
set, the target with its tag cleared (no fault); otherwise the target with cursor
`addr`. A tagged next program-counter capability produced from a sentry is never still
sealed. -/
theorem cheri_jump_and_link_next_pcc (cc : CAP_cc) (env : CPUArchState)
    (target : cap_register_t) (addr link_reg link_pc cjalr_flags : Nat)
    (hA : (cap_is_unsealed target || cap_is_sealed_entry target) = true)
    (hS : target.cr_tag = true ∧ cap_is_sealed_entry target = true →
      cap_get_cursor target = addr)
    (hR : ¬ (target.cr_tag = true ∧ cap_is_sealed_entry target = true) →
      cjalr_flags &&& CJALR_MUST_BE_SENTRY = 0 →
      cc.is_representable_cap_with_addr target addr = true)
    (hL : link_reg = NULL_CAPREG_INDEX ∨ cc.is_representable_cap_with_addr
      { cheri_get_recent_pcc env with _cr_cursor := link_pc } link_pc = true) :
    let r := cheri_jump_and_link cc env target addr link_reg link_pc cjalr_flags
    let sentry := target.cr_tag = true ∧ cap_is_sealed_entry target = true
    (sentry →
      ∃ env2, r = .ok env2 ∧
        env2.next_pcc = { target with cr_otype := CAP_OTYPE_UNSEALED } ∧
        cap_get_cursor env2.next_pcc = cap_get_cursor target) ∧
    (¬ sentry → cjalr_flags &&& CJALR_MUST_BE_SENTRY ≠ 0 →
      ∃ env2, r = .ok env2 ∧ env2.next_pcc = { target with cr_tag := false }) ∧
    (¬ sentry → cjalr_flags &&& CJALR_MUST_BE_SENTRY = 0 →
      ∃ env2, r = .ok env2 ∧ env2.next_pcc = { target with _cr_cursor := addr }) ∧
    (cap_is_sealed_entry target = true → ∀ env2, r = .ok env2 →
      env2.next_pcc.cr_tag = true → cap_is_unsealed env2.next_pcc = true) := by
  intro r sentry
  have hr : r = cheri_jump_and_link cc env target addr link_reg link_pc cjalr_flags := rfl
  rw [cheri_jump_and_link_eq] at hr
  simp only [hA, Bool.true_eq_false, if_false] at hr
  refine ⟨fun hs => ?_, fun hs hf => ?_, fun hs hf => ?_, fun hse env2 he => ?_⟩
  · rw [hr, if_pos hs, if_pos (hS hs)]
    obtain ⟨env2, h1, h2⟩ := jump_link_step_ok cc env (cap_unseal_entry target) link_reg
      link_pc cjalr_flags hL
    exact ⟨env2, h1, h2, by rw [h2]; rfl⟩
  · rw [hr, if_neg hs, if_pos hf]
    exact jump_link_step_ok cc env _ link_reg link_pc cjalr_flags hL
  · rw [hr, if_neg hs, if_neg (not_not.mpr hf), if_pos (hR hs hf)]
    exact jump_link_step_ok cc env _ link_reg link_pc cjalr_flags hL
  · rw [hr] at he
    by_cases ht : target.cr_tag = true
    · have hs : sentry := ⟨ht, hse⟩
      rw [if_pos hs] at he
      split_ifs at he with hc
      have := jump_link_step_next_pcc cc env _ link_reg link_pc cjalr_flags env2 he
      intro _
      rw [this]
      rfl
    · have hs : ¬ sentry := fun h => ht h.1
      have ht2 : target.cr_tag = false := by simpa using ht
      rw [if_neg hs] at he
      intro htag
      split_ifs at he with hf hrp
      · have := jump_link_step_next_pcc cc env _ link_reg link_pc cjalr_flags env2 he
        rw [this] at htag
        cases htag
      · have := jump_link_step_next_pcc cc env _ link_reg link_pc cjalr_flags env2 he
        rw [this] at htag
        simp only [ht2] at htag
        cases htag

/-- Jumping to a sentry at its own cursor with no link register: the next
program-counter capability is the sentry, unsealed, its cursor unchanged. -/
theorem cheri_jump_and_link_next_pcc_witness :
    ∃ env2, cheri_jump_and_link cc_model pcc_env sentry_cap 0x1000 0 0x1004 0 = .ok env2 ∧
      env2.next_pcc = { sentry_cap with cr_otype := CAP_OTYPE_UNSEALED } ∧
      cap_get_cursor env2.next_pcc = cap_get_cursor sentry_cap :=
  (cheri_jump_and_link_next_pcc cc_model pcc_env sentry_cap 0x1000 0 0x1004 0 (by decide)
    (fun _ => rfl) (fun h => absurd ⟨rfl, by decide⟩ h) (Or.inl rfl)).1 ⟨rfl, by decide⟩

/-- C18: JumpAndLink link capability, for a call that meets the assertions of
`cheri_jump_and_link` (the target is unsealed or a sentry, a tagged sentry has its
cursor at `addr`, `addr` is representable for a target whose cursor is set, the link
address is representable for the program-counter capability). When `link_reg` is not
the null register, the call writes to `link_reg` the caller's program-counter
capability with cursor `link_pc`, sealed as a sentry unless the CJALR_DONT_MAKE_SENTRY
flag is set (then with the object type of the program-counter capability), every other
field unchanged, and writes no other register; when `link_reg` is the null register no
register is written. -/
theorem cheri_jump_and_link_link_cap (cc : CAP_cc) (env : CPUArchState)
    (target : cap_register_t) (addr link_reg link_pc cjalr_flags : Nat)
    (hA : (cap_is_unsealed target || cap_is_sealed_entry target) = true)
    (hS : target.cr_tag = true ∧ cap_is_sealed_entry target = true →
      cap_get_cursor target = addr)
    (hR : ¬ (target.cr_tag = true ∧ cap_is_sealed_entry target = true) →
      cjalr_flags &&& CJALR_MUST_BE_SENTRY = 0 →
      cc.is_representable_cap_with_addr target addr = true)
    (hL : link_reg ≠ NULL_CAPREG_INDEX → cc.is_representable_cap_with_addr
      { cheri_get_recent_pcc env with _cr_cursor := link_pc } link_pc = true) :
    let r := cheri_jump_and_link cc env target addr link_reg link_pc cjalr_flags
    let pcc := cheri_get_recent_pcc env
    let link : cap_register_t :=
      { pcc with
        _cr_cursor := link_pc
        cr_otype :=
          if cjalr_flags &&& CJALR_DONT_MAKE_SENTRY = 0 then CAP_OTYPE_SENTRY
          else pcc.cr_otype }
    (link_reg ≠ NULL_CAPREG_INDEX →
      ∃ env2, r = .ok env2 ∧ get_readonly_capreg env2 link_reg = link ∧
        ∀ r2, r2 ≠ link_reg → get_readonly_capreg env2 r2 = get_readonly_capreg env r2) ∧
    (link_reg = NULL_CAPREG_INDEX →
      ∃ env2, r = .ok env2 ∧ ∀ r2, get_readonly_capreg env2 r2 = get_readonly_capreg env r2) := by
  intro r pcc link
  have hnp : ∃ np, r = jump_link_step cc env np link_reg link_pc cjalr_flags := by
    have hr : r = cheri_jump_and_link cc env target addr link_reg link_pc cjalr_flags := rfl
    rw [cheri_jump_and_link_eq] at hr
    simp only [hA, Bool.true_eq_false, if_false] at hr
    by_cases hs : target.cr_tag = true ∧ cap_is_sealed_entry target = true
    · rw [if_pos hs, if_pos (hS hs)] at hr
      exact ⟨_, hr⟩
    · rw [if_neg hs] at hr
      by_cases hf : cjalr_flags &&& CJALR_MUST_BE_SENTRY = 0
      · rw [if_neg (not_not.mpr hf), if_pos (hR hs hf)] at hr
        exact ⟨_, hr⟩
      · rw [if_pos hf] at hr
        exact ⟨_, hr⟩
  obtain ⟨np, hr⟩ := hnp
  unfold jump_link_step at hr
  refine ⟨fun hl => ?_, fun hl => ?_⟩
  · have hrep2 : ¬ (cc.is_representable_cap_with_addr
        { cheri_get_recent_pcc env with _cr_cursor := link_pc } link_pc = false) := by
      rw [hL hl]
      exact Bool.noConfusion
    rw [if_neg hl, if_neg hrep2] at hr
    refine ⟨_, hr, ?_, fun r2 h2 => ?_⟩
    · exact get_update_capreg_same _ _ _
    · exact get_update_capreg_other env link_reg r2 _ h2
  · rw [if_pos hl] at hr
    exact ⟨_, hr, fun r2 => rfl⟩

/-- A jump through an unsealed target with link register 5: the register receives the
program-counter capability with cursor 0x1004, sealed as a sentry. -/
theorem cheri_jump_and_link_link_cap_witness :
    ∃ env2, cheri_jump_and_link cc_model pcc_env
        { scenario_cap with cr_perms := CAP_PERM_EXECUTE } 0x1010 5 0x1004 0 = .ok env2 ∧
      get_readonly_capreg env2 5 =
        { scenario_cap with _cr_cursor := 0x1004, cr_otype := CAP_OTYPE_SENTRY } := by
  obtain ⟨env2, h1, h2, _⟩ := (cheri_jump_and_link_link_cap cc_model pcc_env
    { scenario_cap with cr_perms := CAP_PERM_EXECUTE } 0x1010 5 0x1004 0 (by decide)
    (by decide) (by decide) (by decide)).1 (by decide)
  exact ⟨env2, h1, h2⟩

/-! ## Cursor update and derivation from the program-counter capability -/

/-- C19: for a capability that is not both tagged and sealed, `try_set_cap_cursor`
raises no fault and writes to the destination register the capability with cursor
exactly the new address and with the bounds, permissions, object type and flags of the
source; the tag is that of the source when the address lies within `[base, top)` or is
representable, and is cleared when the address is out of bounds and unrepresentable. A
tagged sealed capability raises SealViolation on the source register and no register
state is returned. -/
theorem try_set_cap_cursor_result (cc : CAP_cc) (env : CPUArchState) (cptr : cap_register_t)
    (regnum_src regnum_dst new_addr : Nat) :
    let r := try_set_cap_cursor cc env cptr regnum_src regnum_dst new_addr
    (¬ (cptr.cr_tag = true ∧ is_cap_sealed cptr = true) →
      ∃ env2, r = .ok env2 ∧
        (∀ r2, r2 ≠ regnum_dst → get_readonly_capreg env2 r2 = get_readonly_capreg env r2) ∧
        (get_readonly_capreg env2 regnum_dst)._cr_cursor = new_addr ∧
        (get_readonly_capreg env2 regnum_dst).cr_base = cptr.cr_base ∧
        (get_readonly_capreg env2 regnum_dst)._cr_top = cptr._cr_top ∧
        (get_readonly_capreg env2 regnum_dst).cr_perms = cptr.cr_perms ∧
        (get_readonly_capreg env2 regnum_dst).cr_uperms = cptr.cr_uperms ∧
        (get_readonly_capreg env2 regnum_dst).cr_otype = cptr.cr_otype ∧
        (get_readonly_capreg env2 regnum_dst).cr_flags = cptr.cr_flags ∧
        ((addr_in_cap_bounds cptr new_addr = true ∨
            cc.is_representable_cap_with_addr cptr new_addr = true) →
          (get_readonly_capreg env2 regnum_dst).cr_tag = cptr.cr_tag) ∧
        (addr_in_cap_bounds cptr new_addr = false →
          cc.is_representable_cap_with_addr cptr new_addr = false →
          (get_readonly_capreg env2 regnum_dst).cr_tag = false)) ∧
    (cptr.cr_tag = true → is_cap_sealed cptr = true →
      r = .error (Trap.cheri .CapEx_SealViolation regnum_src)) := by
  intro r
  have hr : r = try_set_cap_cursor cc env cptr regnum_src regnum_dst new_addr := rfl
  simp only [try_set_cap_cursor, update_capreg_cursor_from, cap_mark_unrepresentable, throw,
    throwThe, MonadExceptOf.throw, pure, Except.pure, Bool.and_eq_true, Bool.false_eq_true,
    if_false] at hr
  refine ⟨fun hns => ?_, fun h1 h2 => ?_⟩
  · rw [if_neg hns] at hr
    by_cases hb : addr_in_cap_bounds cptr new_addr = true
    · rw [if_pos hb] at hr
      refine ⟨_, hr, fun r2 h2 => get_update_capreg_other _ _ _ _ h2, ?_⟩
      rw [get_update_capreg_same]
      simp [hb]
    · rw [if_neg hb] at hr
      by_cases hp : cc.is_representable_cap_with_addr cptr new_addr = true
      · rw [if_neg (by simp [hp])] at hr
        refine ⟨_, hr, fun r2 h2 => get_update_capreg_other _ _ _ _ h2, ?_⟩
        rw [get_update_capreg_same]
        simp [hp]
      · rw [if_pos (by simpa using hp)] at hr
        refine ⟨_, hr, fun r2 h2 => get_update_capreg_other _ _ _ _ h2, ?_⟩
        rw [get_update_capreg_same]
        simp [hb, hp]
  · rw [if_pos ⟨h1, h2⟩] at hr
    exact hr

/-- Moving the cursor of the scenario capability far away (0x100000, not representable
in the model encoding) clears the tag and keeps the bounds; a sealed tagged capability
raises SealViolation. -/
theorem try_set_cap_cursor_result_witness :
    try_set_cap_cursor cc_model null_env scenario_cap 1 2 0x100000 =
      .ok (update_capreg null_env 2
        { scenario_cap with _cr_cursor := 0x100000, cr_tag := false }) ∧
    try_set_cap_cursor cc_model null_env sentry_cap 1 2 0x1008 =
      .error (Trap.cheri .CapEx_SealViolation 1) :=
  ⟨rfl, (try_set_cap_cursor_result cc_model null_env sentry_cap 1 2 0x1008).2 rfl
    (by decide)⟩

/-- C20: `derive_cap_from_pcc` raises no fault and writes to `cd` the program-counter
capability with cursor exactly the new address, its tag kept when the address is
representable for the program-counter capability and cleared otherwise, every other
field unchanged; `helper_cgetpccsetaddr` uses the address `rs` and
`helper_cgetpccsetoffset` the address `base(pcc) + rs` modulo `2 ^ 64`. -/
theorem derive_cap_from_pcc_result (cc : CAP_cc) (env : CPUArchState) (cd new_addr rs : Nat) :
    let pcc := cheri_get_recent_pcc env
    derive_cap_from_pcc cc env cd new_addr =
      .ok (update_capreg env cd
        { pcc with
          _cr_cursor := new_addr
          cr_tag :=
            if cc.is_representable_cap_with_addr pcc new_addr = true then pcc.cr_tag
            else false }) ∧
    helper_cgetpccsetaddr cc env cd rs = derive_cap_from_pcc cc env cd rs ∧
    helper_cgetpccsetoffset cc env cd rs =
      derive_cap_from_pcc cc env cd ((cap_get_base pcc + rs) % 2 ^ 64) := by
  intro pcc
  refine ⟨?_, rfl, ?_⟩
  · simp only [derive_cap_from_pcc, cap_mark_unrepresentable, pure, Except.pure]
    cases cc.is_representable_cap_with_addr (cheri_get_recent_pcc env) new_addr <;> rfl
  · simp only [helper_cgetpccsetoffset]
    rw [Nat.add_comm]

/-- Deriving from the scenario program-counter capability at offset 0x10 gives cursor
0x1010 with the tag kept; at address 0x100000 the tag is cleared. -/
theorem derive_cap_from_pcc_result_witness :
    helper_cgetpccsetoffset cc_model pcc_env 3 0x10 =
      .ok (update_capreg pcc_env 3 { scenario_cap with _cr_cursor := 0x1010 }) ∧
    helper_cgetpccsetaddr cc_model pcc_env 3 0x100000 =
      .ok (update_capreg pcc_env 3
        { scenario_cap with _cr_cursor := 0x100000, cr_tag := false }) :=
  ⟨((derive_cap_from_pcc_result cc_model pcc_env 3 0x10 0x10).2.2).trans rfl,
   ((derive_cap_from_pcc_result cc_model pcc_env 3 0x100000 0x100000).2.1).trans rfl⟩

/-! ## The simple check -/

/-- The simple check as a decision list. -/
theorem check_cap_eq (cr : cap_register_t) (perm addr regnum len : Nat) :
    check_cap cr perm addr regnum len =
      if cr.cr_tag = false then .error (Trap.cheri .CapEx_TagViolation regnum)
      else if cap_is_unsealed cr = false then .error (Trap.cheri .CapEx_SealViolation regnum)
      else if cap_has_perms cr perm = false then
        if perm &&& CAP_PERM_EXECUTE ≠ 0 then
          .error (Trap.cheri .CapEx_PermitExecuteViolation regnum)
        else if perm &&& CAP_PERM_STORE ≠ 0 then
          .error (Trap.cheri .CapEx_PermitStoreViolation regnum)
        else if perm &&& CAP_PERM_LOAD ≠ 0 then
          .error (Trap.cheri .CapEx_PermitLoadViolation regnum)
        else .error Trap.abort
      else if cap_is_in_bounds cr addr len = false then
        .error (Trap.cheri .CapEx_LengthViolation regnum)
      else .ok () := by
  simp only [check_cap, cap_has_perms, throw, throwThe, MonadExceptOf.throw, pure, Except.pure]
  by_cases h1 : cr.cr_tag = false
  · simp [h1]
  by_cases h2 : cap_is_unsealed cr = false
  · simp [h1, h2]
  by_cases h3 : (cap_get_perms cr &&& perm) = perm
  · by_cases h4 : cap_is_in_bounds cr addr len = false
    · simp [h1, h2, h3, h4]
    · simp [h1, h2, h3, h4]
  · simp [h1, h2, h3]

/-- A required set within EXECUTE, STORE and LOAD that names none of them is empty. -/
theorem perm_within_ESL (perm : Nat)
    (hp : perm &&& (CAP_PERM_EXECUTE ||| CAP_PERM_STORE ||| CAP_PERM_LOAD) = perm)
    (hE : perm &&& CAP_PERM_EXECUTE = 0) (hS : perm &&& CAP_PERM_STORE = 0)
    (hL : perm &&& CAP_PERM_LOAD = 0) : perm = 0 := by
  rw [Nat.and_or_distrib_left, Nat.and_or_distrib_left, hE, hS, hL] at hp
  simpa using hp.symm

/-- C25: with the required permissions drawn from EXECUTE, STORE and LOAD, `check_cap`
returns without fault exactly when the capability is tagged, unsealed, holds every
required permission and the access range is within bounds; otherwise it raises the
cause of the first failing test in the order tag, seal, permission, bounds, the
permission cause being PermitExecuteViolation if EXECUTE was requested, else
PermitStoreViolation if STORE was requested, else PermitLoadViolation; the abort branch
is never taken. -/
theorem check_cap_decision (cr : cap_register_t) (perm addr regnum len : Nat)
    (hp : perm &&& (CAP_PERM_EXECUTE ||| CAP_PERM_STORE ||| CAP_PERM_LOAD) = perm) :
    (check_cap cr perm addr regnum len = .ok () ↔
        cr.cr_tag = true ∧ cap_is_unsealed cr = true ∧ cap_has_perms cr perm = true ∧
          cap_is_in_bounds cr addr len = true) ∧
      (cr.cr_tag = false →
        check_cap cr perm addr regnum len = .error (Trap.cheri .CapEx_TagViolation regnum)) ∧
      (cr.cr_tag = true → cap_is_unsealed cr = false →
        check_cap cr perm addr regnum len = .error (Trap.cheri .CapEx_SealViolation regnum)) ∧
      (cr.cr_tag = true → cap_is_unsealed cr = true → cap_has_perms cr perm = false →
        check_cap cr perm addr regnum len =
          .error (Trap.cheri
            (if perm &&& CAP_PERM_EXECUTE ≠ 0 then .CapEx_PermitExecuteViolation
              else if perm &&& CAP_PERM_STORE ≠ 0 then .CapEx_PermitStoreViolation
              else .CapEx_PermitLoadViolation) regnum)) ∧
      (cr.cr_tag = true → cap_is_unsealed cr = true → cap_has_perms cr perm = true →
        cap_is_in_bounds cr addr len = false →
        check_cap cr perm addr regnum len =
          .error (Trap.cheri .CapEx_LengthViolation regnum)) ∧
      check_cap cr perm addr regnum len ≠ .error Trap.abort := by
  have hcause : cap_has_perms cr perm = false →
      ¬ (perm &&& CAP_PERM_EXECUTE = 0 ∧ perm &&& CAP_PERM_STORE = 0 ∧
        perm &&& CAP_PERM_LOAD = 0) := by
    intro hm h
    have h0 := perm_within_ESL perm hp h.1 h.2.1 h.2.2
    rw [h0] at hm
    simp [cap_has_perms] at hm
  rw [check_cap_eq]
  by_cases h1 : cr.cr_tag = false
  · simp [h1]
  by_cases h2 : cap_is_unsealed cr = false
  · simp [h1, h2]
  by_cases h3 : cap_has_perms cr perm = false
  · have hc := hcause h3
    by_cases hE : perm &&& CAP_PERM_EXECUTE = 0
    · by_cases hS : perm &&& CAP_PERM_STORE = 0
      · by_cases hL : perm &&& CAP_PERM_LOAD = 0
        · exact absurd ⟨hE, hS, hL⟩ hc
        · simp [h1, h2, h3, hE, hS, hL]
      · simp [h1, h2, h3, hE, hS]
    · simp [h1, h2, h3, hE]
  by_cases h4 : cap_is_in_bounds cr addr len = false
  · simp [h1, h2, h3, h4]
  · simp [h1, h2, h3, h4]

/-- The scenario capability passes the simple check for a load of 8 bytes at its base,
and the same capability without its tag raises TagViolation. -/
theorem check_cap_decision_witness :
    check_cap scenario_cap CAP_PERM_LOAD 0x1000 3 8 = .ok () ∧
      check_cap { scenario_cap with cr_tag := false } CAP_PERM_LOAD 0x1000 3 8 =
        .error (Trap.cheri .CapEx_TagViolation 3) :=
  ⟨((check_cap_decision scenario_cap CAP_PERM_LOAD 0x1000 3 8 (by decide)).1).2
      ⟨rfl, rfl, rfl, rfl⟩,
    (check_cap_decision { scenario_cap with cr_tag := false } CAP_PERM_LOAD 0x1000 3 8
      (by decide)).2.1 rfl⟩

/-- The page-policy decision as a decision list. -/
theorem cheri_tag_prot_clear_or_trap_eq (va cb : Nat) (cbp : cap_register_t) (prot tag : Nat) :
    cheri_tag_prot_clear_or_trap va cb cbp prot tag =
      if tag ≠ 0 ∧ prot &&& PAGE_LC_CLEAR ≠ 0 then .ok false
      else if tag ≠ 0 ∧ cap_has_perms cbp CAP_PERM_LOAD_CAP = false then .ok false
      else if (tag ≠ 0 ∧ prot &&& PAGE_LC_TRAP ≠ 0) ∨ prot &&& PAGE_LC_TRAP_ANY ≠ 0 then
        .error (Trap.load_tag va cb)
      else .ok (decide (tag ≠ 0)) := by
  simp only [cheri_tag_prot_clear_or_trap, throw, throwThe, MonadExceptOf.throw, pure,
    Except.pure]
  by_cases ht : tag = 0
  · by_cases h3 : prot &&& PAGE_LC_TRAP_ANY = 0
    · simp [ht, h3]
    · simp [ht, h3]
  by_cases h1 : prot &&& PAGE_LC_CLEAR = 0
  swap
  · simp [ht, h1]
  by_cases h2 : cap_has_perms cbp CAP_PERM_LOAD_CAP = false
  · simp [ht, h1, h2]
  by_cases h3 : prot &&& PAGE_LC_TRAP = 0
  · by_cases h4 : prot &&& PAGE_LC_TRAP_ANY = 0
    · simp [ht, h1, h2, h3, h4]
    · simp [ht, h1, h2, h3, h4]
  · simp [ht, h1, h2, h3]

/-- C22: no tag amplification on load. `cheri_tag_prot_clear_or_trap` returns true only
if the stored tag is true, the page policy has no PAGE_LC_CLEAR and the loading
capability carries LOAD_CAP; when the stored tag is true and PAGE_LC_CLEAR is set or
LOAD_CAP is missing, it returns false and raises no trap. -/
theorem tag_prot_no_amplification (va cb : Nat) (cbp : cap_register_t) (prot tag : Nat) :
    (cheri_tag_prot_clear_or_trap va cb cbp prot tag = .ok true →
        tag ≠ 0 ∧ prot &&& PAGE_LC_CLEAR = 0 ∧ cap_has_perms cbp CAP_PERM_LOAD_CAP = true) ∧
      (tag ≠ 0 → (prot &&& PAGE_LC_CLEAR ≠ 0 ∨ cap_has_perms cbp CAP_PERM_LOAD_CAP = false) →
        cheri_tag_prot_clear_or_trap va cb cbp prot tag = .ok false) := by
  rw [cheri_tag_prot_clear_or_trap_eq]
  by_cases ht : tag = 0
  · by_cases h3 : prot &&& PAGE_LC_TRAP_ANY = 0
    · simp [ht, h3]
    · simp [ht, h3]
  by_cases h1 : prot &&& PAGE_LC_CLEAR = 0
  swap
  · simp [ht, h1]
  by_cases h2 : cap_has_perms cbp CAP_PERM_LOAD_CAP = false
  · simp [ht, h1, h2]
  by_cases h3 : prot &&& PAGE_LC_TRAP = 0
  · by_cases h4 : prot &&& PAGE_LC_TRAP_ANY = 0
    · simp [ht, h1, h2, h3, h4]
    · simp [ht, h1, h2, h3, h4]
  · simp [ht, h1, h2, h3]

/-- A set tag loaded through the scenario capability, which lacks LOAD_CAP, is cleared
without a trap. -/
theorem tag_prot_no_amplification_witness :
    cheri_tag_prot_clear_or_trap 0x1000 3 scenario_cap 0 1 = .ok false :=
  (tag_prot_no_amplification 0x1000 3 scenario_cap 0 1).2 (by decide) (Or.inr rfl)

/-- C23: on a page with PAGE_LC_TRAP and without PAGE_LC_CLEAR, the load of a granule
whose stored tag is set, through a capability that carries LOAD_CAP, raises the
load-tag trap; when PAGE_LC_CLEAR is set or LOAD_CAP is missing the tag is cleared
and no trap is raised, PAGE_LC_TRAP notwithstanding. -/
theorem tag_prot_trap (va cb : Nat) (cbp : cap_register_t) (prot tag : Nat)
    (ht : tag ≠ 0) (htrap : prot &&& PAGE_LC_TRAP ≠ 0) :
    (prot &&& PAGE_LC_CLEAR = 0 → cap_has_perms cbp CAP_PERM_LOAD_CAP = true →
        cheri_tag_prot_clear_or_trap va cb cbp prot tag = .error (Trap.load_tag va cb)) ∧
      ((prot &&& PAGE_LC_CLEAR ≠ 0 ∨ cap_has_perms cbp CAP_PERM_LOAD_CAP = false) →
        cheri_tag_prot_clear_or_trap va cb cbp prot tag = .ok false) := by
  rw [cheri_tag_prot_clear_or_trap_eq]
  by_cases h1 : prot &&& PAGE_LC_CLEAR = 0
  swap
  · simp [ht, h1]
  by_cases h2 : cap_has_perms cbp CAP_PERM_LOAD_CAP = false
  · simp [ht, h1, h2]
  · simp [ht, h1, h2, htrap]

/-- A set tag on a PAGE_LC_TRAP page, loaded through a capability with LOAD_CAP, traps. -/
theorem tag_prot_trap_witness :
    cheri_tag_prot_clear_or_trap 0x1000 3 load_cap_source PAGE_LC_TRAP 1 =
      .error (Trap.load_tag 0x1000 3) :=
  (tag_prot_trap 0x1000 3 load_cap_source PAGE_LC_TRAP 1 (by decide) (by decide)).1 rfl rfl

/-- C23, as stated, fails: on a PAGE_LC_TRAP page a set tag loaded through a capability
without LOAD_CAP is cleared silently, and so is one on a page that has PAGE_LC_CLEAR
together with PAGE_LC_TRAP, whatever the capability. -/
theorem tag_prot_trap_counterexample :
    cheri_tag_prot_clear_or_trap 0x1000 3 scenario_cap PAGE_LC_TRAP 1 = .ok false ∧
      cheri_tag_prot_clear_or_trap 0x1000 3 load_cap_source
        (PAGE_LC_TRAP ||| PAGE_LC_CLEAR) 1 = .ok false := by
  exact ⟨rfl, rfl⟩

/-- The store of a capability register as the memory it leaves. -/
theorem store_cap_to_memory_ok (get_capreg_pesbt : CPUArchState → Nat → Nat)
    (mask : Nat) (env : CPUArchState) (mem : GuestMemory) (cs A : Nat)
    (hnull : cs = NULL_CAPREG_INDEX →
      get_capreg_pesbt env cs ^^^ mask = 0 ∧ get_capreg_cursor env cs = 0 ∧
        get_capreg_tag_filtered env cs = false) :
    store_cap_to_memory get_capreg_pesbt mask env mem cs A =
      .ok (st_cap_word
        (st_cap_word
          (if get_capreg_tag_filtered env cs then cheri_tag_set mem A
            else cheri_tag_invalidate_aligned mem A)
          (A + CHERI_MEM_OFFSET_METADATA) (get_capreg_pesbt env cs ^^^ mask))
        (A + CHERI_MEM_OFFSET_CURSOR) (get_capreg_cursor env cs)) := by
  simp only [store_cap_to_memory, store_cap_to_memory_mmu_index, bind, Except.bind, throw,
    throwThe, MonadExceptOf.throw, pure, Except.pure]
  by_cases hc : cs = NULL_CAPREG_INDEX
  · obtain ⟨h1, h2, h3⟩ := hnull hc
    simp [hc, h1, h2, h3] at *
    simp [h1, h2, h3]
  · simp [hc]

/-- C24: tag propagation round trip. After `store_cap_to_memory` of register `cs` to a
capability-aligned address `A`, `load_cap_from_memory_raw` from `A` through a
capability carrying LOAD_CAP, on a page without clear or trap policy, returns the
metadata word, the cursor and the tag that `cs` held: the XOR with the null mask is
undone, and an untagged value leaves the granule untagged. -/
theorem store_load_round_trip (get_capreg_pesbt : CPUArchState → Nat → Nat)
    (mask : Nat) (env : CPUArchState) (mem : GuestMemory) (cs cb A : Nat)
    (source : cap_register_t)
    (halign : QEMU_IS_ALIGNED A CHERI_CAP_SIZE = true)
    (hsrc : cap_has_perms source CAP_PERM_LOAD_CAP = true)
    (hclear : mem.prot A &&& PAGE_LC_CLEAR = 0)
    (htrap : mem.prot A &&& PAGE_LC_TRAP = 0)
    (hany : mem.prot A &&& PAGE_LC_TRAP_ANY = 0)
    (hnull : cs = NULL_CAPREG_INDEX →
      get_capreg_pesbt env cs ^^^ mask = 0 ∧ get_capreg_cursor env cs = 0 ∧
        get_capreg_tag_filtered env cs = false) :
    ∃ mem2, store_cap_to_memory get_capreg_pesbt mask env mem cs A = .ok mem2 ∧
      load_cap_from_memory_raw mask mem2 cb source A =
        .ok (get_capreg_pesbt env cs, get_capreg_cursor env cs,
          (get_readonly_capreg env cs).cr_tag) ∧
      mem2.tags A = (get_readonly_capreg env cs).cr_tag := by
  refine ⟨_, store_cap_to_memory_ok get_capreg_pesbt mask env mem cs A hnull, ?_, ?_⟩
  · by_cases htag : (get_readonly_capreg env cs).cr_tag = true
    · simp [load_cap_from_memory_raw, load_cap_from_memory_raw_tag_mmu_idx, bind,
        Except.bind, pure, Except.pure, halign,
        cheri_tag_prot_clear_or_trap_eq, cheri_tag_get, ld_cap_word, st_cap_word,
        CHERI_MEM_OFFSET_METADATA, CHERI_MEM_OFFSET_CURSOR, get_capreg_tag_filtered,
        htag, cheri_tag_set, hclear, htrap, hany, hsrc, Nat.xor_cancel_right]
    · simp only [Bool.not_eq_true] at htag
      simp [load_cap_from_memory_raw, load_cap_from_memory_raw_tag_mmu_idx, bind,
        Except.bind, pure, Except.pure, halign,
        cheri_tag_prot_clear_or_trap_eq, cheri_tag_get, ld_cap_word, st_cap_word,
        CHERI_MEM_OFFSET_METADATA, CHERI_MEM_OFFSET_CURSOR, get_capreg_tag_filtered,
        htag, cheri_tag_invalidate_aligned, hany, Nat.xor_cancel_right]
  · by_cases htag : (get_readonly_capreg env cs).cr_tag = true
    · simp [st_cap_word, get_capreg_tag_filtered, htag, cheri_tag_set]
    · simp only [Bool.not_eq_true] at htag
      simp [st_cap_word, get_capreg_tag_filtered, htag, cheri_tag_invalidate_aligned]

/-- The scenario capability stored from register 1 to address 0x1000 of the empty
memory is loaded back with its metadata word, cursor and tag. -/
theorem store_load_round_trip_witness :
    ∃ mem2, store_cap_to_memory example_pesbt 0x55 (update_capreg null_env 1 scenario_cap)
        empty_memory 1 0x1000 = .ok mem2 ∧
      load_cap_from_memory_raw 0x55 mem2 3 load_cap_source 0x1000 =
        .ok (example_pesbt (update_capreg null_env 1 scenario_cap) 1,
          get_capreg_cursor (update_capreg null_env 1 scenario_cap) 1,
          (get_readonly_capreg (update_capreg null_env 1 scenario_cap) 1).cr_tag) ∧
      mem2.tags 0x1000 = (get_readonly_capreg (update_capreg null_env 1 scenario_cap) 1).cr_tag :=
  store_load_round_trip example_pesbt 0x55 (update_capreg null_env 1 scenario_cap)
    empty_memory 1 3 0x1000 load_cap_source rfl rfl rfl rfl rfl (fun h => absurd h (by decide))

/-! ## CopyType -/

/-- The model encoding represents every in-bounds cursor. -/
theorem cc_model_in_bounds_representable : in_bounds_representable cc_model := by
  intro c a h1 h2
  simp only [cc_model, cc_is_representable_with_addr, addr_in_cap_bounds, cap_get_base,
    cap_get_top_full, Bool.and_eq_true, decide_eq_true_eq] at *
  exact ⟨⟨h1.1.1, Nat.le_trans h2.1 (Nat.le_add_right _ _)⟩,
    Nat.lt_of_lt_of_le h2.2 (Nat.le_add_right _ _)⟩

/-- C21: CopyType for a tagged, unsealed `cb` (a representable capability, with a
library that represents in-bounds cursors). If `ct` is not SealedWithType, the result is
the untagged integer-valued capability whose value is the sign-extended object type of
`ct`; otherwise, if the object type `t` of `ct` satisfies `base(cb) <= t < top(cb)`, the
result is `cb` with cursor `t` and every other field unchanged; and if `t` is outside,
LengthViolation is raised on `cb`. -/
theorem ccopytype_result (cc : CAP_cc) (env : CPUArchState) (cd cb ct : Nat)
    (htag : (get_readonly_capreg env cb).cr_tag = true)
    (hunsealed : cap_is_unsealed (get_readonly_capreg env cb) = true)
    (hlaw : in_bounds_representable cc)
    (hrep : cc.cap_is_representable (get_readonly_capreg env cb) = true) :
    (cap_is_sealed_with_type (get_readonly_capreg env ct) = false →
        helper_ccopytype cc env cd cb ct =
          .ok (update_capreg env cd
            (int_to_cap (cap_get_otype_signext (get_readonly_capreg env ct)))) ∧
        (int_to_cap (cap_get_otype_signext (get_readonly_capreg env ct))).cr_tag = false ∧
        cap_get_cursor (int_to_cap (cap_get_otype_signext (get_readonly_capreg env ct))) =
          cap_get_otype_signext (get_readonly_capreg env ct)) ∧
      (cap_is_sealed_with_type (get_readonly_capreg env ct) = true →
        cap_get_base (get_readonly_capreg env cb) ≤
          cap_get_otype_unsigned (get_readonly_capreg env ct) →
        cap_get_otype_unsigned (get_readonly_capreg env ct) <
          cap_get_top_full (get_readonly_capreg env cb) →
        helper_ccopytype cc env cd cb ct =
          .ok (update_capreg env cd { get_readonly_capreg env cb with
            _cr_cursor := cap_get_otype_unsigned (get_readonly_capreg env ct) })) ∧
      (cap_is_sealed_with_type (get_readonly_capreg env ct) = true →
        (cap_get_otype_unsigned (get_readonly_capreg env ct) <
            cap_get_base (get_readonly_capreg env cb) ∨
          cap_get_top_full (get_readonly_capreg env cb) ≤
            cap_get_otype_unsigned (get_readonly_capreg env ct)) →
        helper_ccopytype cc env cd cb ct = .error (Trap.cheri .CapEx_LengthViolation cb)) := by
  generalize hcbp : get_readonly_capreg env cb = cbp at *
  generalize hctp : get_readonly_capreg env ct = ctp at *
  have hs : is_cap_sealed cbp = false := by simp [is_cap_sealed, hunsealed]
  have htop : ∀ t, t ≤ CAP_LAST_NONRESERVED_OTYPE →
      (t ≥ cap_get_top cbp ↔ cap_get_top_full cbp ≤ t) := by
    intro t ht
    simp only [cap_get_top, CAP_LAST_NONRESERVED_OTYPE, CAP_MAX_REPRESENTABLE_OTYPE] at *
    omega
  refine ⟨?_, ?_, ?_⟩
  · intro h
    refine ⟨?_, rfl, rfl⟩
    simp [helper_ccopytype, hcbp, hctp, htag, hs, h, pure, Except.pure]
  · intro h hb ht
    have hle : cap_get_otype_unsigned ctp ≤ CAP_LAST_NONRESERVED_OTYPE := by
      simpa [cap_is_sealed_with_type] using h
    have h1 : ¬ cap_get_otype_unsigned ctp < cap_get_base cbp := by omega
    have h2 : ¬ cap_get_otype_unsigned ctp ≥ cap_get_top cbp := by
      rw [htop _ hle]; omega
    have h3 : cc.cap_is_representable
        { cbp with _cr_cursor := cap_get_otype_unsigned ctp } = true :=
      hlaw cbp _ hrep (by simp [addr_in_cap_bounds, hb, ht])
    simp only [htag] at h3
    simp [helper_ccopytype, hcbp, hctp, htag, hs, h, h1, h2, h3, pure, Except.pure]
  · intro h hout
    have hle : cap_get_otype_unsigned ctp ≤ CAP_LAST_NONRESERVED_OTYPE := by
      simpa [cap_is_sealed_with_type] using h
    by_cases h1 : cap_get_otype_unsigned ctp < cap_get_base cbp
    · simp [helper_ccopytype, hcbp, hctp, htag, hs, h, h1, throw, throwThe,
        MonadExceptOf.throw]
    · have h2 : cap_get_otype_unsigned ctp ≥ cap_get_top cbp := by
        rw [htop _ hle]; omega
      simp [helper_ccopytype, hcbp, hctp, htag, hs, h, h1, h2, throw, throwThe,
        MonadExceptOf.throw]

/-- CopyType of the scenario capability with a capability of type 0x1200 gives the
scenario capability with cursor 0x1200; with an unsealed capability it gives the
integer -1. -/
theorem ccopytype_result_witness :
    helper_ccopytype cc_model (two_reg_env scenario_cap typed_cap) 3 1 2 =
        .ok (update_capreg (two_reg_env scenario_cap typed_cap) 3
          { scenario_cap with _cr_cursor := 0x1200 }) ∧
      helper_ccopytype cc_model (two_reg_env scenario_cap sealing_key) 3 1 2 =
        .ok (update_capreg (two_reg_env scenario_cap sealing_key) 3 (int_to_cap (2 ^ 64 - 1))) :=
  ⟨(ccopytype_result cc_model (two_reg_env scenario_cap typed_cap) 3 1 2 rfl rfl
      cc_model_in_bounds_representable rfl).2.1 rfl (by decide) (by decide),
    ((ccopytype_result cc_model (two_reg_env scenario_cap sealing_key) 3 1 2 rfl rfl
      cc_model_in_bounds_representable rfl).1 rfl).1⟩

/-! ## SetBounds with exactly representable bounds -/

/-- C27: SetBounds with exactly representable bounds. For a tagged, unsealed `c` and a
length with `base(c) <= cursor(c)`, `cursor(c) + len <= top(c)` and
`[cursor(c), cursor(c) + len)` exactly representable, SetBounds (exact or not) writes
the capability `c` with base `cursor(c)` and top `cursor(c) + len`: tagged, cursor,
permissions and object type unchanged. -/
theorem csetbounds_exact_bounds (cc : CAP_cc) (env : CPUArchState) (cd cb len : Nat)
    (must_be_exact : Bool)
    (htag : (get_readonly_capreg env cb).cr_tag = true)
    (hunsealed : cap_is_unsealed (get_readonly_capreg env cb) = true)
    (hbase : cap_get_base (get_readonly_capreg env cb) ≤
      cap_get_cursor (get_readonly_capreg env cb))
    (htop : cap_get_cursor (get_readonly_capreg env cb) + len ≤
      cap_get_top_full (get_readonly_capreg env cb))
    (hexact : bounds_exactly_representable cc (get_readonly_capreg env cb)
      (cap_get_cursor (get_readonly_capreg env cb))
      (cap_get_cursor (get_readonly_capreg env cb) + len)) :
    ∃ result, do_setbounds cc must_be_exact env cd cb len = .ok (update_capreg env cd result) ∧
      result.cr_tag = true ∧
      cap_get_base result = cap_get_cursor (get_readonly_capreg env cb) ∧
      cap_get_top_full result = cap_get_cursor (get_readonly_capreg env cb) + len ∧
      cap_get_cursor result = cap_get_cursor (get_readonly_capreg env cb) ∧
      cap_get_perms result = cap_get_perms (get_readonly_capreg env cb) ∧
      cap_get_uperms result = cap_get_uperms (get_readonly_capreg env cb) ∧
      cap_get_otype_unsigned result = cap_get_otype_unsigned (get_readonly_capreg env cb) := by
  generalize hcbp : get_readonly_capreg env cb = cbp at *
  obtain ⟨hsb, hr⟩ := hexact
  refine ⟨{ cbp with cr_base := cap_get_cursor cbp, _cr_top := cap_get_cursor cbp + len },
    ?_, htag, rfl, rfl, rfl, rfl, rfl, rfl⟩
  have hs : is_cap_sealed cbp = false := by simp [is_cap_sealed, hunsealed]
  rw [do_setbounds_eq]
  simp only [hcbp, hsb, htag, hs, hr]
  simp only [cap_get_base, cap_get_top_full, cap_get_cursor, cap_get_length_full] at *
  have h1 : ¬ cbp._cr_cursor < cbp.cr_base := by omega
  have h2 : ¬ cbp._cr_cursor + len > cbp._cr_top := by omega
  have h3 : len ≤ cbp._cr_top - cbp.cr_base := by omega
  simp only [htag] at hr
  simp [h1, h2, h3, hbase, htop, hr]

/-- Scenario A: SetBounds of length 0x500 on the scenario capability gives bounds
`[0x1000, 0x1500)`, tag set. -/
theorem csetbounds_exact_bounds_witness :
    ∃ result, do_setbounds cc_model false (update_capreg null_env 1 scenario_cap) 2 1 0x500 =
        .ok (update_capreg (update_capreg null_env 1 scenario_cap) 2 result) ∧
      result.cr_tag = true ∧ cap_get_base result = 0x1000 ∧
      cap_get_top_full result = 0x1000 + 0x500 ∧ cap_get_cursor result = 0x1000 ∧
      cap_get_perms result = CAP_PERM_LOAD ||| CAP_PERM_STORE ∧
      cap_get_uperms result = 0 ∧ cap_get_otype_unsigned result = CAP_OTYPE_UNSEALED :=
  csetbounds_exact_bounds cc_model (update_capreg null_env 1 scenario_cap) 2 1 0x500 false
    rfl rfl (by decide) (by decide) ⟨by decide, by decide⟩

/-! ## Object type of a sealed result -/

/-- C28: object-type invariant after sealing. Whenever Seal or ConditionalSeal returns,
it has written either `cs` unchanged (the fallback of ConditionalSeal only) or `cs`
sealed with the object type `t = cursor(ct)`, and then `t` is below
MAX_REPRESENTABLE_OTYPE and is not a reserved object-type value, so that the result
is SealedWithType. -/
theorem cseal_sealed_otype (cc : CAP_cc) (env : CPUArchState) (cd cs ct : Nat)
    (conditional : Bool) (env2 : CPUArchState)
    (h : cseal_common cc env cd cs ct conditional = .ok env2) :
    (conditional = true ∧ env2 = update_capreg env cd (get_readonly_capreg env cs)) ∨
      (env2 = update_capreg env cd
          (cap_set_sealed (get_readonly_capreg env cs)
            (cap_get_cursor (get_readonly_capreg env ct))) ∧
        cap_get_otype_unsigned (cap_set_sealed (get_readonly_capreg env cs)
            (cap_get_cursor (get_readonly_capreg env ct))) =
          cap_get_cursor (get_readonly_capreg env ct) ∧
        cap_get_cursor (get_readonly_capreg env ct) < CAP_MAX_REPRESENTABLE_OTYPE ∧
        cap_otype_is_reserved (cap_get_cursor (get_readonly_capreg env ct)) = false ∧
        cap_is_sealed_with_type (cap_set_sealed (get_readonly_capreg env cs)
            (cap_get_cursor (get_readonly_capreg env ct))) = true) := by
  generalize hcsp : get_readonly_capreg env cs = csp at *
  generalize hctp : get_readonly_capreg env ct = ctp at *
  simp only [cseal_common, hcsp, hctp, throw, throwThe, MonadExceptOf.throw, pure,
    Except.pure] at h
  by_cases h1 : csp.cr_tag = true
  swap
  · simp [h1] at h
  by_cases h2 : ctp.cr_tag = true
  swap
  · cases conditional
    · simp [h1, h2] at h
    · simp [h1, h2] at h
      exact Or.inl ⟨rfl, h.symm⟩
  by_cases h3 : cap_is_unsealed csp = true
  swap
  · cases conditional
    · simp [h1, h2, h3] at h
    · simp [h1, h2, h3] at h
      exact Or.inl ⟨rfl, h.symm⟩
  by_cases h4 : cap_cursor_in_bounds ctp = true
  swap
  · cases conditional
    · simp [h1, h2, h3, h4] at h
      revert h
      split_ifs <;> simp
    · simp [h1, h2, h3, h4] at h
      exact Or.inl ⟨rfl, h.symm⟩
  by_cases h5 : cap_get_cursor ctp = CAP_OTYPE_UNSEALED_SIGNED
  · cases conditional
    · have hr : cap_otype_is_reserved (cap_get_cursor ctp) = true := by
        rw [h5]; decide
      simp [h1, h2, h3, h4, hr] at h
      revert h
      split_ifs <;> simp
    · simp [h1, h2, h3, h4, h5] at h
      exact Or.inl ⟨rfl, h.symm⟩
  by_cases h6 : cap_is_unsealed ctp = true
  swap
  · simp [h1, h2, h3, h4, h5, h6] at h
  by_cases h7 : cap_has_perms ctp CAP_PERM_SEAL = true
  swap
  · simp [h1, h2, h3, h4, h5, h6, h7] at h
  by_cases h8 : cap_get_cursor ctp > CAP_MAX_REPRESENTABLE_OTYPE
  · simp [h1, h2, h3, h4, h5, h6, h7, h8] at h
  by_cases h9 : cap_otype_is_reserved (cap_get_cursor ctp) = true
  · simp [h1, h2, h3, h4, h5, h6, h7, h8, h9] at h
  by_cases h10 : cc.is_representable_cap_when_sealed_with_addr csp (cap_get_cursor csp) = true
  swap
  · simp [h1, h2, h3, h4, h5, h6, h7, h8, h9, h10] at h
  simp only [Bool.not_eq_true] at h9
  obtain ⟨f1, f2, _, _⟩ := otype_cursor_facts (cap_get_cursor ctp) (by omega) h9
  simp only [Nat.reducePow] at f2
  simp [h1, h2, h3, h4, h5, h6, h7, h8, h9, h10, f2] at h
  refine Or.inr ⟨h.symm, rfl, ?_, h9, ?_⟩
  · simp only [CAP_LAST_NONRESERVED_OTYPE, CAP_MAX_REPRESENTABLE_OTYPE] at *
    omega
  · simpa [cap_is_sealed_with_type, cap_set_sealed, cap_get_otype_unsigned] using f1

/-- Sealing the scenario capability with the key whose cursor is 5 writes a capability of
object type 5, a non-reserved value below MAX_REPRESENTABLE_OTYPE. -/
theorem cseal_sealed_otype_witness :
    (false = true ∧
        update_capreg (seal_env scenario_cap) 3 (cap_set_sealed scenario_cap 5) =
          update_capreg (seal_env scenario_cap) 3
            (get_readonly_capreg (seal_env scenario_cap) 1)) ∨
      (update_capreg (seal_env scenario_cap) 3 (cap_set_sealed scenario_cap 5) =
          update_capreg (seal_env scenario_cap) 3
            (cap_set_sealed (get_readonly_capreg (seal_env scenario_cap) 1)
              (cap_get_cursor (get_readonly_capreg (seal_env scenario_cap) 2))) ∧
        cap_get_otype_unsigned (cap_set_sealed (get_readonly_capreg (seal_env scenario_cap) 1)
            (cap_get_cursor (get_readonly_capreg (seal_env scenario_cap) 2))) =
          cap_get_cursor (get_readonly_capreg (seal_env scenario_cap) 2) ∧
        cap_get_cursor (get_readonly_capreg (seal_env scenario_cap) 2) <
          CAP_MAX_REPRESENTABLE_OTYPE ∧
        cap_otype_is_reserved (cap_get_cursor (get_readonly_capreg (seal_env scenario_cap) 2)) =
          false ∧
        cap_is_sealed_with_type (cap_set_sealed (get_readonly_capreg (seal_env scenario_cap) 1)
            (cap_get_cursor (get_readonly_capreg (seal_env scenario_cap) 2))) = true) :=
  cseal_sealed_otype cc_model (seal_env scenario_cap) 3 1 2 false
    (update_capreg (seal_env scenario_cap) 3 (cap_set_sealed scenario_cap 5)) rfl

/-! ## Representable lengths -/

/-- The exponent of a length is the least one under which the length fits. -/
theorem cc_exponent_spec (mw len : Nat) (h : len < 2 ^ (64 + mw)) :
    cc_exponent mw len ≤ 64 ∧ len < 2 ^ (cc_exponent mw len + mw) ∧
      ∀ e, e < cc_exponent mw len → 2 ^ (e + mw) ≤ len := by
  unfold cc_exponent
  cases hf : (List.range 65).find? (fun e => decide (len < 2 ^ (e + mw))) with
  | none =>
    rw [List.find?_range_eq_none] at hf
    have := hf 64 (by omega)
    simp at this
    omega
  | some e =>
    rw [List.find?_range_eq_some] at hf
    obtain ⟨h1, h2, h3⟩ := hf
    simp only [Option.getD_some]
    refine ⟨?_, by simpa using h1, fun j hj => ?_⟩
    · have := List.mem_range.mp h2
      omega
    · have := h3 j hj
      simpa using this

/-- The exponent grows with the length. -/
theorem cc_exponent_mono (mw a b : Nat) (hab : a ≤ b) (hb : b < 2 ^ (64 + mw)) :
    cc_exponent mw a ≤ cc_exponent mw b := by
  by_contra hlt
  have h1 := (cc_exponent_spec mw a (by omega)).2.2 (cc_exponent mw b) (by omega)
  have h2 := (cc_exponent_spec mw b hb).2.1
  omega

/-- Rounding up to a multiple of `m`. -/
theorem round_up_facts (x m : Nat) (hm : 0 < m) :
    x ≤ (x + m - 1) / m * m ∧ m ∣ (x + m - 1) / m * m ∧
      ∀ L, m ∣ L → x ≤ L → (x + m - 1) / m * m ≤ L := by
  refine ⟨?_, Dvd.intro_left _ rfl, ?_⟩
  · have h1 := Nat.div_add_mod (x + m - 1) m
    have h2 := Nat.mod_lt (x + m - 1) hm
    rw [Nat.mul_comm] at h1
    omega
  · rintro L ⟨k, rfl⟩ hx
    rw [Nat.mul_comm m k]
    apply Nat.mul_le_mul_right
    rw [← Nat.lt_succ_iff, Nat.div_lt_iff_lt_mul hm]
    have : (k + 1) * m = m * k + m := by ring
    rw [Nat.succ_eq_add_one, this]
    omega

/-- A multiple of `m` is its own rounding. -/
theorem round_up_of_dvd (x m : Nat) (hm : 0 < m) (h : m ∣ x) : (x + m - 1) / m * m = x := by
  obtain ⟨h1, _, h3⟩ := round_up_facts x m hm
  exact Nat.le_antisymm (h3 x h (Nat.le_refl _)) h1

/-- The rounded length of the model encoding. -/
theorem cc_model_crrl_rounded (len : Nat) :
    crrl_rounded cc_model len =
      (len + 2 ^ cc_exponent 8 len - 1) / 2 ^ cc_exponent 8 len * 2 ^ cc_exponent 8 len := by
  simp [crrl_rounded, cc_model, cc_setbounds, cap_get_length_full]

/-- A multiple of two to its own exponent is exactly representable in the model
encoding. -/
theorem cc_model_rep_of_dvd (L : Nat) (h : 2 ^ cc_exponent 8 L ∣ L) :
    length_exactly_representable cc_model L := by
  refine ⟨0, ?_⟩
  have hm : 0 < 2 ^ cc_exponent 8 L := by positivity
  simp [cc_model, cc_setbounds, round_up_of_dvd L _ hm h]

/-- An exactly representable length of the model encoding is a multiple of two to its
own exponent. -/
theorem cc_model_dvd_of_rep (L : Nat) (h : length_exactly_representable cc_model L) :
    2 ^ cc_exponent 8 L ∣ L := by
  obtain ⟨b, hb⟩ := h
  have hm : 0 < 2 ^ cc_exponent 8 L := by positivity
  simp only [cc_model, cc_setbounds, Nat.add_sub_cancel_left, Prod.mk.injEq,
    Bool.and_eq_true, beq_iff_eq] at hb
  obtain ⟨_, h1, h2⟩ := hb
  have d1 : 2 ^ cc_exponent 8 L ∣ b := Dvd.intro_left _ h1
  have d2 : 2 ^ cc_exponent 8 L ∣ b + L := Dvd.intro_left _ h2
  exact (Nat.dvd_add_right d1).mp d2

/-- The model encoding rounds a length up to the smallest exactly representable one. -/
theorem cc_model_rounds_to_smallest : rounds_to_smallest_representable cc_model := by
  refine ⟨cc_model_rep_of_dvd 0 (Nat.dvd_zero _), ?_⟩
  intro len hlen
  have hlen2 : len < 2 ^ (64 + 8) := by
    have : (2 : Nat) ^ 64 ≤ 2 ^ (64 + 8) := Nat.pow_le_pow_right (by decide) (by omega)
    omega
  obtain ⟨_, hE1, hE2⟩ := cc_exponent_spec 8 len hlen2
  have hE56 : cc_exponent 8 len ≤ 56 := by
    by_contra hgt
    have := hE2 56 (by omega)
    simp only [Nat.reducePow, Nat.reduceAdd] at this hlen
    omega
  rw [cc_model_crrl_rounded]
  generalize hE : cc_exponent 8 len = E at *
  have hm : 0 < 2 ^ E := by positivity
  obtain ⟨r1, r2, r3⟩ := round_up_facts len (2 ^ E) hm
  generalize hR : (len + 2 ^ E - 1) / 2 ^ E * 2 ^ E = R at *
  have hpow : 2 ^ (E + 8) = 2 ^ E * 2 ^ 8 := Nat.pow_add 2 E 8
  have hRle : R ≤ 2 ^ (E + 8) :=
    r3 _ (by rw [hpow]; exact Dvd.intro _ rfl) (by omega)
  have h64 : 2 ^ (E + 8) ≤ 2 ^ 64 := Nat.pow_le_pow_right (by decide) (by omega)
  have hR72 : R < 2 ^ (64 + 8) := by
    have : (2 : Nat) ^ 64 < 2 ^ (64 + 8) := Nat.pow_lt_pow_right (by decide) (by omega)
    omega
  refine ⟨by omega, r1, ?_, ?_⟩
  · apply cc_model_rep_of_dvd
    obtain ⟨_, hF1, hF2⟩ := cc_exponent_spec 8 R hR72
    have hmono : E ≤ cc_exponent 8 R := by
      rw [← hE]; exact cc_exponent_mono 8 len R r1 hR72
    have hup : cc_exponent 8 R ≤ E + 1 := by
      by_contra hgt
      have h1 := hF2 (E + 1) (by omega)
      have h2 : 2 ^ (E + 8) < 2 ^ (E + 1 + 8) := Nat.pow_lt_pow_right (by decide) (by omega)
      omega
    rcases Nat.lt_or_ge E (cc_exponent 8 R) with hlt | hge
    · have heq : cc_exponent 8 R = E + 1 := by omega
      have h1 := hF2 E hlt
      have hReq : R = 2 ^ (E + 8) := by omega
      rw [heq, hReq]
      exact Nat.pow_dvd_pow 2 (by omega)
    · have heq : cc_exponent 8 R = E := by omega
      rw [heq]
      exact r2
  · intro L hL hlenL
    rcases Nat.lt_or_ge L (2 ^ 64) with hlt | hge
    · have hL72 : L < 2 ^ (64 + 8) := by
        have : (2 : Nat) ^ 64 < 2 ^ (64 + 8) := Nat.pow_lt_pow_right (by decide) (by omega)
        omega
      have hd := cc_model_dvd_of_rep L hL
      have hmono : E ≤ cc_exponent 8 L := by
        rw [← hE]; exact cc_exponent_mono 8 len L hlenL hL72
      exact r3 L (Nat.dvd_trans (Nat.pow_dvd_pow 2 hmono) hd) hlenL
    · omega

/-- C30: RoundRepresentableLength, for a library that rounds to the smallest exactly
representable length. For every address-width `len`, with `S` the smallest value at or
above `len` that some base/top pair can represent exactly, `crap_impl(len)` is `S`
reduced modulo 2^64: it is `S`, hence at or above `len`, when `S` is below 2^64, and it
is 0 when `S` is 2^64; and `crap_impl(crap_impl(len)) = crap_impl(len)`. -/
theorem crap_impl_rounds (cc : CAP_cc) (hlib : rounds_to_smallest_representable cc)
    (len : Nat) (hlen : len < 2 ^ 64) :
    (length_exactly_representable cc (crrl_rounded cc len) ∧ len ≤ crrl_rounded cc len ∧
        ∀ L, length_exactly_representable cc L → len ≤ L → crrl_rounded cc len ≤ L) ∧
      crap_impl cc len = crrl_rounded cc len % 2 ^ 64 ∧
      (crrl_rounded cc len < 2 ^ 64 →
        crap_impl cc len = crrl_rounded cc len ∧ len ≤ crap_impl cc len) ∧
      (crrl_rounded cc len = 2 ^ 64 → crap_impl cc len = 0) ∧
      (crrl_rounded cc len < 2 ^ 64 ∨ crrl_rounded cc len = 2 ^ 64) ∧
      crap_impl cc (crap_impl cc len) = crap_impl cc len := by
  obtain ⟨hzero, hall⟩ := hlib
  obtain ⟨h1, h2, h3, h4⟩ := hall len hlen
  have hc : ∀ x, crap_impl cc x = crrl_rounded cc x % 2 ^ 64 := fun _ => rfl
  have h0 : crap_impl cc 0 = 0 := by
    have h5 := (hall 0 (by positivity)).2.2.2 0 hzero (Nat.le_refl 0)
    rw [hc, Nat.le_zero.mp h5]
    rfl
  have hlt : crrl_rounded cc len < 2 ^ 64 → crap_impl cc len = crrl_rounded cc len :=
    fun h => by rw [hc]; exact Nat.mod_eq_of_lt h
  have heq : crrl_rounded cc len = 2 ^ 64 → crap_impl cc len = 0 :=
    fun h => by rw [hc, h, Nat.mod_self]
  refine ⟨⟨h3, h2, h4⟩, rfl, fun h => ⟨hlt h, by rw [hlt h]; exact h2⟩, heq, ?_, ?_⟩
  · rcases Nat.lt_or_ge (crrl_rounded cc len) (2 ^ 64) with h | h
    · exact Or.inl h
    · exact Or.inr (Nat.le_antisymm h1 h)
  · rcases Nat.lt_or_ge (crrl_rounded cc len) (2 ^ 64) with h | h
    · rw [hlt h]
      obtain ⟨_, g2, _, g4⟩ := hall (crrl_rounded cc len) h
      have g5 := g4 (crrl_rounded cc len) h3 (Nat.le_refl _)
      have g6 : crrl_rounded cc (crrl_rounded cc len) = crrl_rounded cc len :=
        Nat.le_antisymm g5 g2
      rw [hc, g6]
      exact Nat.mod_eq_of_lt h
    · rw [heq (Nat.le_antisymm h1 h), h0]

/-- A length of 0x501 is rounded to 0x508 in the model encoding, the largest
address-width length to 2^64, of which `crap_impl` returns 0, and rounding again changes
neither. -/
theorem crap_impl_rounds_witness :
    (crap_impl cc_model 0x501 = crrl_rounded cc_model 0x501 ∧
        0x501 ≤ crap_impl cc_model 0x501) ∧
      crap_impl cc_model (2 ^ 64 - 1) = 0 ∧
      crap_impl cc_model (crap_impl cc_model (2 ^ 64 - 1)) = crap_impl cc_model (2 ^ 64 - 1) :=
  ⟨(crap_impl_rounds cc_model cc_model_rounds_to_smallest 0x501 (by decide)).2.2.1
      (by decide),
    (crap_impl_rounds cc_model cc_model_rounds_to_smallest (2 ^ 64 - 1) (by decide)).2.2.2.1
      (by decide),
    (crap_impl_rounds cc_model cc_model_rounds_to_smallest (2 ^ 64 - 1)
      (by decide)).2.2.2.2.2⟩

/-- C30, as stated, fails for lengths close to 2^64: in the model encoding the smallest
exactly representable length at or above 2^64 - 1 is 2^64, and `crap_impl` returns 0, a
value below the request. -/
theorem crap_impl_rounds_counterexample :
    crrl_rounded cc_model (2 ^ 64 - 1) = 2 ^ 64 ∧ crap_impl cc_model (2 ^ 64 - 1) = 0 ∧
      ¬ (2 ^ 64 - 1 ≤ crap_impl cc_model (2 ^ 64 - 1)) := by
  decide

/-! ## CShrink -/

/-- C32: `handle_shrink_cap` derives the written capability from the old value of `cd`,
not from `cb`. With the scenario capability (LOAD and STORE, cursor 0x1800) in `cb` and
a capability with EXECUTE over `[0x5000, 0x5010)` in `cd`, CShrink to the new base
0x1000 writes a capability with the permissions and the cursor of the old `cd` and the
bounds `[0x1000, 0x1800)`, which the old `cd` did not have; `do_setbounds` on the same
registers starts from `cb`. -/
theorem cshrink_derives_from_cd :
    helper_cshrink cc_model (two_reg_env scenario_cap_mid exec_narrow_cap) 2 1 0x1000 =
        .ok (update_capreg (two_reg_env scenario_cap_mid exec_narrow_cap) 2
          { exec_narrow_cap with cr_base := 0x1000, _cr_top := 0x1800 }) ∧
      cap_get_perms { exec_narrow_cap with cr_base := 0x1000, _cr_top := 0x1800 } ≠
        cap_get_perms scenario_cap_mid ∧
      cap_get_cursor { exec_narrow_cap with cr_base := 0x1000, _cr_top := 0x1800 } ≠
        cap_get_cursor scenario_cap_mid ∧
      helper_csetbounds cc_model (two_reg_env scenario_cap_mid exec_narrow_cap) 2 1 0x100 =
        .ok (update_capreg (two_reg_env scenario_cap_mid exec_narrow_cap) 2
          { scenario_cap_mid with cr_base := 0x1800, _cr_top := 0x1900 }) := by
  refine ⟨rfl, by decide, by decide, rfl⟩

/-- C33: `handle_shrink_cap` does not compare the new base with the new top. For the
scenario capability (bounds `[0x1000, 0x2000)`, cursor 0x1000) the new base 0x1800
passes both checks, the bounds requested are base 0x1800 and top 0x1000, and the
capability written has its base above its top. -/
theorem cshrink_base_above_top :
    helper_cshrink cc_model (update_capreg null_env 1 scenario_cap) 1 1 0x1800 =
        .ok (update_capreg (update_capreg null_env 1 scenario_cap) 1
          { scenario_cap with cr_base := 0x1800, _cr_top := 0x1000 }) ∧
      cap_get_base scenario_cap ≤ 0x1800 ∧
      cap_get_cursor scenario_cap ≤ cap_get_top scenario_cap ∧
      ¬ (0x1800 ≤ cap_get_cursor scenario_cap) ∧
      helper_cshrinkimm cc_model (update_capreg null_env 1 scenario_cap) 1 1 0x800 =
        .ok (update_capreg (update_capreg null_env 1 scenario_cap) 1
          { scenario_cap with cr_base := 0x1800, _cr_top := 0x1000 }) := by
  refine ⟨rfl, by decide, by decide, by decide, rfl⟩

/-! ## Uninitialized capabilities -/

/-- C34: `helper_cap_ustore_check` writes `cd` before the store check runs. Through a
capability that lacks STORE the call raises PermitStoreViolation, yet `cd` (register 2)
then holds the capability with the decremented cursor instead of its old value; and on
success the address returned is `cursor - size` when `cd` is `cb` and `cursor` when it
is another register. -/
theorem cap_ustore_check_not_atomic :
    (helper_cap_ustore_check cc_model (update_capreg null_env 1 load_only_mid) 1 0x1800 2 8).2 =
        .error (Trap.cheri .CapEx_PermitStoreViolation 1) ∧
      get_readonly_capreg (update_capreg null_env 1 load_only_mid) 2 = null_capability ∧
      get_readonly_capreg
          (helper_cap_ustore_check cc_model (update_capreg null_env 1 load_only_mid)
            1 0x1800 2 8).1 2 =
        { load_only_mid with _cr_cursor := 0x17f8 } ∧
      (helper_cap_ustore_check cc_model (update_capreg null_env 1 scenario_cap_mid) 1 0x1800 1 8).2 =
        .ok 0x17f8 ∧
      (helper_cap_ustore_check cc_model (update_capreg null_env 1 scenario_cap_mid) 1 0x1800 2 8).2 =
        .ok 0x1800 := by
  refine ⟨rfl, rfl, rfl, rfl, rfl⟩

/-- C35: `cincoffset_impl` tests the destination register for UNINIT, not the source.
With an uninitialized capability (cursor 0x1800) in `cb` and the null capability in
`cd`, CIncOffset by -8 raises no fault and writes the capability with cursor 0x17f8;
with a capability without UNINIT in `cb` and the uninitialized one in `cd`, it raises
UninitViolation. -/
theorem cincoffset_checks_destination :
    cap_is_uninit (update_capreg null_env 1 uninit_cap) 1 = true ∧
      helper_cincoffset cc_model (update_capreg null_env 1 uninit_cap) 2 1 (2 ^ 64 - 8) =
        .ok (update_capreg (update_capreg null_env 1 uninit_cap) 2
          { uninit_cap with _cr_cursor := 0x17f8 }) ∧
      cap_is_uninit (two_reg_env scenario_cap_mid uninit_cap) 1 = false ∧
      helper_cincoffset cc_model (two_reg_env scenario_cap_mid uninit_cap) 2 1 (2 ^ 64 - 8) =
        .error (Trap.cheri .CapEx_UninitViolation 2) := by
  refine ⟨rfl, rfl, rfl, rfl⟩

/-- C36: `helper_cap_load_check` never raises UninitLoadViolation: its offset is an
unsigned value, the test `offset < 0` is false for every offset, and the helper is the
general check with required permission LOAD. A load through an uninitialized capability
at the offset -8 returns the address `cursor - 8`. -/
theorem cap_load_check_never_uninit :
    (∀ (env : CPUArchState) (cb offset size : Nat),
        helper_cap_load_check env cb offset size =
          cap_check_common CAP_PERM_LOAD env cb offset size) ∧
      cap_is_uninit (update_capreg null_env 1 uninit_cap) 1 = true ∧
      helper_cap_load_check (update_capreg null_env 1 uninit_cap) 1 (2 ^ 64 - 8) 8 =
        .ok 0x17f8 := by
  refine ⟨?_, rfl, rfl⟩
  intro env cb offset size
  simp [helper_cap_load_check]

/-! ## Jump and link through a register -/

/-- The permissions `perms_for_store` asks for, by the tag and the GLOBAL permission of
the register to store. -/
theorem perms_for_store_eq (env : CPUArchState) (cs : Nat) :
    perms_for_store env cs =
      if (get_readonly_capreg env cs).cr_tag = true then
        if cap_has_perms (get_readonly_capreg env cs) CAP_PERM_GLOBAL = true then
          CAP_PERM_STORE ||| CAP_PERM_STORE_CAP
        else CAP_PERM_STORE ||| CAP_PERM_STORE_CAP ||| CAP_PERM_STORE_LOCAL
      else CAP_PERM_STORE := by
  have hg : ((get_capreg_hwperms env cs &&& CAP_PERM_GLOBAL) != 0) =
      cap_has_perms (get_readonly_capreg env cs) CAP_PERM_GLOBAL := by
    have h1 := perm_required_two_pow (get_capreg_hwperms env cs) 0
    have h2 := cap_has_perms_two_pow (get_readonly_capreg env cs) 0
    rw [show CAP_PERM_GLOBAL = 2 ^ 0 from rfl, h2]
    exact h1
  simp only [perms_for_store, cap_is_local, hg, get_capreg_tag]
  by_cases ht : (get_readonly_capreg env cs).cr_tag = true
  · by_cases hgl : cap_has_perms (get_readonly_capreg env cs) CAP_PERM_GLOBAL = true
    · simp [ht, hgl]
    · simp [ht, hgl]
  · simp [ht]

/-- The capability store through a register: the check, then the store at the address
the check returns. -/
theorem helper_store_cap_via_cap_eq (get_capreg_pesbt : CPUArchState → Nat → Nat)
    (mask : Nat) (env : CPUArchState) (mem : GuestMemory) (cs cb offset : Nat) :
    helper_store_cap_via_cap get_capreg_pesbt mask env mem cs cb offset =
      match cap_check_common_reg (perms_for_store env cs) cb offset CHERI_CAP_SIZE
          (get_load_store_base_cap env cb) CHERI_CAP_SIZE true with
      | .error t => .error t
      | .ok addr => store_cap_to_memory get_capreg_pesbt mask env mem cs addr := by
  simp only [helper_store_cap_via_cap, bind, Except.bind]
  cases cap_check_common_reg (perms_for_store env cs) cb offset CHERI_CAP_SIZE
    (get_load_store_base_cap env cb) CHERI_CAP_SIZE true <;> rfl

/-- C38: permissions required to store a capability register. `perms_for_store(cs)` is
STORE, plus STORE_CAP exactly when `cs` is tagged, plus STORE_LOCAL exactly when `cs` is
tagged and lacks GLOBAL. Hence, through a tagged, unsealed capability that holds STORE:
an untagged value passes the check when the sixteen bytes are in bounds and aligned; a
tagged value raises PermitStoreCapViolation when STORE_CAP is missing; and a tagged
value without GLOBAL raises PermitStoreLocalCapViolation when STORE_CAP is held and
STORE_LOCAL is missing. -/
theorem store_cap_via_cap_perms (get_capreg_pesbt : CPUArchState → Nat → Nat)
    (mask : Nat) (env : CPUArchState) (mem : GuestMemory) (cs cb offset : Nat)
    (hcb_tag : (get_load_store_base_cap env cb).cr_tag = true)
    (hcb_unsealed : cap_is_unsealed (get_load_store_base_cap env cb) = true)
    (hcb_store : cap_has_perms (get_load_store_base_cap env cb) CAP_PERM_STORE = true) :
    (perm_required (perms_for_store env cs) CAP_PERM_STORE = true ∧
        (perm_required (perms_for_store env cs) CAP_PERM_STORE_CAP = true ↔
          (get_readonly_capreg env cs).cr_tag = true) ∧
        (perm_required (perms_for_store env cs) CAP_PERM_STORE_LOCAL = true ↔
          ((get_readonly_capreg env cs).cr_tag = true ∧
            cap_has_perms (get_readonly_capreg env cs) CAP_PERM_GLOBAL = false)) ∧
        perms_for_store env cs &&&
            (CAP_PERM_STORE ||| CAP_PERM_STORE_CAP ||| CAP_PERM_STORE_LOCAL) =
          perms_for_store env cs) ∧
      ((get_readonly_capreg env cs).cr_tag = false →
        cap_is_in_bounds (get_load_store_base_cap env cb)
          ((cap_get_cursor (get_load_store_base_cap env cb) + offset) % 2 ^ 64)
          CHERI_CAP_SIZE = true →
        QEMU_IS_ALIGNED_P2
          ((cap_get_cursor (get_load_store_base_cap env cb) + offset) % 2 ^ 64)
          CHERI_CAP_SIZE = true →
        helper_store_cap_via_cap get_capreg_pesbt mask env mem cs cb offset =
          store_cap_to_memory get_capreg_pesbt mask env mem cs
            ((cap_get_cursor (get_load_store_base_cap env cb) + offset) % 2 ^ 64)) ∧
      ((get_readonly_capreg env cs).cr_tag = true →
        cap_has_perms (get_load_store_base_cap env cb) CAP_PERM_STORE_CAP = false →
        helper_store_cap_via_cap get_capreg_pesbt mask env mem cs cb offset =
          .error (Trap.cheri .CapEx_PermitStoreCapViolation cb)) ∧
      ((get_readonly_capreg env cs).cr_tag = true →
        cap_has_perms (get_readonly_capreg env cs) CAP_PERM_GLOBAL = false →
        cap_has_perms (get_load_store_base_cap env cb) CAP_PERM_STORE_CAP = true →
        cap_has_perms (get_load_store_base_cap env cb) CAP_PERM_STORE_LOCAL = false →
        helper_store_cap_via_cap get_capreg_pesbt mask env mem cs cb offset =
          .error (Trap.cheri .CapEx_PermitStoreLocalCapViolation cb)) := by
  simp only [helper_store_cap_via_cap_eq, cap_check_common_reg_eq]
  generalize get_load_store_base_cap env cb = cbp at *
  have hp := perms_for_store_eq env cs
  generalize perms_for_store env cs = P at *
  generalize (get_readonly_capreg env cs).cr_tag = t at *
  generalize cap_has_perms (get_readonly_capreg env cs) CAP_PERM_GLOBAL = g at *
  have e1 : perm_required CAP_PERM_STORE CAP_PERM_LOAD = false := by decide
  have e2 : perm_required CAP_PERM_STORE CAP_PERM_LOAD_CAP = false := by decide
  have e3 : perm_required CAP_PERM_STORE CAP_PERM_STORE = true := by decide
  have e4 : perm_required CAP_PERM_STORE CAP_PERM_STORE_CAP = false := by decide
  have e5 : perm_required CAP_PERM_STORE CAP_PERM_STORE_LOCAL = false := by decide
  have f1 : perm_required (CAP_PERM_STORE ||| CAP_PERM_STORE_CAP) CAP_PERM_LOAD = false := by
    decide
  have f2 : perm_required (CAP_PERM_STORE ||| CAP_PERM_STORE_CAP) CAP_PERM_LOAD_CAP = false := by
    decide
  have f3 : perm_required (CAP_PERM_STORE ||| CAP_PERM_STORE_CAP) CAP_PERM_STORE = true := by
    decide
  have f4 : perm_required (CAP_PERM_STORE ||| CAP_PERM_STORE_CAP) CAP_PERM_STORE_CAP = true := by
    decide
  have f5 : perm_required (CAP_PERM_STORE ||| CAP_PERM_STORE_CAP) CAP_PERM_STORE_LOCAL =
      false := by decide
  have g1 : perm_required (CAP_PERM_STORE ||| CAP_PERM_STORE_CAP ||| CAP_PERM_STORE_LOCAL)
      CAP_PERM_LOAD = false := by decide
  have g2 : perm_required (CAP_PERM_STORE ||| CAP_PERM_STORE_CAP ||| CAP_PERM_STORE_LOCAL)
      CAP_PERM_LOAD_CAP = false := by decide
  have g3 : perm_required (CAP_PERM_STORE ||| CAP_PERM_STORE_CAP ||| CAP_PERM_STORE_LOCAL)
      CAP_PERM_STORE = true := by decide
  have g4 : perm_required (CAP_PERM_STORE ||| CAP_PERM_STORE_CAP ||| CAP_PERM_STORE_LOCAL)
      CAP_PERM_STORE_CAP = true := by decide
  have g5 : perm_required (CAP_PERM_STORE ||| CAP_PERM_STORE_CAP ||| CAP_PERM_STORE_LOCAL)
      CAP_PERM_STORE_LOCAL = true := by decide
  have hsz : CHERI_CAP_SIZE ≠ 0 := by decide
  cases t <;> cases g <;> simp only [if_true, if_false, Bool.false_eq_true] at hp <;>
    subst hp <;>
    refine ⟨⟨by decide, by decide, by decide, by decide⟩, ?_, ?_, ?_⟩
  all_goals first
    | (intro h1 h2 h3 h4
       first
         | contradiction
         | simp [missing_LOAD, missing_LOAD_CAP, missing_STORE, missing_STORE_CAP,
             missing_STORE_LOCAL, hcb_tag, hcb_unsealed, hcb_store, e1, e2, e3, e4, e5, f1,
             f2, f3, f4, f5, g1, g2, g3, g4, g5, hsz, h3, h4])
    | (intro h1 h2 h3
       try simp only [Nat.reducePow] at h2 h3
       first
         | contradiction
         | simp [missing_LOAD, missing_LOAD_CAP, missing_STORE, missing_STORE_CAP,
             missing_STORE_LOCAL, hcb_tag, hcb_unsealed, hcb_store, e1, e2, e3, e4, e5, f1,
             f2, f3, f4, f5, g1, g2, g3, g4, g5, hsz, h2, h3])
    | (intro h1 h2
       first
         | contradiction
         | simp [missing_LOAD, missing_LOAD_CAP, missing_STORE, missing_STORE_CAP,
             missing_STORE_LOCAL, hcb_tag, hcb_unsealed, hcb_store, e1, e2, e3, e4, e5, f1,
             f2, f3, f4, f5, g1, g2, g3, g4, g5, hsz, h2])


/-- An untagged value (register 3) stored through a capability that holds only STORE
(register 1) passes the check and is stored at the cursor of that capability. -/
theorem store_cap_via_cap_perms_witness :
    helper_store_cap_via_cap example_pesbt 0x55 (update_capreg null_env 1 store_only_cap)
        empty_memory 3 1 0 =
      store_cap_to_memory example_pesbt 0x55 (update_capreg null_env 1 store_only_cap)
        empty_memory 3 0x1000 :=
  (store_cap_via_cap_perms example_pesbt 0x55 (update_capreg null_env 1 store_only_cap)
    empty_memory 3 1 0 rfl rfl rfl).2.1 rfl rfl rfl

/-! ## The cursor-setting family -/

/-- Bits of the narrowed hardware permissions. -/
theorem candperm_perms_testBit (p rt i : Nat) :
    ((p &&& ((rt % 2 ^ 32) &&& (2 ^ 13 - 1))) % 2 ^ 32).testBit i =
      (p.testBit i && rt.testBit i && decide (i < 13)) := by
  simp only [Nat.testBit_mod_two_pow, Nat.testBit_and, Nat.testBit_two_pow_sub_one]
  by_cases h1 : i < 13
  · have h2 : i < 32 := by omega
    simp [h1, h2]
  · simp [h1]

/-- Bits of the narrowed user permissions. -/
theorem candperm_uperms_testBit (u rt i : Nat) :
    ((u &&& (((rt % 2 ^ 32) >>> 15) &&& (2 ^ 4 - 1))) % 2 ^ 32).testBit i =
      (u.testBit i && rt.testBit (15 + i) && decide (i < 4)) := by
  simp only [Nat.testBit_mod_two_pow, Nat.testBit_and, Nat.testBit_two_pow_sub_one,
    Nat.testBit_shiftRight]
  by_cases h1 : i < 4
  · have h2 : i < 32 := by omega
    have h3 : 15 + i < 32 := by omega
    simp [h1, h2, h3]
  · simp [h1]


/-- Hardware permissions of the CAndPerm result. -/
theorem candperm_result_perms (cbp : cap_register_t) (rt : Nat) :
    cap_get_perms (candperm_result cbp rt) = cap_get_perms cbp &&& (rt &&& CAP_PERMS_ALL) := by
  apply Nat.eq_of_testBit_eq
  intro i
  simp only [candperm_result, update_uperms, update_perms, cap_get_perms, CAP_PERMS_ALL]
  rw [candperm_perms_testBit]
  simp only [Nat.testBit_and, Nat.testBit_two_pow_sub_one, Bool.and_assoc]

/-- User permissions of the CAndPerm result. -/
theorem candperm_result_uperms (cbp : cap_register_t) (rt : Nat) :
    cap_get_uperms (candperm_result cbp rt) =
      cap_get_uperms cbp &&& ((rt >>> CAP_UPERMS_SHFT) &&& CAP_UPERMS_ALL) := by
  apply Nat.eq_of_testBit_eq
  intro i
  simp only [candperm_result, update_uperms, update_perms, cap_get_uperms, cap_get_perms,
    CAP_UPERMS_ALL, CAP_UPERMS_SHFT]
  rw [candperm_uperms_testBit]
  simp only [Nat.testBit_and, Nat.testBit_two_pow_sub_one, Nat.testBit_shiftRight,
    Bool.and_assoc]

/-- Narrowing by `a` and then by `b` is narrowing by `a & b`. -/
theorem candperm_result_twice (cbp : cap_register_t) (a b : Nat) :
    candperm_result (candperm_result cbp a) b = candperm_result cbp (a &&& b) := by
  have hp : (cap_get_perms (candperm_result cbp a) &&& ((b % 2 ^ 32) &&& (2 ^ 13 - 1))) % 2 ^ 32 =
      (cap_get_perms cbp &&& (((a &&& b) % 2 ^ 32) &&& (2 ^ 13 - 1))) % 2 ^ 32 := by
    apply Nat.eq_of_testBit_eq
    intro i
    rw [candperm_perms_testBit, candperm_perms_testBit, candperm_result_perms]
    simp only [Nat.testBit_and, CAP_PERMS_ALL, Nat.testBit_two_pow_sub_one]
    cases (cap_get_perms cbp).testBit i <;> cases a.testBit i <;> cases b.testBit i <;>
      cases decide (i < 13) <;> rfl
  have hu : (cap_get_uperms (candperm_result cbp a) &&&
        (((b % 2 ^ 32) >>> 15) &&& (2 ^ 4 - 1))) % 2 ^ 32 =
      (cap_get_uperms cbp &&& ((((a &&& b) % 2 ^ 32) >>> 15) &&& (2 ^ 4 - 1))) % 2 ^ 32 := by
    apply Nat.eq_of_testBit_eq
    intro i
    rw [candperm_uperms_testBit, candperm_uperms_testBit, candperm_result_uperms]
    simp only [Nat.testBit_and, CAP_UPERMS_ALL, CAP_UPERMS_SHFT, Nat.testBit_two_pow_sub_one,
      Nat.testBit_shiftRight]
    cases (cap_get_uperms cbp).testBit i <;> cases a.testBit (15 + i) <;>
      cases b.testBit (15 + i) <;> cases decide (i < 4) <;> rfl
  have e1 : candperm_result (candperm_result cbp a) b =
      { candperm_result cbp a with
        cr_perms := (cap_get_perms (candperm_result cbp a) &&&
          ((b % 2 ^ 32) &&& (2 ^ 13 - 1))) % 2 ^ 32
        cr_uperms := (cap_get_uperms (candperm_result cbp a) &&&
          (((b % 2 ^ 32) >>> 15) &&& (2 ^ 4 - 1))) % 2 ^ 32 } := rfl
  rw [e1, hp, hu]
  rfl

/-- CAndPerm on a tagged, unsealed capability writes the narrowed capability. -/
theorem helper_candperm_ok (env : CPUArchState) (cd cb rt : Nat)
    (h1 : (get_readonly_capreg env cb).cr_tag = true)
    (h2 : cap_is_unsealed (get_readonly_capreg env cb) = true) :
    helper_candperm env cd cb rt =
      .ok (update_capreg env cd (candperm_result (get_readonly_capreg env cb) rt)) := by
  simp only [helper_candperm, h1, h2, candperm_result, pure, Except.pure]
  rfl

/-- C40: CAndPerm only narrows. For a tagged, unsealed `cb` and every mask `rt`,
`candperm` writes the capability whose hardware permissions are
`perms(cb) & (rt & CAP_PERMS_ALL)` and whose user permissions are
`uperms(cb) & ((rt >> CAP_UPERMS_SHFT) & CAP_UPERMS_ALL)`, subsets of those of `cb`, with
tag, bounds, cursor and object type unchanged; applying it with mask `a` and then with
mask `b` gives the capability of one application with `a & b`. An untagged `cb` raises
TagViolation and a tagged sealed `cb` raises SealViolation. -/
theorem candperm_narrows (env : CPUArchState) (cd cb rt : Nat) :
    ((get_readonly_capreg env cb).cr_tag = false →
        helper_candperm env cd cb rt = .error (Trap.cheri .CapEx_TagViolation cb)) ∧
      ((get_readonly_capreg env cb).cr_tag = true →
        cap_is_unsealed (get_readonly_capreg env cb) = false →
        helper_candperm env cd cb rt = .error (Trap.cheri .CapEx_SealViolation cb)) ∧
      ((get_readonly_capreg env cb).cr_tag = true →
        cap_is_unsealed (get_readonly_capreg env cb) = true →
        helper_candperm env cd cb rt =
            .ok (update_capreg env cd (candperm_result (get_readonly_capreg env cb) rt)) ∧
          cap_get_perms (candperm_result (get_readonly_capreg env cb) rt) =
            cap_get_perms (get_readonly_capreg env cb) &&& (rt &&& CAP_PERMS_ALL) ∧
          cap_get_uperms (candperm_result (get_readonly_capreg env cb) rt) =
            cap_get_uperms (get_readonly_capreg env cb) &&&
              ((rt >>> CAP_UPERMS_SHFT) &&& CAP_UPERMS_ALL) ∧
          cap_get_perms (candperm_result (get_readonly_capreg env cb) rt) &&&
              cap_get_perms (get_readonly_capreg env cb) =
            cap_get_perms (candperm_result (get_readonly_capreg env cb) rt) ∧
          cap_get_uperms (candperm_result (get_readonly_capreg env cb) rt) &&&
              cap_get_uperms (get_readonly_capreg env cb) =
            cap_get_uperms (candperm_result (get_readonly_capreg env cb) rt) ∧
          candperm_result (get_readonly_capreg env cb) rt =
            { get_readonly_capreg env cb with
              cr_perms := cap_get_perms (candperm_result (get_readonly_capreg env cb) rt)
              cr_uperms := cap_get_uperms (candperm_result (get_readonly_capreg env cb) rt) } ∧
          ∀ b cd2,
            helper_candperm
                (update_capreg env cd (candperm_result (get_readonly_capreg env cb) rt))
                cd2 cd b =
              .ok (update_capreg
                (update_capreg env cd (candperm_result (get_readonly_capreg env cb) rt)) cd2
                (candperm_result (get_readonly_capreg env cb) (rt &&& b)))) := by
  generalize hcbp : get_readonly_capreg env cb = cbp
  refine ⟨?_, ?_, ?_⟩
  · intro h
    simp [helper_candperm, hcbp, h, throw, throwThe, MonadExceptOf.throw]
  · intro h1 h2
    simp [helper_candperm, hcbp, h1, h2, throw, throwThe, MonadExceptOf.throw]
  · intro h1 h2
    refine ⟨?_, candperm_result_perms cbp rt, candperm_result_uperms cbp rt, ?_, ?_, rfl, ?_⟩
    · rw [← hcbp] at h1 h2 ⊢
      exact helper_candperm_ok env cd cb rt h1 h2
    · rw [candperm_result_perms]
      apply Nat.eq_of_testBit_eq
      intro i
      simp only [Nat.testBit_and]
      cases (cap_get_perms cbp).testBit i <;> simp
    · rw [candperm_result_uperms]
      apply Nat.eq_of_testBit_eq
      intro i
      simp only [Nat.testBit_and]
      cases (cap_get_uperms cbp).testBit i <;> simp
    · intro b cd2
      have hr : get_readonly_capreg (update_capreg env cd (candperm_result cbp rt)) cd =
          candperm_result cbp rt := get_update_capreg_same env cd _
      have ht : (candperm_result cbp rt).cr_tag = true := h1
      have hu : cap_is_unsealed (candperm_result cbp rt) = true := h2
      rw [helper_candperm_ok _ cd2 cd b (by rw [hr]; exact ht) (by rw [hr]; exact hu), hr,
        candperm_result_twice]

/-- CAndPerm of the scenario capability with the mask LOAD gives the scenario capability
holding LOAD only; a second CAndPerm with the mask STORE leaves no permission. -/
theorem candperm_narrows_witness :
    helper_candperm (update_capreg null_env 1 scenario_cap) 2 1 CAP_PERM_LOAD =
        .ok (update_capreg (update_capreg null_env 1 scenario_cap) 2
          (candperm_result scenario_cap CAP_PERM_LOAD)) ∧
      cap_get_perms (candperm_result scenario_cap CAP_PERM_LOAD) = CAP_PERM_LOAD :=
  ⟨((candperm_narrows (update_capreg null_env 1 scenario_cap) 2 1 CAP_PERM_LOAD).2.2
      rfl rfl).1, by decide⟩

end Cheri
